import Mathlib

/-!
# phiCHOX: the block-hash dispatcher of `src/hash.h`

A shallow embedding of `phiCHOX` (hash.h, lines 358-2665).  The seventeen sph
primitives, the `uint512` class and `std::string` live outside `hash.h`; they
enter the development through the record `Lib`.  Each block of the function
is transcribed statement by statement (`body_modern`, `body_sel48`, ...), an
interpreter executes the statements on an explicit state, and the theorems are
about what that interpreter does.
-/

namespace Chainox

/-- One octet of memory. -/
abbrev Byte := Fin 256

/-- The seventeen sph hash families whose contexts `phiCHOX` declares
(hash.h lines 363-379); a constructor `foo` stands for the C functions
`sph_foo_init`, `sph_foo` and `sph_foo_close` and for the local `ctx_*`
variable they are called on. -/
inductive Prim where
  | blake512 | bmw512 | groestl512 | jh512 | keccak512 | skein512 | luffa512
  | cubehash512 | shavite512 | simd512 | echo512 | hamsi512 | fugue512
  | shabal512 | whirlpool | sha512 | haval256_5
  deriving DecidableEq, Repr

/-- Modelled from the spec: the number of bytes `sph_*_close` writes, which is
declared in the sph headers and not in `hash.h`.  The glossary gives every
primitive a 512-bit output, HAVAL a 256-bit one. -/
def outLen : Prim → Nat
  | .haval256_5 => 32
  | _ => 64

/-- The collaborators of `phiCHOX` that are not defined in `hash.h`. -/
structure Lib where
  /-- The digest a primitive produces for a whole message. -/
  digest : Prim → List Byte → List Byte
  /-- A digest has the output size of its primitive. -/
  digest_length : ∀ p m, (digest p m).length = outLen p
  /-- The 64 bytes of a `uint512` right after its declaration. -/
  uint512_init : List Byte
  /-- A `uint512` occupies 64 bytes. -/
  uint512_init_length : uint512_init.length = 64
  /-- Whether plain `char` is a signed type on the platform. -/
  char_signed : Bool

/-- Concatenation of a list of byte strings. -/
def flat : List (List Byte) → List Byte
  | [] => []
  | s :: ss => s ++ flat ss

/-- The iterator range `[pbegin, pend)` of the template parameter `T1`: the
size of one element, `sizeof(pbegin[0])`, and the object representation of each
element. -/
structure Range where
  /-- The value of `sizeof(pbegin[0])`. -/
  sz : Nat
  /-- The elements between `pbegin` and `pend`, each as its `sz` bytes. -/
  elems : List { e : List Byte // e.length = sz }

/-- The number `pend - pbegin`. -/
def Range.count (r : Range) : Nat := r.elems.length

/-- The memory starting at `&pbegin[0]` and ending at `pend`. -/
def Range.bytes (r : Range) : List Byte := flat (r.elems.map Subtype.val)

/-- A range over single bytes. -/
def Range.ofBytes (bs : List Byte) : Range :=
  ⟨1, bs.map fun b => ⟨[b], rfl⟩⟩

/-- The array `static unsigned char pblank[1]` (hash.h line 380): static
storage, hence zero, and never written. -/
def pblank : List Byte := [0]

/-- The two pointer expressions that occur as the data argument of an update:
`(pbegin == pend ? pblank : static_cast<const void*>(&pbegin[0]))` and
`static_cast<const void*>(&hash[k])`. -/
inductive Src where
  | blankOrBegin
  | hash (k : Nat)
  deriving DecidableEq, Repr

/-- The two length expressions that occur in an update:
`(pend - pbegin) * sizeof(pbegin[0])` and an integer literal. -/
inductive Len where
  | rangeBytes
  | lit (n : Nat)
  deriving DecidableEq, Repr

/-- The three statement forms of a block: `sph_c_init(&ctx_c);`,
`sph_c (&ctx_c, src, len);` and
`sph_c_close(&ctx_c, static_cast<void*>(&hash[dst]));`. -/
inductive Stmt where
  | init (c : Prim)
  | update (c : Prim) (src : Src) (len : Len)
  | close (c : Prim) (dst : Nat)
  deriving DecidableEq, Repr

/-- The address a pointer expression evaluates to. -/
inductive Ptr where
  | pblank
  | pbegin
  | hash (k : Nat)
  deriving DecidableEq, Repr

/-- One executed statement, with its operands evaluated. -/
inductive Event where
  | init (c : Prim)
  | update (c : Prim) (p : Ptr) (n : Nat)
  | close (c : Prim) (dst : Nat)
  deriving DecidableEq, Repr

/-- The locals of `phiCHOX` while a block runs.  A context is `none` until it is
initialised and holds the message absorbed since then; `hash` is the block's
array of `uint512`; `log` lists the statements executed so far. -/
structure State where
  ctx : Prim → Option (List Byte)
  hash : List (List Byte)
  log : List Event

/-- Assignment to one context variable. -/
def setCtx (ctx : Prim → Option (List Byte)) (c : Prim) (v : Option (List Byte)) :
    Prim → Option (List Byte) :=
  fun d => if d = c then v else ctx d

/-- Value of a pointer expression. -/
def evalSrc (input : Range) : Src → Ptr
  | .blankOrBegin => if input.elems.isEmpty then .pblank else .pbegin
  | .hash k => .hash k

/-- Value of a length expression. -/
def evalLen (input : Range) : Len → Nat
  | .rangeBytes => input.count * input.sz
  | .lit n => n

/-- The `n` bytes found at an address, `none` when they do not all lie inside
the object the address points into. -/
def readMem (input : Range) (hash : List (List Byte)) : Ptr → Nat → Option (List Byte)
  | .pblank, n => if n ≤ pblank.length then some (pblank.take n) else none
  | .pbegin, n => if n ≤ input.bytes.length then some (input.bytes.take n) else none
  | .hash k, n =>
    if k < hash.length ∧ n ≤ (flat (hash.drop k)).length then
      some ((flat (hash.drop k)).take n)
    else none

/-- The bytes of an object after a digest has been copied to its start. -/
def store (old digest : List Byte) : List Byte :=
  digest ++ old.drop digest.length

/-- Execution of one statement.  `init` empties the context, `update` appends
the bytes read to the message of an initialised context, `close` writes the
digest of the message to `hash[dst]` and leaves the context unusable until its
next `init` (the library re-initialises it; nothing here depends on that). -/
def step (x : Lib) (input : Range) (σ : State) : Stmt → Option State
  | .init c =>
    some { σ with ctx := setCtx σ.ctx c (some []), log := σ.log ++ [.init c] }
  | .update c src len =>
    match σ.ctx c, readMem input σ.hash (evalSrc input src) (evalLen input len) with
    | some m, some d =>
      some { σ with ctx := setCtx σ.ctx c (some (m ++ d)),
                    log := σ.log ++ [.update c (evalSrc input src) (evalLen input len)] }
    | _, _ => none
  | .close c dst =>
    match σ.ctx c, σ.hash.get? dst with
    | some m, some old =>
      some { ctx := setCtx σ.ctx c none,
             hash := σ.hash.set dst (store old (x.digest c m)),
             log := σ.log ++ [.close c dst] }
    | _, _ => none

/-- Execution of a statement list, in order. -/
def execBody (x : Lib) (input : Range) : State → List Stmt → Option State
  | σ, [] => some σ
  | σ, s :: rest =>
    match step x input σ s with
    | some σ' => execBody x input σ' rest
    | none => none

/-- Statements of the block at hash.h lines 382-417, between the declaration
`uint512 hash[11];` and `return hash[10].trim256();`. -/
def body_modern : List Stmt := [
  Stmt.init Prim.blake512, Stmt.update Prim.blake512 Src.blankOrBegin Len.rangeBytes, Stmt.close Prim.blake512 0,
  Stmt.init Prim.skein512, Stmt.update Prim.skein512 (Src.hash 0) (Len.lit 64), Stmt.close Prim.skein512 1,
  Stmt.init Prim.bmw512, Stmt.update Prim.bmw512 (Src.hash 1) (Len.lit 64), Stmt.close Prim.bmw512 2,
  Stmt.init Prim.groestl512, Stmt.update Prim.groestl512 (Src.hash 2) (Len.lit 64), Stmt.close Prim.groestl512 3,
  Stmt.init Prim.jh512, Stmt.update Prim.jh512 (Src.hash 3) (Len.lit 64), Stmt.close Prim.jh512 4,
  Stmt.init Prim.luffa512, Stmt.update Prim.luffa512 (Src.hash 4) (Len.lit 64), Stmt.close Prim.luffa512 5,
  Stmt.init Prim.keccak512, Stmt.update Prim.keccak512 (Src.hash 5) (Len.lit 64), Stmt.close Prim.keccak512 6,
  Stmt.init Prim.cubehash512, Stmt.update Prim.cubehash512 (Src.hash 6) (Len.lit 64), Stmt.close Prim.cubehash512 7,
  Stmt.init Prim.simd512, Stmt.update Prim.simd512 (Src.hash 7) (Len.lit 64), Stmt.close Prim.simd512 8,
  Stmt.init Prim.shavite512, Stmt.update Prim.shavite512 (Src.hash 8) (Len.lit 64), Stmt.close Prim.shavite512 9,
  Stmt.init Prim.echo512, Stmt.update Prim.echo512 (Src.hash 9) (Len.lit 64), Stmt.close Prim.echo512 10]

/-- Statements of the block at hash.h lines 419-523, between the declaration
`uint512 hash[34];` and `return hash[33].trim256();`. -/
def body_sel48 : List Stmt := [
  Stmt.init Prim.blake512, Stmt.update Prim.blake512 Src.blankOrBegin Len.rangeBytes, Stmt.close Prim.blake512 0,
  Stmt.init Prim.bmw512, Stmt.update Prim.bmw512 (Src.hash 0) (Len.lit 64), Stmt.close Prim.bmw512 1,
  Stmt.init Prim.groestl512, Stmt.update Prim.groestl512 (Src.hash 1) (Len.lit 64), Stmt.close Prim.groestl512 2,
  Stmt.init Prim.skein512, Stmt.update Prim.skein512 (Src.hash 2) (Len.lit 64), Stmt.close Prim.skein512 3,
  Stmt.init Prim.jh512, Stmt.update Prim.jh512 (Src.hash 3) (Len.lit 64), Stmt.close Prim.jh512 4,
  Stmt.init Prim.keccak512, Stmt.update Prim.keccak512 (Src.hash 4) (Len.lit 64), Stmt.close Prim.keccak512 5,
  Stmt.init Prim.luffa512, Stmt.update Prim.luffa512 (Src.hash 5) (Len.lit 64), Stmt.close Prim.luffa512 6,
  Stmt.init Prim.cubehash512, Stmt.update Prim.cubehash512 (Src.hash 6) (Len.lit 64), Stmt.close Prim.cubehash512 7,
  Stmt.init Prim.shavite512, Stmt.update Prim.shavite512 (Src.hash 7) (Len.lit 64), Stmt.close Prim.shavite512 8,
  Stmt.init Prim.simd512, Stmt.update Prim.simd512 (Src.hash 8) (Len.lit 64), Stmt.close Prim.simd512 9,
  Stmt.init Prim.echo512, Stmt.update Prim.echo512 (Src.hash 9) (Len.lit 64), Stmt.close Prim.echo512 10,
  Stmt.init Prim.hamsi512, Stmt.update Prim.hamsi512 (Src.hash 10) (Len.lit 64), Stmt.close Prim.hamsi512 11,
  Stmt.init Prim.fugue512, Stmt.update Prim.fugue512 (Src.hash 11) (Len.lit 64), Stmt.close Prim.fugue512 12,
  Stmt.init Prim.shabal512, Stmt.update Prim.shabal512 (Src.hash 12) (Len.lit 64), Stmt.close Prim.shabal512 13,
  Stmt.init Prim.whirlpool, Stmt.update Prim.whirlpool (Src.hash 13) (Len.lit 64), Stmt.close Prim.whirlpool 14,
  Stmt.init Prim.sha512, Stmt.update Prim.sha512 (Src.hash 14) (Len.lit 64), Stmt.close Prim.sha512 15,
  Stmt.init Prim.haval256_5, Stmt.update Prim.haval256_5 (Src.hash 15) (Len.lit 64), Stmt.close Prim.haval256_5 16,
  Stmt.init Prim.bmw512, Stmt.update Prim.bmw512 (Src.hash 16) (Len.lit 64), Stmt.close Prim.bmw512 17,
  Stmt.init Prim.groestl512, Stmt.update Prim.groestl512 (Src.hash 17) (Len.lit 64), Stmt.close Prim.groestl512 18,
  Stmt.init Prim.skein512, Stmt.update Prim.skein512 (Src.hash 18) (Len.lit 64), Stmt.close Prim.skein512 19,
  Stmt.init Prim.jh512, Stmt.update Prim.jh512 (Src.hash 19) (Len.lit 64), Stmt.close Prim.jh512 20,
  Stmt.init Prim.keccak512, Stmt.update Prim.keccak512 (Src.hash 20) (Len.lit 64), Stmt.close Prim.keccak512 21,
  Stmt.init Prim.luffa512, Stmt.update Prim.luffa512 (Src.hash 21) (Len.lit 64), Stmt.close Prim.luffa512 22,
  Stmt.init Prim.cubehash512, Stmt.update Prim.cubehash512 (Src.hash 22) (Len.lit 64), Stmt.close Prim.cubehash512 23,
  Stmt.init Prim.shavite512, Stmt.update Prim.shavite512 (Src.hash 23) (Len.lit 64), Stmt.close Prim.shavite512 24,
  Stmt.init Prim.simd512, Stmt.update Prim.simd512 (Src.hash 24) (Len.lit 64), Stmt.close Prim.simd512 25,
  Stmt.init Prim.echo512, Stmt.update Prim.echo512 (Src.hash 25) (Len.lit 64), Stmt.close Prim.echo512 26,
  Stmt.init Prim.hamsi512, Stmt.update Prim.hamsi512 (Src.hash 26) (Len.lit 64), Stmt.close Prim.hamsi512 27,
  Stmt.init Prim.fugue512, Stmt.update Prim.fugue512 (Src.hash 27) (Len.lit 64), Stmt.close Prim.fugue512 28,
  Stmt.init Prim.shabal512, Stmt.update Prim.shabal512 (Src.hash 28) (Len.lit 64), Stmt.close Prim.shabal512 29,
  Stmt.init Prim.whirlpool, Stmt.update Prim.whirlpool (Src.hash 29) (Len.lit 64), Stmt.close Prim.whirlpool 30,
  Stmt.init Prim.sha512, Stmt.update Prim.sha512 (Src.hash 30) (Len.lit 64), Stmt.close Prim.sha512 31,
  Stmt.init Prim.haval256_5, Stmt.update Prim.haval256_5 (Src.hash 31) (Len.lit 64), Stmt.close Prim.haval256_5 32,
  Stmt.init Prim.cubehash512, Stmt.update Prim.cubehash512 (Src.hash 32) (Len.lit 64), Stmt.close Prim.cubehash512 33]

/-- Statements of the block at hash.h lines 524-631, between the declaration
`uint512 hash[35];` and `return hash[34].trim256();`. -/
def body_sel49 : List Stmt := [
  Stmt.init Prim.blake512, Stmt.update Prim.blake512 Src.blankOrBegin Len.rangeBytes, Stmt.close Prim.blake512 0,
  Stmt.init Prim.bmw512, Stmt.update Prim.bmw512 (Src.hash 0) (Len.lit 64), Stmt.close Prim.bmw512 1,
  Stmt.init Prim.groestl512, Stmt.update Prim.groestl512 (Src.hash 1) (Len.lit 64), Stmt.close Prim.groestl512 2,
  Stmt.init Prim.skein512, Stmt.update Prim.skein512 (Src.hash 2) (Len.lit 64), Stmt.close Prim.skein512 3,
  Stmt.init Prim.jh512, Stmt.update Prim.jh512 (Src.hash 3) (Len.lit 64), Stmt.close Prim.jh512 4,
  Stmt.init Prim.keccak512, Stmt.update Prim.keccak512 (Src.hash 4) (Len.lit 64), Stmt.close Prim.keccak512 5,
  Stmt.init Prim.luffa512, Stmt.update Prim.luffa512 (Src.hash 5) (Len.lit 64), Stmt.close Prim.luffa512 6,
  Stmt.init Prim.cubehash512, Stmt.update Prim.cubehash512 (Src.hash 6) (Len.lit 64), Stmt.close Prim.cubehash512 7,
  Stmt.init Prim.shavite512, Stmt.update Prim.shavite512 (Src.hash 7) (Len.lit 64), Stmt.close Prim.shavite512 8,
  Stmt.init Prim.simd512, Stmt.update Prim.simd512 (Src.hash 8) (Len.lit 64), Stmt.close Prim.simd512 9,
  Stmt.init Prim.echo512, Stmt.update Prim.echo512 (Src.hash 9) (Len.lit 64), Stmt.close Prim.echo512 10,
  Stmt.init Prim.hamsi512, Stmt.update Prim.hamsi512 (Src.hash 10) (Len.lit 64), Stmt.close Prim.hamsi512 11,
  Stmt.init Prim.fugue512, Stmt.update Prim.fugue512 (Src.hash 11) (Len.lit 64), Stmt.close Prim.fugue512 12,
  Stmt.init Prim.shabal512, Stmt.update Prim.shabal512 (Src.hash 12) (Len.lit 64), Stmt.close Prim.shabal512 13,
  Stmt.init Prim.whirlpool, Stmt.update Prim.whirlpool (Src.hash 13) (Len.lit 64), Stmt.close Prim.whirlpool 14,
  Stmt.init Prim.sha512, Stmt.update Prim.sha512 (Src.hash 14) (Len.lit 64), Stmt.close Prim.sha512 15,
  Stmt.init Prim.haval256_5, Stmt.update Prim.haval256_5 (Src.hash 15) (Len.lit 64), Stmt.close Prim.haval256_5 16,
  Stmt.init Prim.bmw512, Stmt.update Prim.bmw512 (Src.hash 16) (Len.lit 64), Stmt.close Prim.bmw512 17,
  Stmt.init Prim.groestl512, Stmt.update Prim.groestl512 (Src.hash 17) (Len.lit 64), Stmt.close Prim.groestl512 18,
  Stmt.init Prim.skein512, Stmt.update Prim.skein512 (Src.hash 18) (Len.lit 64), Stmt.close Prim.skein512 19,
  Stmt.init Prim.jh512, Stmt.update Prim.jh512 (Src.hash 19) (Len.lit 64), Stmt.close Prim.jh512 20,
  Stmt.init Prim.keccak512, Stmt.update Prim.keccak512 (Src.hash 20) (Len.lit 64), Stmt.close Prim.keccak512 21,
  Stmt.init Prim.luffa512, Stmt.update Prim.luffa512 (Src.hash 21) (Len.lit 64), Stmt.close Prim.luffa512 22,
  Stmt.init Prim.cubehash512, Stmt.update Prim.cubehash512 (Src.hash 22) (Len.lit 64), Stmt.close Prim.cubehash512 23,
  Stmt.init Prim.shavite512, Stmt.update Prim.shavite512 (Src.hash 23) (Len.lit 64), Stmt.close Prim.shavite512 24,
  Stmt.init Prim.simd512, Stmt.update Prim.simd512 (Src.hash 24) (Len.lit 64), Stmt.close Prim.simd512 25,
  Stmt.init Prim.echo512, Stmt.update Prim.echo512 (Src.hash 25) (Len.lit 64), Stmt.close Prim.echo512 26,
  Stmt.init Prim.hamsi512, Stmt.update Prim.hamsi512 (Src.hash 26) (Len.lit 64), Stmt.close Prim.hamsi512 27,
  Stmt.init Prim.fugue512, Stmt.update Prim.fugue512 (Src.hash 27) (Len.lit 64), Stmt.close Prim.fugue512 28,
  Stmt.init Prim.shabal512, Stmt.update Prim.shabal512 (Src.hash 28) (Len.lit 64), Stmt.close Prim.shabal512 29,
  Stmt.init Prim.whirlpool, Stmt.update Prim.whirlpool (Src.hash 29) (Len.lit 64), Stmt.close Prim.whirlpool 30,
  Stmt.init Prim.sha512, Stmt.update Prim.sha512 (Src.hash 30) (Len.lit 64), Stmt.close Prim.sha512 31,
  Stmt.init Prim.haval256_5, Stmt.update Prim.haval256_5 (Src.hash 31) (Len.lit 64), Stmt.close Prim.haval256_5 32,
  Stmt.init Prim.shabal512, Stmt.update Prim.shabal512 (Src.hash 32) (Len.lit 64), Stmt.close Prim.shabal512 33,
  Stmt.init Prim.whirlpool, Stmt.update Prim.whirlpool (Src.hash 33) (Len.lit 64), Stmt.close Prim.whirlpool 34]

/-- Statements of the block at hash.h lines 632-742, between the declaration
`uint512 hash[36];` and `return hash[35].trim256();`. -/
def body_sel50 : List Stmt := [
  Stmt.init Prim.blake512, Stmt.update Prim.blake512 Src.blankOrBegin Len.rangeBytes, Stmt.close Prim.blake512 0,
  Stmt.init Prim.bmw512, Stmt.update Prim.bmw512 (Src.hash 0) (Len.lit 64), Stmt.close Prim.bmw512 1,
  Stmt.init Prim.groestl512, Stmt.update Prim.groestl512 (Src.hash 1) (Len.lit 64), Stmt.close Prim.groestl512 2,
  Stmt.init Prim.skein512, Stmt.update Prim.skein512 (Src.hash 2) (Len.lit 64), Stmt.close Prim.skein512 3,
  Stmt.init Prim.jh512, Stmt.update Prim.jh512 (Src.hash 3) (Len.lit 64), Stmt.close Prim.jh512 4,
  Stmt.init Prim.keccak512, Stmt.update Prim.keccak512 (Src.hash 4) (Len.lit 64), Stmt.close Prim.keccak512 5,
  Stmt.init Prim.luffa512, Stmt.update Prim.luffa512 (Src.hash 5) (Len.lit 64), Stmt.close Prim.luffa512 6,
  Stmt.init Prim.cubehash512, Stmt.update Prim.cubehash512 (Src.hash 6) (Len.lit 64), Stmt.close Prim.cubehash512 7,
  Stmt.init Prim.shavite512, Stmt.update Prim.shavite512 (Src.hash 7) (Len.lit 64), Stmt.close Prim.shavite512 8,
  Stmt.init Prim.simd512, Stmt.update Prim.simd512 (Src.hash 8) (Len.lit 64), Stmt.close Prim.simd512 9,
  Stmt.init Prim.echo512, Stmt.update Prim.echo512 (Src.hash 9) (Len.lit 64), Stmt.close Prim.echo512 10,
  Stmt.init Prim.hamsi512, Stmt.update Prim.hamsi512 (Src.hash 10) (Len.lit 64), Stmt.close Prim.hamsi512 11,
  Stmt.init Prim.fugue512, Stmt.update Prim.fugue512 (Src.hash 11) (Len.lit 64), Stmt.close Prim.fugue512 12,
  Stmt.init Prim.shabal512, Stmt.update Prim.shabal512 (Src.hash 12) (Len.lit 64), Stmt.close Prim.shabal512 13,
  Stmt.init Prim.whirlpool, Stmt.update Prim.whirlpool (Src.hash 13) (Len.lit 64), Stmt.close Prim.whirlpool 14,
  Stmt.init Prim.sha512, Stmt.update Prim.sha512 (Src.hash 14) (Len.lit 64), Stmt.close Prim.sha512 15,
  Stmt.init Prim.haval256_5, Stmt.update Prim.haval256_5 (Src.hash 15) (Len.lit 64), Stmt.close Prim.haval256_5 16,
  Stmt.init Prim.bmw512, Stmt.update Prim.bmw512 (Src.hash 16) (Len.lit 64), Stmt.close Prim.bmw512 17,
  Stmt.init Prim.groestl512, Stmt.update Prim.groestl512 (Src.hash 17) (Len.lit 64), Stmt.close Prim.groestl512 18,
  Stmt.init Prim.skein512, Stmt.update Prim.skein512 (Src.hash 18) (Len.lit 64), Stmt.close Prim.skein512 19,
  Stmt.init Prim.jh512, Stmt.update Prim.jh512 (Src.hash 19) (Len.lit 64), Stmt.close Prim.jh512 20,
  Stmt.init Prim.keccak512, Stmt.update Prim.keccak512 (Src.hash 20) (Len.lit 64), Stmt.close Prim.keccak512 21,
  Stmt.init Prim.luffa512, Stmt.update Prim.luffa512 (Src.hash 21) (Len.lit 64), Stmt.close Prim.luffa512 22,
  Stmt.init Prim.cubehash512, Stmt.update Prim.cubehash512 (Src.hash 22) (Len.lit 64), Stmt.close Prim.cubehash512 23,
  Stmt.init Prim.shavite512, Stmt.update Prim.shavite512 (Src.hash 23) (Len.lit 64), Stmt.close Prim.shavite512 24,
  Stmt.init Prim.simd512, Stmt.update Prim.simd512 (Src.hash 24) (Len.lit 64), Stmt.close Prim.simd512 25,
  Stmt.init Prim.echo512, Stmt.update Prim.echo512 (Src.hash 25) (Len.lit 64), Stmt.close Prim.echo512 26,
  Stmt.init Prim.hamsi512, Stmt.update Prim.hamsi512 (Src.hash 26) (Len.lit 64), Stmt.close Prim.hamsi512 27,
  Stmt.init Prim.fugue512, Stmt.update Prim.fugue512 (Src.hash 27) (Len.lit 64), Stmt.close Prim.fugue512 28,
  Stmt.init Prim.shabal512, Stmt.update Prim.shabal512 (Src.hash 28) (Len.lit 64), Stmt.close Prim.shabal512 29,
  Stmt.init Prim.whirlpool, Stmt.update Prim.whirlpool (Src.hash 29) (Len.lit 64), Stmt.close Prim.whirlpool 30,
  Stmt.init Prim.sha512, Stmt.update Prim.sha512 (Src.hash 30) (Len.lit 64), Stmt.close Prim.sha512 31,
  Stmt.init Prim.haval256_5, Stmt.update Prim.haval256_5 (Src.hash 31) (Len.lit 64), Stmt.close Prim.haval256_5 32,
  Stmt.init Prim.simd512, Stmt.update Prim.simd512 (Src.hash 32) (Len.lit 64), Stmt.close Prim.simd512 33,
  Stmt.init Prim.echo512, Stmt.update Prim.echo512 (Src.hash 33) (Len.lit 64), Stmt.close Prim.echo512 34,
  Stmt.init Prim.hamsi512, Stmt.update Prim.hamsi512 (Src.hash 34) (Len.lit 64), Stmt.close Prim.hamsi512 35]

/-- Statements of the block at hash.h lines 743-856, between the declaration
`uint512 hash[37];` and `return hash[36].trim256();`. -/
def body_sel51 : List Stmt := [
  Stmt.init Prim.blake512, Stmt.update Prim.blake512 Src.blankOrBegin Len.rangeBytes, Stmt.close Prim.blake512 0,
  Stmt.init Prim.bmw512, Stmt.update Prim.bmw512 (Src.hash 0) (Len.lit 64), Stmt.close Prim.bmw512 1,
  Stmt.init Prim.groestl512, Stmt.update Prim.groestl512 (Src.hash 1) (Len.lit 64), Stmt.close Prim.groestl512 2,
  Stmt.init Prim.skein512, Stmt.update Prim.skein512 (Src.hash 2) (Len.lit 64), Stmt.close Prim.skein512 3,
  Stmt.init Prim.jh512, Stmt.update Prim.jh512 (Src.hash 3) (Len.lit 64), Stmt.close Prim.jh512 4,
  Stmt.init Prim.keccak512, Stmt.update Prim.keccak512 (Src.hash 4) (Len.lit 64), Stmt.close Prim.keccak512 5,
  Stmt.init Prim.luffa512, Stmt.update Prim.luffa512 (Src.hash 5) (Len.lit 64), Stmt.close Prim.luffa512 6,
  Stmt.init Prim.cubehash512, Stmt.update Prim.cubehash512 (Src.hash 6) (Len.lit 64), Stmt.close Prim.cubehash512 7,
  Stmt.init Prim.shavite512, Stmt.update Prim.shavite512 (Src.hash 7) (Len.lit 64), Stmt.close Prim.shavite512 8,
  Stmt.init Prim.simd512, Stmt.update Prim.simd512 (Src.hash 8) (Len.lit 64), Stmt.close Prim.simd512 9,
  Stmt.init Prim.echo512, Stmt.update Prim.echo512 (Src.hash 9) (Len.lit 64), Stmt.close Prim.echo512 10,
  Stmt.init Prim.hamsi512, Stmt.update Prim.hamsi512 (Src.hash 10) (Len.lit 64), Stmt.close Prim.hamsi512 11,
  Stmt.init Prim.fugue512, Stmt.update Prim.fugue512 (Src.hash 11) (Len.lit 64), Stmt.close Prim.fugue512 12,
  Stmt.init Prim.shabal512, Stmt.update Prim.shabal512 (Src.hash 12) (Len.lit 64), Stmt.close Prim.shabal512 13,
  Stmt.init Prim.whirlpool, Stmt.update Prim.whirlpool (Src.hash 13) (Len.lit 64), Stmt.close Prim.whirlpool 14,
  Stmt.init Prim.sha512, Stmt.update Prim.sha512 (Src.hash 14) (Len.lit 64), Stmt.close Prim.sha512 15,
  Stmt.init Prim.haval256_5, Stmt.update Prim.haval256_5 (Src.hash 15) (Len.lit 64), Stmt.close Prim.haval256_5 16,
  Stmt.init Prim.bmw512, Stmt.update Prim.bmw512 (Src.hash 16) (Len.lit 64), Stmt.close Prim.bmw512 17,
  Stmt.init Prim.groestl512, Stmt.update Prim.groestl512 (Src.hash 17) (Len.lit 64), Stmt.close Prim.groestl512 18,
  Stmt.init Prim.skein512, Stmt.update Prim.skein512 (Src.hash 18) (Len.lit 64), Stmt.close Prim.skein512 19,
  Stmt.init Prim.jh512, Stmt.update Prim.jh512 (Src.hash 19) (Len.lit 64), Stmt.close Prim.jh512 20,
  Stmt.init Prim.keccak512, Stmt.update Prim.keccak512 (Src.hash 20) (Len.lit 64), Stmt.close Prim.keccak512 21,
  Stmt.init Prim.luffa512, Stmt.update Prim.luffa512 (Src.hash 21) (Len.lit 64), Stmt.close Prim.luffa512 22,
  Stmt.init Prim.cubehash512, Stmt.update Prim.cubehash512 (Src.hash 22) (Len.lit 64), Stmt.close Prim.cubehash512 23,
  Stmt.init Prim.shavite512, Stmt.update Prim.shavite512 (Src.hash 23) (Len.lit 64), Stmt.close Prim.shavite512 24,
  Stmt.init Prim.simd512, Stmt.update Prim.simd512 (Src.hash 24) (Len.lit 64), Stmt.close Prim.simd512 25,
  Stmt.init Prim.echo512, Stmt.update Prim.echo512 (Src.hash 25) (Len.lit 64), Stmt.close Prim.echo512 26,
  Stmt.init Prim.hamsi512, Stmt.update Prim.hamsi512 (Src.hash 26) (Len.lit 64), Stmt.close Prim.hamsi512 27,
  Stmt.init Prim.fugue512, Stmt.update Prim.fugue512 (Src.hash 27) (Len.lit 64), Stmt.close Prim.fugue512 28,
  Stmt.init Prim.shabal512, Stmt.update Prim.shabal512 (Src.hash 28) (Len.lit 64), Stmt.close Prim.shabal512 29,
  Stmt.init Prim.whirlpool, Stmt.update Prim.whirlpool (Src.hash 29) (Len.lit 64), Stmt.close Prim.whirlpool 30,
  Stmt.init Prim.sha512, Stmt.update Prim.sha512 (Src.hash 30) (Len.lit 64), Stmt.close Prim.sha512 31,
  Stmt.init Prim.haval256_5, Stmt.update Prim.haval256_5 (Src.hash 31) (Len.lit 64), Stmt.close Prim.haval256_5 32,
  Stmt.init Prim.bmw512, Stmt.update Prim.bmw512 (Src.hash 32) (Len.lit 64), Stmt.close Prim.bmw512 33,
  Stmt.init Prim.groestl512, Stmt.update Prim.groestl512 (Src.hash 33) (Len.lit 64), Stmt.close Prim.groestl512 34,
  Stmt.init Prim.skein512, Stmt.update Prim.skein512 (Src.hash 34) (Len.lit 64), Stmt.close Prim.skein512 35,
  Stmt.init Prim.jh512, Stmt.update Prim.jh512 (Src.hash 35) (Len.lit 64), Stmt.close Prim.jh512 36]

/-- Statements of the block at hash.h lines 857-973, between the declaration
`uint512 hash[38];` and `return hash[37].trim256();`. -/
def body_sel52 : List Stmt := [
  Stmt.init Prim.blake512, Stmt.update Prim.blake512 Src.blankOrBegin Len.rangeBytes, Stmt.close Prim.blake512 0,
  Stmt.init Prim.bmw512, Stmt.update Prim.bmw512 (Src.hash 0) (Len.lit 64), Stmt.close Prim.bmw512 1,
  Stmt.init Prim.groestl512, Stmt.update Prim.groestl512 (Src.hash 1) (Len.lit 64), Stmt.close Prim.groestl512 2,
  Stmt.init Prim.skein512, Stmt.update Prim.skein512 (Src.hash 2) (Len.lit 64), Stmt.close Prim.skein512 3,
  Stmt.init Prim.jh512, Stmt.update Prim.jh512 (Src.hash 3) (Len.lit 64), Stmt.close Prim.jh512 4,
  Stmt.init Prim.keccak512, Stmt.update Prim.keccak512 (Src.hash 4) (Len.lit 64), Stmt.close Prim.keccak512 5,
  Stmt.init Prim.luffa512, Stmt.update Prim.luffa512 (Src.hash 5) (Len.lit 64), Stmt.close Prim.luffa512 6,
  Stmt.init Prim.cubehash512, Stmt.update Prim.cubehash512 (Src.hash 6) (Len.lit 64), Stmt.close Prim.cubehash512 7,
  Stmt.init Prim.shavite512, Stmt.update Prim.shavite512 (Src.hash 7) (Len.lit 64), Stmt.close Prim.shavite512 8,
  Stmt.init Prim.simd512, Stmt.update Prim.simd512 (Src.hash 8) (Len.lit 64), Stmt.close Prim.simd512 9,
  Stmt.init Prim.echo512, Stmt.update Prim.echo512 (Src.hash 9) (Len.lit 64), Stmt.close Prim.echo512 10,
  Stmt.init Prim.hamsi512, Stmt.update Prim.hamsi512 (Src.hash 10) (Len.lit 64), Stmt.close Prim.hamsi512 11,
  Stmt.init Prim.fugue512, Stmt.update Prim.fugue512 (Src.hash 11) (Len.lit 64), Stmt.close Prim.fugue512 12,
  Stmt.init Prim.shabal512, Stmt.update Prim.shabal512 (Src.hash 12) (Len.lit 64), Stmt.close Prim.shabal512 13,
  Stmt.init Prim.whirlpool, Stmt.update Prim.whirlpool (Src.hash 13) (Len.lit 64), Stmt.close Prim.whirlpool 14,
  Stmt.init Prim.sha512, Stmt.update Prim.sha512 (Src.hash 14) (Len.lit 64), Stmt.close Prim.sha512 15,
  Stmt.init Prim.haval256_5, Stmt.update Prim.haval256_5 (Src.hash 15) (Len.lit 64), Stmt.close Prim.haval256_5 16,
  Stmt.init Prim.bmw512, Stmt.update Prim.bmw512 (Src.hash 16) (Len.lit 64), Stmt.close Prim.bmw512 17,
  Stmt.init Prim.groestl512, Stmt.update Prim.groestl512 (Src.hash 17) (Len.lit 64), Stmt.close Prim.groestl512 18,
  Stmt.init Prim.skein512, Stmt.update Prim.skein512 (Src.hash 18) (Len.lit 64), Stmt.close Prim.skein512 19,
  Stmt.init Prim.jh512, Stmt.update Prim.jh512 (Src.hash 19) (Len.lit 64), Stmt.close Prim.jh512 20,
  Stmt.init Prim.keccak512, Stmt.update Prim.keccak512 (Src.hash 20) (Len.lit 64), Stmt.close Prim.keccak512 21,
  Stmt.init Prim.luffa512, Stmt.update Prim.luffa512 (Src.hash 21) (Len.lit 64), Stmt.close Prim.luffa512 22,
  Stmt.init Prim.cubehash512, Stmt.update Prim.cubehash512 (Src.hash 22) (Len.lit 64), Stmt.close Prim.cubehash512 23,
  Stmt.init Prim.shavite512, Stmt.update Prim.shavite512 (Src.hash 23) (Len.lit 64), Stmt.close Prim.shavite512 24,
  Stmt.init Prim.simd512, Stmt.update Prim.simd512 (Src.hash 24) (Len.lit 64), Stmt.close Prim.simd512 25,
  Stmt.init Prim.echo512, Stmt.update Prim.echo512 (Src.hash 25) (Len.lit 64), Stmt.close Prim.echo512 26,
  Stmt.init Prim.hamsi512, Stmt.update Prim.hamsi512 (Src.hash 26) (Len.lit 64), Stmt.close Prim.hamsi512 27,
  Stmt.init Prim.fugue512, Stmt.update Prim.fugue512 (Src.hash 27) (Len.lit 64), Stmt.close Prim.fugue512 28,
  Stmt.init Prim.shabal512, Stmt.update Prim.shabal512 (Src.hash 28) (Len.lit 64), Stmt.close Prim.shabal512 29,
  Stmt.init Prim.whirlpool, Stmt.update Prim.whirlpool (Src.hash 29) (Len.lit 64), Stmt.close Prim.whirlpool 30,
  Stmt.init Prim.sha512, Stmt.update Prim.sha512 (Src.hash 30) (Len.lit 64), Stmt.close Prim.sha512 31,
  Stmt.init Prim.haval256_5, Stmt.update Prim.haval256_5 (Src.hash 31) (Len.lit 64), Stmt.close Prim.haval256_5 32,
  Stmt.init Prim.sha512, Stmt.update Prim.sha512 (Src.hash 32) (Len.lit 64), Stmt.close Prim.sha512 33,
  Stmt.init Prim.haval256_5, Stmt.update Prim.haval256_5 (Src.hash 33) (Len.lit 64), Stmt.close Prim.haval256_5 34,
  Stmt.init Prim.bmw512, Stmt.update Prim.bmw512 (Src.hash 34) (Len.lit 64), Stmt.close Prim.bmw512 35,
  Stmt.init Prim.groestl512, Stmt.update Prim.groestl512 (Src.hash 35) (Len.lit 64), Stmt.close Prim.groestl512 36,
  Stmt.init Prim.skein512, Stmt.update Prim.skein512 (Src.hash 36) (Len.lit 64), Stmt.close Prim.skein512 37]

/-- Statements of the block at hash.h lines 974-1093, between the declaration
`uint512 hash[39];` and `return hash[38].trim256();`. -/
def body_sel53 : List Stmt := [
  Stmt.init Prim.blake512, Stmt.update Prim.blake512 Src.blankOrBegin Len.rangeBytes, Stmt.close Prim.blake512 0,
  Stmt.init Prim.bmw512, Stmt.update Prim.bmw512 (Src.hash 0) (Len.lit 64), Stmt.close Prim.bmw512 1,
  Stmt.init Prim.groestl512, Stmt.update Prim.groestl512 (Src.hash 1) (Len.lit 64), Stmt.close Prim.groestl512 2,
  Stmt.init Prim.skein512, Stmt.update Prim.skein512 (Src.hash 2) (Len.lit 64), Stmt.close Prim.skein512 3,
  Stmt.init Prim.jh512, Stmt.update Prim.jh512 (Src.hash 3) (Len.lit 64), Stmt.close Prim.jh512 4,
  Stmt.init Prim.keccak512, Stmt.update Prim.keccak512 (Src.hash 4) (Len.lit 64), Stmt.close Prim.keccak512 5,
  Stmt.init Prim.luffa512, Stmt.update Prim.luffa512 (Src.hash 5) (Len.lit 64), Stmt.close Prim.luffa512 6,
  Stmt.init Prim.cubehash512, Stmt.update Prim.cubehash512 (Src.hash 6) (Len.lit 64), Stmt.close Prim.cubehash512 7,
  Stmt.init Prim.shavite512, Stmt.update Prim.shavite512 (Src.hash 7) (Len.lit 64), Stmt.close Prim.shavite512 8,
  Stmt.init Prim.simd512, Stmt.update Prim.simd512 (Src.hash 8) (Len.lit 64), Stmt.close Prim.simd512 9,
  Stmt.init Prim.echo512, Stmt.update Prim.echo512 (Src.hash 9) (Len.lit 64), Stmt.close Prim.echo512 10,
  Stmt.init Prim.hamsi512, Stmt.update Prim.hamsi512 (Src.hash 10) (Len.lit 64), Stmt.close Prim.hamsi512 11,
  Stmt.init Prim.fugue512, Stmt.update Prim.fugue512 (Src.hash 11) (Len.lit 64), Stmt.close Prim.fugue512 12,
  Stmt.init Prim.shabal512, Stmt.update Prim.shabal512 (Src.hash 12) (Len.lit 64), Stmt.close Prim.shabal512 13,
  Stmt.init Prim.whirlpool, Stmt.update Prim.whirlpool (Src.hash 13) (Len.lit 64), Stmt.close Prim.whirlpool 14,
  Stmt.init Prim.sha512, Stmt.update Prim.sha512 (Src.hash 14) (Len.lit 64), Stmt.close Prim.sha512 15,
  Stmt.init Prim.haval256_5, Stmt.update Prim.haval256_5 (Src.hash 15) (Len.lit 64), Stmt.close Prim.haval256_5 16,
  Stmt.init Prim.bmw512, Stmt.update Prim.bmw512 (Src.hash 16) (Len.lit 64), Stmt.close Prim.bmw512 17,
  Stmt.init Prim.groestl512, Stmt.update Prim.groestl512 (Src.hash 17) (Len.lit 64), Stmt.close Prim.groestl512 18,
  Stmt.init Prim.skein512, Stmt.update Prim.skein512 (Src.hash 18) (Len.lit 64), Stmt.close Prim.skein512 19,
  Stmt.init Prim.jh512, Stmt.update Prim.jh512 (Src.hash 19) (Len.lit 64), Stmt.close Prim.jh512 20,
  Stmt.init Prim.keccak512, Stmt.update Prim.keccak512 (Src.hash 20) (Len.lit 64), Stmt.close Prim.keccak512 21,
  Stmt.init Prim.luffa512, Stmt.update Prim.luffa512 (Src.hash 21) (Len.lit 64), Stmt.close Prim.luffa512 22,
  Stmt.init Prim.cubehash512, Stmt.update Prim.cubehash512 (Src.hash 22) (Len.lit 64), Stmt.close Prim.cubehash512 23,
  Stmt.init Prim.shavite512, Stmt.update Prim.shavite512 (Src.hash 23) (Len.lit 64), Stmt.close Prim.shavite512 24,
  Stmt.init Prim.simd512, Stmt.update Prim.simd512 (Src.hash 24) (Len.lit 64), Stmt.close Prim.simd512 25,
  Stmt.init Prim.echo512, Stmt.update Prim.echo512 (Src.hash 25) (Len.lit 64), Stmt.close Prim.echo512 26,
  Stmt.init Prim.hamsi512, Stmt.update Prim.hamsi512 (Src.hash 26) (Len.lit 64), Stmt.close Prim.hamsi512 27,
  Stmt.init Prim.fugue512, Stmt.update Prim.fugue512 (Src.hash 27) (Len.lit 64), Stmt.close Prim.fugue512 28,
  Stmt.init Prim.shabal512, Stmt.update Prim.shabal512 (Src.hash 28) (Len.lit 64), Stmt.close Prim.shabal512 29,
  Stmt.init Prim.whirlpool, Stmt.update Prim.whirlpool (Src.hash 29) (Len.lit 64), Stmt.close Prim.whirlpool 30,
  Stmt.init Prim.sha512, Stmt.update Prim.sha512 (Src.hash 30) (Len.lit 64), Stmt.close Prim.sha512 31,
  Stmt.init Prim.haval256_5, Stmt.update Prim.haval256_5 (Src.hash 31) (Len.lit 64), Stmt.close Prim.haval256_5 32,
  Stmt.init Prim.jh512, Stmt.update Prim.jh512 (Src.hash 32) (Len.lit 64), Stmt.close Prim.jh512 33,
  Stmt.init Prim.keccak512, Stmt.update Prim.keccak512 (Src.hash 33) (Len.lit 64), Stmt.close Prim.keccak512 34,
  Stmt.init Prim.luffa512, Stmt.update Prim.luffa512 (Src.hash 34) (Len.lit 64), Stmt.close Prim.luffa512 35,
  Stmt.init Prim.cubehash512, Stmt.update Prim.cubehash512 (Src.hash 35) (Len.lit 64), Stmt.close Prim.cubehash512 36,
  Stmt.init Prim.shavite512, Stmt.update Prim.shavite512 (Src.hash 36) (Len.lit 64), Stmt.close Prim.shavite512 37,
  Stmt.init Prim.simd512, Stmt.update Prim.simd512 (Src.hash 37) (Len.lit 64), Stmt.close Prim.simd512 38]

/-- Statements of the block at hash.h lines 1094-1216, between the declaration
`uint512 hash[40];` and `return hash[39].trim256();`. -/
def body_sel54 : List Stmt := [
  Stmt.init Prim.blake512, Stmt.update Prim.blake512 Src.blankOrBegin Len.rangeBytes, Stmt.close Prim.blake512 0,
  Stmt.init Prim.bmw512, Stmt.update Prim.bmw512 (Src.hash 0) (Len.lit 64), Stmt.close Prim.bmw512 1,
  Stmt.init Prim.groestl512, Stmt.update Prim.groestl512 (Src.hash 1) (Len.lit 64), Stmt.close Prim.groestl512 2,
  Stmt.init Prim.skein512, Stmt.update Prim.skein512 (Src.hash 2) (Len.lit 64), Stmt.close Prim.skein512 3,
  Stmt.init Prim.jh512, Stmt.update Prim.jh512 (Src.hash 3) (Len.lit 64), Stmt.close Prim.jh512 4,
  Stmt.init Prim.keccak512, Stmt.update Prim.keccak512 (Src.hash 4) (Len.lit 64), Stmt.close Prim.keccak512 5,
  Stmt.init Prim.luffa512, Stmt.update Prim.luffa512 (Src.hash 5) (Len.lit 64), Stmt.close Prim.luffa512 6,
  Stmt.init Prim.cubehash512, Stmt.update Prim.cubehash512 (Src.hash 6) (Len.lit 64), Stmt.close Prim.cubehash512 7,
  Stmt.init Prim.shavite512, Stmt.update Prim.shavite512 (Src.hash 7) (Len.lit 64), Stmt.close Prim.shavite512 8,
  Stmt.init Prim.simd512, Stmt.update Prim.simd512 (Src.hash 8) (Len.lit 64), Stmt.close Prim.simd512 9,
  Stmt.init Prim.echo512, Stmt.update Prim.echo512 (Src.hash 9) (Len.lit 64), Stmt.close Prim.echo512 10,
  Stmt.init Prim.hamsi512, Stmt.update Prim.hamsi512 (Src.hash 10) (Len.lit 64), Stmt.close Prim.hamsi512 11,
  Stmt.init Prim.fugue512, Stmt.update Prim.fugue512 (Src.hash 11) (Len.lit 64), Stmt.close Prim.fugue512 12,
  Stmt.init Prim.shabal512, Stmt.update Prim.shabal512 (Src.hash 12) (Len.lit 64), Stmt.close Prim.shabal512 13,
  Stmt.init Prim.whirlpool, Stmt.update Prim.whirlpool (Src.hash 13) (Len.lit 64), Stmt.close Prim.whirlpool 14,
  Stmt.init Prim.sha512, Stmt.update Prim.sha512 (Src.hash 14) (Len.lit 64), Stmt.close Prim.sha512 15,
  Stmt.init Prim.haval256_5, Stmt.update Prim.haval256_5 (Src.hash 15) (Len.lit 64), Stmt.close Prim.haval256_5 16,
  Stmt.init Prim.bmw512, Stmt.update Prim.bmw512 (Src.hash 16) (Len.lit 64), Stmt.close Prim.bmw512 17,
  Stmt.init Prim.groestl512, Stmt.update Prim.groestl512 (Src.hash 17) (Len.lit 64), Stmt.close Prim.groestl512 18,
  Stmt.init Prim.skein512, Stmt.update Prim.skein512 (Src.hash 18) (Len.lit 64), Stmt.close Prim.skein512 19,
  Stmt.init Prim.jh512, Stmt.update Prim.jh512 (Src.hash 19) (Len.lit 64), Stmt.close Prim.jh512 20,
  Stmt.init Prim.keccak512, Stmt.update Prim.keccak512 (Src.hash 20) (Len.lit 64), Stmt.close Prim.keccak512 21,
  Stmt.init Prim.luffa512, Stmt.update Prim.luffa512 (Src.hash 21) (Len.lit 64), Stmt.close Prim.luffa512 22,
  Stmt.init Prim.cubehash512, Stmt.update Prim.cubehash512 (Src.hash 22) (Len.lit 64), Stmt.close Prim.cubehash512 23,
  Stmt.init Prim.shavite512, Stmt.update Prim.shavite512 (Src.hash 23) (Len.lit 64), Stmt.close Prim.shavite512 24,
  Stmt.init Prim.simd512, Stmt.update Prim.simd512 (Src.hash 24) (Len.lit 64), Stmt.close Prim.simd512 25,
  Stmt.init Prim.echo512, Stmt.update Prim.echo512 (Src.hash 25) (Len.lit 64), Stmt.close Prim.echo512 26,
  Stmt.init Prim.hamsi512, Stmt.update Prim.hamsi512 (Src.hash 26) (Len.lit 64), Stmt.close Prim.hamsi512 27,
  Stmt.init Prim.fugue512, Stmt.update Prim.fugue512 (Src.hash 27) (Len.lit 64), Stmt.close Prim.fugue512 28,
  Stmt.init Prim.shabal512, Stmt.update Prim.shabal512 (Src.hash 28) (Len.lit 64), Stmt.close Prim.shabal512 29,
  Stmt.init Prim.whirlpool, Stmt.update Prim.whirlpool (Src.hash 29) (Len.lit 64), Stmt.close Prim.whirlpool 30,
  Stmt.init Prim.sha512, Stmt.update Prim.sha512 (Src.hash 30) (Len.lit 64), Stmt.close Prim.sha512 31,
  Stmt.init Prim.haval256_5, Stmt.update Prim.haval256_5 (Src.hash 31) (Len.lit 64), Stmt.close Prim.haval256_5 32,
  Stmt.init Prim.shabal512, Stmt.update Prim.shabal512 (Src.hash 32) (Len.lit 64), Stmt.close Prim.shabal512 33,
  Stmt.init Prim.whirlpool, Stmt.update Prim.whirlpool (Src.hash 33) (Len.lit 64), Stmt.close Prim.whirlpool 34,
  Stmt.init Prim.sha512, Stmt.update Prim.sha512 (Src.hash 34) (Len.lit 64), Stmt.close Prim.sha512 35,
  Stmt.init Prim.haval256_5, Stmt.update Prim.haval256_5 (Src.hash 35) (Len.lit 64), Stmt.close Prim.haval256_5 36,
  Stmt.init Prim.bmw512, Stmt.update Prim.bmw512 (Src.hash 36) (Len.lit 64), Stmt.close Prim.bmw512 37,
  Stmt.init Prim.groestl512, Stmt.update Prim.groestl512 (Src.hash 37) (Len.lit 64), Stmt.close Prim.groestl512 38,
  Stmt.init Prim.skein512, Stmt.update Prim.skein512 (Src.hash 38) (Len.lit 64), Stmt.close Prim.skein512 39]

/-- Statements of the block at hash.h lines 1217-1342, between the declaration
`uint512 hash[41];` and `return hash[40].trim256();`. -/
def body_sel55 : List Stmt := [
  Stmt.init Prim.blake512, Stmt.update Prim.blake512 Src.blankOrBegin Len.rangeBytes, Stmt.close Prim.blake512 0,
  Stmt.init Prim.bmw512, Stmt.update Prim.bmw512 (Src.hash 0) (Len.lit 64), Stmt.close Prim.bmw512 1,
  Stmt.init Prim.groestl512, Stmt.update Prim.groestl512 (Src.hash 1) (Len.lit 64), Stmt.close Prim.groestl512 2,
  Stmt.init Prim.skein512, Stmt.update Prim.skein512 (Src.hash 2) (Len.lit 64), Stmt.close Prim.skein512 3,
  Stmt.init Prim.jh512, Stmt.update Prim.jh512 (Src.hash 3) (Len.lit 64), Stmt.close Prim.jh512 4,
  Stmt.init Prim.keccak512, Stmt.update Prim.keccak512 (Src.hash 4) (Len.lit 64), Stmt.close Prim.keccak512 5,
  Stmt.init Prim.luffa512, Stmt.update Prim.luffa512 (Src.hash 5) (Len.lit 64), Stmt.close Prim.luffa512 6,
  Stmt.init Prim.cubehash512, Stmt.update Prim.cubehash512 (Src.hash 6) (Len.lit 64), Stmt.close Prim.cubehash512 7,
  Stmt.init Prim.shavite512, Stmt.update Prim.shavite512 (Src.hash 7) (Len.lit 64), Stmt.close Prim.shavite512 8,
  Stmt.init Prim.simd512, Stmt.update Prim.simd512 (Src.hash 8) (Len.lit 64), Stmt.close Prim.simd512 9,
  Stmt.init Prim.echo512, Stmt.update Prim.echo512 (Src.hash 9) (Len.lit 64), Stmt.close Prim.echo512 10,
  Stmt.init Prim.hamsi512, Stmt.update Prim.hamsi512 (Src.hash 10) (Len.lit 64), Stmt.close Prim.hamsi512 11,
  Stmt.init Prim.fugue512, Stmt.update Prim.fugue512 (Src.hash 11) (Len.lit 64), Stmt.close Prim.fugue512 12,
  Stmt.init Prim.shabal512, Stmt.update Prim.shabal512 (Src.hash 12) (Len.lit 64), Stmt.close Prim.shabal512 13,
  Stmt.init Prim.whirlpool, Stmt.update Prim.whirlpool (Src.hash 13) (Len.lit 64), Stmt.close Prim.whirlpool 14,
  Stmt.init Prim.sha512, Stmt.update Prim.sha512 (Src.hash 14) (Len.lit 64), Stmt.close Prim.sha512 15,
  Stmt.init Prim.haval256_5, Stmt.update Prim.haval256_5 (Src.hash 15) (Len.lit 64), Stmt.close Prim.haval256_5 16,
  Stmt.init Prim.bmw512, Stmt.update Prim.bmw512 (Src.hash 16) (Len.lit 64), Stmt.close Prim.bmw512 17,
  Stmt.init Prim.groestl512, Stmt.update Prim.groestl512 (Src.hash 17) (Len.lit 64), Stmt.close Prim.groestl512 18,
  Stmt.init Prim.skein512, Stmt.update Prim.skein512 (Src.hash 18) (Len.lit 64), Stmt.close Prim.skein512 19,
  Stmt.init Prim.jh512, Stmt.update Prim.jh512 (Src.hash 19) (Len.lit 64), Stmt.close Prim.jh512 20,
  Stmt.init Prim.keccak512, Stmt.update Prim.keccak512 (Src.hash 20) (Len.lit 64), Stmt.close Prim.keccak512 21,
  Stmt.init Prim.luffa512, Stmt.update Prim.luffa512 (Src.hash 21) (Len.lit 64), Stmt.close Prim.luffa512 22,
  Stmt.init Prim.cubehash512, Stmt.update Prim.cubehash512 (Src.hash 22) (Len.lit 64), Stmt.close Prim.cubehash512 23,
  Stmt.init Prim.shavite512, Stmt.update Prim.shavite512 (Src.hash 23) (Len.lit 64), Stmt.close Prim.shavite512 24,
  Stmt.init Prim.simd512, Stmt.update Prim.simd512 (Src.hash 24) (Len.lit 64), Stmt.close Prim.simd512 25,
  Stmt.init Prim.echo512, Stmt.update Prim.echo512 (Src.hash 25) (Len.lit 64), Stmt.close Prim.echo512 26,
  Stmt.init Prim.hamsi512, Stmt.update Prim.hamsi512 (Src.hash 26) (Len.lit 64), Stmt.close Prim.hamsi512 27,
  Stmt.init Prim.fugue512, Stmt.update Prim.fugue512 (Src.hash 27) (Len.lit 64), Stmt.close Prim.fugue512 28,
  Stmt.init Prim.shabal512, Stmt.update Prim.shabal512 (Src.hash 28) (Len.lit 64), Stmt.close Prim.shabal512 29,
  Stmt.init Prim.whirlpool, Stmt.update Prim.whirlpool (Src.hash 29) (Len.lit 64), Stmt.close Prim.whirlpool 30,
  Stmt.init Prim.sha512, Stmt.update Prim.sha512 (Src.hash 30) (Len.lit 64), Stmt.close Prim.sha512 31,
  Stmt.init Prim.haval256_5, Stmt.update Prim.haval256_5 (Src.hash 31) (Len.lit 64), Stmt.close Prim.haval256_5 32,
  Stmt.init Prim.bmw512, Stmt.update Prim.bmw512 (Src.hash 32) (Len.lit 64), Stmt.close Prim.bmw512 33,
  Stmt.init Prim.groestl512, Stmt.update Prim.groestl512 (Src.hash 33) (Len.lit 64), Stmt.close Prim.groestl512 34,
  Stmt.init Prim.skein512, Stmt.update Prim.skein512 (Src.hash 34) (Len.lit 64), Stmt.close Prim.skein512 35,
  Stmt.init Prim.jh512, Stmt.update Prim.jh512 (Src.hash 35) (Len.lit 64), Stmt.close Prim.jh512 36,
  Stmt.init Prim.keccak512, Stmt.update Prim.keccak512 (Src.hash 36) (Len.lit 64), Stmt.close Prim.keccak512 37,
  Stmt.init Prim.luffa512, Stmt.update Prim.luffa512 (Src.hash 37) (Len.lit 64), Stmt.close Prim.luffa512 38,
  Stmt.init Prim.cubehash512, Stmt.update Prim.cubehash512 (Src.hash 38) (Len.lit 64), Stmt.close Prim.cubehash512 39,
  Stmt.init Prim.shavite512, Stmt.update Prim.shavite512 (Src.hash 39) (Len.lit 64), Stmt.close Prim.shavite512 40]

/-- Statements of the block at hash.h lines 1343-1471, between the declaration
`uint512 hash[42];` and `return hash[41].trim256();`. -/
def body_sel56 : List Stmt := [
  Stmt.init Prim.blake512, Stmt.update Prim.blake512 Src.blankOrBegin Len.rangeBytes, Stmt.close Prim.blake512 0,
  Stmt.init Prim.bmw512, Stmt.update Prim.bmw512 (Src.hash 0) (Len.lit 64), Stmt.close Prim.bmw512 1,
  Stmt.init Prim.groestl512, Stmt.update Prim.groestl512 (Src.hash 1) (Len.lit 64), Stmt.close Prim.groestl512 2,
  Stmt.init Prim.skein512, Stmt.update Prim.skein512 (Src.hash 2) (Len.lit 64), Stmt.close Prim.skein512 3,
  Stmt.init Prim.jh512, Stmt.update Prim.jh512 (Src.hash 3) (Len.lit 64), Stmt.close Prim.jh512 4,
  Stmt.init Prim.keccak512, Stmt.update Prim.keccak512 (Src.hash 4) (Len.lit 64), Stmt.close Prim.keccak512 5,
  Stmt.init Prim.luffa512, Stmt.update Prim.luffa512 (Src.hash 5) (Len.lit 64), Stmt.close Prim.luffa512 6,
  Stmt.init Prim.cubehash512, Stmt.update Prim.cubehash512 (Src.hash 6) (Len.lit 64), Stmt.close Prim.cubehash512 7,
  Stmt.init Prim.shavite512, Stmt.update Prim.shavite512 (Src.hash 7) (Len.lit 64), Stmt.close Prim.shavite512 8,
  Stmt.init Prim.simd512, Stmt.update Prim.simd512 (Src.hash 8) (Len.lit 64), Stmt.close Prim.simd512 9,
  Stmt.init Prim.echo512, Stmt.update Prim.echo512 (Src.hash 9) (Len.lit 64), Stmt.close Prim.echo512 10,
  Stmt.init Prim.hamsi512, Stmt.update Prim.hamsi512 (Src.hash 10) (Len.lit 64), Stmt.close Prim.hamsi512 11,
  Stmt.init Prim.fugue512, Stmt.update Prim.fugue512 (Src.hash 11) (Len.lit 64), Stmt.close Prim.fugue512 12,
  Stmt.init Prim.shabal512, Stmt.update Prim.shabal512 (Src.hash 12) (Len.lit 64), Stmt.close Prim.shabal512 13,
  Stmt.init Prim.whirlpool, Stmt.update Prim.whirlpool (Src.hash 13) (Len.lit 64), Stmt.close Prim.whirlpool 14,
  Stmt.init Prim.sha512, Stmt.update Prim.sha512 (Src.hash 14) (Len.lit 64), Stmt.close Prim.sha512 15,
  Stmt.init Prim.haval256_5, Stmt.update Prim.haval256_5 (Src.hash 15) (Len.lit 64), Stmt.close Prim.haval256_5 16,
  Stmt.init Prim.bmw512, Stmt.update Prim.bmw512 (Src.hash 16) (Len.lit 64), Stmt.close Prim.bmw512 17,
  Stmt.init Prim.groestl512, Stmt.update Prim.groestl512 (Src.hash 17) (Len.lit 64), Stmt.close Prim.groestl512 18,
  Stmt.init Prim.skein512, Stmt.update Prim.skein512 (Src.hash 18) (Len.lit 64), Stmt.close Prim.skein512 19,
  Stmt.init Prim.jh512, Stmt.update Prim.jh512 (Src.hash 19) (Len.lit 64), Stmt.close Prim.jh512 20,
  Stmt.init Prim.keccak512, Stmt.update Prim.keccak512 (Src.hash 20) (Len.lit 64), Stmt.close Prim.keccak512 21,
  Stmt.init Prim.luffa512, Stmt.update Prim.luffa512 (Src.hash 21) (Len.lit 64), Stmt.close Prim.luffa512 22,
  Stmt.init Prim.cubehash512, Stmt.update Prim.cubehash512 (Src.hash 22) (Len.lit 64), Stmt.close Prim.cubehash512 23,
  Stmt.init Prim.shavite512, Stmt.update Prim.shavite512 (Src.hash 23) (Len.lit 64), Stmt.close Prim.shavite512 24,
  Stmt.init Prim.simd512, Stmt.update Prim.simd512 (Src.hash 24) (Len.lit 64), Stmt.close Prim.simd512 25,
  Stmt.init Prim.echo512, Stmt.update Prim.echo512 (Src.hash 25) (Len.lit 64), Stmt.close Prim.echo512 26,
  Stmt.init Prim.hamsi512, Stmt.update Prim.hamsi512 (Src.hash 26) (Len.lit 64), Stmt.close Prim.hamsi512 27,
  Stmt.init Prim.fugue512, Stmt.update Prim.fugue512 (Src.hash 27) (Len.lit 64), Stmt.close Prim.fugue512 28,
  Stmt.init Prim.shabal512, Stmt.update Prim.shabal512 (Src.hash 28) (Len.lit 64), Stmt.close Prim.shabal512 29,
  Stmt.init Prim.whirlpool, Stmt.update Prim.whirlpool (Src.hash 29) (Len.lit 64), Stmt.close Prim.whirlpool 30,
  Stmt.init Prim.sha512, Stmt.update Prim.sha512 (Src.hash 30) (Len.lit 64), Stmt.close Prim.sha512 31,
  Stmt.init Prim.haval256_5, Stmt.update Prim.haval256_5 (Src.hash 31) (Len.lit 64), Stmt.close Prim.haval256_5 32,
  Stmt.init Prim.shavite512, Stmt.update Prim.shavite512 (Src.hash 32) (Len.lit 64), Stmt.close Prim.shavite512 33,
  Stmt.init Prim.simd512, Stmt.update Prim.simd512 (Src.hash 33) (Len.lit 64), Stmt.close Prim.simd512 34,
  Stmt.init Prim.echo512, Stmt.update Prim.echo512 (Src.hash 34) (Len.lit 64), Stmt.close Prim.echo512 35,
  Stmt.init Prim.hamsi512, Stmt.update Prim.hamsi512 (Src.hash 35) (Len.lit 64), Stmt.close Prim.hamsi512 36,
  Stmt.init Prim.fugue512, Stmt.update Prim.fugue512 (Src.hash 36) (Len.lit 64), Stmt.close Prim.fugue512 37,
  Stmt.init Prim.shabal512, Stmt.update Prim.shabal512 (Src.hash 37) (Len.lit 64), Stmt.close Prim.shabal512 38,
  Stmt.init Prim.whirlpool, Stmt.update Prim.whirlpool (Src.hash 38) (Len.lit 64), Stmt.close Prim.whirlpool 39,
  Stmt.init Prim.sha512, Stmt.update Prim.sha512 (Src.hash 39) (Len.lit 64), Stmt.close Prim.sha512 40,
  Stmt.init Prim.haval256_5, Stmt.update Prim.haval256_5 (Src.hash 40) (Len.lit 64), Stmt.close Prim.haval256_5 41]

/-- Statements of the block at hash.h lines 1472-1603, between the declaration
`uint512 hash[43];` and `return hash[42].trim256();`. -/
def body_sel57 : List Stmt := [
  Stmt.init Prim.blake512, Stmt.update Prim.blake512 Src.blankOrBegin Len.rangeBytes, Stmt.close Prim.blake512 0,
  Stmt.init Prim.bmw512, Stmt.update Prim.bmw512 (Src.hash 0) (Len.lit 64), Stmt.close Prim.bmw512 1,
  Stmt.init Prim.groestl512, Stmt.update Prim.groestl512 (Src.hash 1) (Len.lit 64), Stmt.close Prim.groestl512 2,
  Stmt.init Prim.skein512, Stmt.update Prim.skein512 (Src.hash 2) (Len.lit 64), Stmt.close Prim.skein512 3,
  Stmt.init Prim.jh512, Stmt.update Prim.jh512 (Src.hash 3) (Len.lit 64), Stmt.close Prim.jh512 4,
  Stmt.init Prim.keccak512, Stmt.update Prim.keccak512 (Src.hash 4) (Len.lit 64), Stmt.close Prim.keccak512 5,
  Stmt.init Prim.luffa512, Stmt.update Prim.luffa512 (Src.hash 5) (Len.lit 64), Stmt.close Prim.luffa512 6,
  Stmt.init Prim.cubehash512, Stmt.update Prim.cubehash512 (Src.hash 6) (Len.lit 64), Stmt.close Prim.cubehash512 7,
  Stmt.init Prim.shavite512, Stmt.update Prim.shavite512 (Src.hash 7) (Len.lit 64), Stmt.close Prim.shavite512 8,
  Stmt.init Prim.simd512, Stmt.update Prim.simd512 (Src.hash 8) (Len.lit 64), Stmt.close Prim.simd512 9,
  Stmt.init Prim.echo512, Stmt.update Prim.echo512 (Src.hash 9) (Len.lit 64), Stmt.close Prim.echo512 10,
  Stmt.init Prim.hamsi512, Stmt.update Prim.hamsi512 (Src.hash 10) (Len.lit 64), Stmt.close Prim.hamsi512 11,
  Stmt.init Prim.fugue512, Stmt.update Prim.fugue512 (Src.hash 11) (Len.lit 64), Stmt.close Prim.fugue512 12,
  Stmt.init Prim.shabal512, Stmt.update Prim.shabal512 (Src.hash 12) (Len.lit 64), Stmt.close Prim.shabal512 13,
  Stmt.init Prim.whirlpool, Stmt.update Prim.whirlpool (Src.hash 13) (Len.lit 64), Stmt.close Prim.whirlpool 14,
  Stmt.init Prim.sha512, Stmt.update Prim.sha512 (Src.hash 14) (Len.lit 64), Stmt.close Prim.sha512 15,
  Stmt.init Prim.haval256_5, Stmt.update Prim.haval256_5 (Src.hash 15) (Len.lit 64), Stmt.close Prim.haval256_5 16,
  Stmt.init Prim.bmw512, Stmt.update Prim.bmw512 (Src.hash 16) (Len.lit 64), Stmt.close Prim.bmw512 17,
  Stmt.init Prim.groestl512, Stmt.update Prim.groestl512 (Src.hash 17) (Len.lit 64), Stmt.close Prim.groestl512 18,
  Stmt.init Prim.skein512, Stmt.update Prim.skein512 (Src.hash 18) (Len.lit 64), Stmt.close Prim.skein512 19,
  Stmt.init Prim.jh512, Stmt.update Prim.jh512 (Src.hash 19) (Len.lit 64), Stmt.close Prim.jh512 20,
  Stmt.init Prim.keccak512, Stmt.update Prim.keccak512 (Src.hash 20) (Len.lit 64), Stmt.close Prim.keccak512 21,
  Stmt.init Prim.luffa512, Stmt.update Prim.luffa512 (Src.hash 21) (Len.lit 64), Stmt.close Prim.luffa512 22,
  Stmt.init Prim.cubehash512, Stmt.update Prim.cubehash512 (Src.hash 22) (Len.lit 64), Stmt.close Prim.cubehash512 23,
  Stmt.init Prim.shavite512, Stmt.update Prim.shavite512 (Src.hash 23) (Len.lit 64), Stmt.close Prim.shavite512 24,
  Stmt.init Prim.simd512, Stmt.update Prim.simd512 (Src.hash 24) (Len.lit 64), Stmt.close Prim.simd512 25,
  Stmt.init Prim.echo512, Stmt.update Prim.echo512 (Src.hash 25) (Len.lit 64), Stmt.close Prim.echo512 26,
  Stmt.init Prim.hamsi512, Stmt.update Prim.hamsi512 (Src.hash 26) (Len.lit 64), Stmt.close Prim.hamsi512 27,
  Stmt.init Prim.fugue512, Stmt.update Prim.fugue512 (Src.hash 27) (Len.lit 64), Stmt.close Prim.fugue512 28,
  Stmt.init Prim.shabal512, Stmt.update Prim.shabal512 (Src.hash 28) (Len.lit 64), Stmt.close Prim.shabal512 29,
  Stmt.init Prim.whirlpool, Stmt.update Prim.whirlpool (Src.hash 29) (Len.lit 64), Stmt.close Prim.whirlpool 30,
  Stmt.init Prim.sha512, Stmt.update Prim.sha512 (Src.hash 30) (Len.lit 64), Stmt.close Prim.sha512 31,
  Stmt.init Prim.haval256_5, Stmt.update Prim.haval256_5 (Src.hash 31) (Len.lit 64), Stmt.close Prim.haval256_5 32,
  Stmt.init Prim.sha512, Stmt.update Prim.sha512 (Src.hash 32) (Len.lit 64), Stmt.close Prim.sha512 33,
  Stmt.init Prim.haval256_5, Stmt.update Prim.haval256_5 (Src.hash 33) (Len.lit 64), Stmt.close Prim.haval256_5 34,
  Stmt.init Prim.bmw512, Stmt.update Prim.bmw512 (Src.hash 34) (Len.lit 64), Stmt.close Prim.bmw512 35,
  Stmt.init Prim.groestl512, Stmt.update Prim.groestl512 (Src.hash 35) (Len.lit 64), Stmt.close Prim.groestl512 36,
  Stmt.init Prim.skein512, Stmt.update Prim.skein512 (Src.hash 36) (Len.lit 64), Stmt.close Prim.skein512 37,
  Stmt.init Prim.sha512, Stmt.update Prim.sha512 (Src.hash 37) (Len.lit 64), Stmt.close Prim.sha512 38,
  Stmt.init Prim.haval256_5, Stmt.update Prim.haval256_5 (Src.hash 38) (Len.lit 64), Stmt.close Prim.haval256_5 39,
  Stmt.init Prim.bmw512, Stmt.update Prim.bmw512 (Src.hash 39) (Len.lit 64), Stmt.close Prim.bmw512 40,
  Stmt.init Prim.groestl512, Stmt.update Prim.groestl512 (Src.hash 40) (Len.lit 64), Stmt.close Prim.groestl512 41,
  Stmt.init Prim.skein512, Stmt.update Prim.skein512 (Src.hash 41) (Len.lit 64), Stmt.close Prim.skein512 42]

/-- Statements of the block at hash.h lines 1604-1738, between the declaration
`uint512 hash[44];` and `return hash[43].trim256();`. -/
def body_sel97 : List Stmt := [
  Stmt.init Prim.blake512, Stmt.update Prim.blake512 Src.blankOrBegin Len.rangeBytes, Stmt.close Prim.blake512 0,
  Stmt.init Prim.bmw512, Stmt.update Prim.bmw512 (Src.hash 0) (Len.lit 64), Stmt.close Prim.bmw512 1,
  Stmt.init Prim.groestl512, Stmt.update Prim.groestl512 (Src.hash 1) (Len.lit 64), Stmt.close Prim.groestl512 2,
  Stmt.init Prim.skein512, Stmt.update Prim.skein512 (Src.hash 2) (Len.lit 64), Stmt.close Prim.skein512 3,
  Stmt.init Prim.jh512, Stmt.update Prim.jh512 (Src.hash 3) (Len.lit 64), Stmt.close Prim.jh512 4,
  Stmt.init Prim.keccak512, Stmt.update Prim.keccak512 (Src.hash 4) (Len.lit 64), Stmt.close Prim.keccak512 5,
  Stmt.init Prim.luffa512, Stmt.update Prim.luffa512 (Src.hash 5) (Len.lit 64), Stmt.close Prim.luffa512 6,
  Stmt.init Prim.cubehash512, Stmt.update Prim.cubehash512 (Src.hash 6) (Len.lit 64), Stmt.close Prim.cubehash512 7,
  Stmt.init Prim.shavite512, Stmt.update Prim.shavite512 (Src.hash 7) (Len.lit 64), Stmt.close Prim.shavite512 8,
  Stmt.init Prim.simd512, Stmt.update Prim.simd512 (Src.hash 8) (Len.lit 64), Stmt.close Prim.simd512 9,
  Stmt.init Prim.echo512, Stmt.update Prim.echo512 (Src.hash 9) (Len.lit 64), Stmt.close Prim.echo512 10,
  Stmt.init Prim.hamsi512, Stmt.update Prim.hamsi512 (Src.hash 10) (Len.lit 64), Stmt.close Prim.hamsi512 11,
  Stmt.init Prim.fugue512, Stmt.update Prim.fugue512 (Src.hash 11) (Len.lit 64), Stmt.close Prim.fugue512 12,
  Stmt.init Prim.shabal512, Stmt.update Prim.shabal512 (Src.hash 12) (Len.lit 64), Stmt.close Prim.shabal512 13,
  Stmt.init Prim.whirlpool, Stmt.update Prim.whirlpool (Src.hash 13) (Len.lit 64), Stmt.close Prim.whirlpool 14,
  Stmt.init Prim.sha512, Stmt.update Prim.sha512 (Src.hash 14) (Len.lit 64), Stmt.close Prim.sha512 15,
  Stmt.init Prim.haval256_5, Stmt.update Prim.haval256_5 (Src.hash 15) (Len.lit 64), Stmt.close Prim.haval256_5 16,
  Stmt.init Prim.bmw512, Stmt.update Prim.bmw512 (Src.hash 16) (Len.lit 64), Stmt.close Prim.bmw512 17,
  Stmt.init Prim.groestl512, Stmt.update Prim.groestl512 (Src.hash 17) (Len.lit 64), Stmt.close Prim.groestl512 18,
  Stmt.init Prim.skein512, Stmt.update Prim.skein512 (Src.hash 18) (Len.lit 64), Stmt.close Prim.skein512 19,
  Stmt.init Prim.jh512, Stmt.update Prim.jh512 (Src.hash 19) (Len.lit 64), Stmt.close Prim.jh512 20,
  Stmt.init Prim.keccak512, Stmt.update Prim.keccak512 (Src.hash 20) (Len.lit 64), Stmt.close Prim.keccak512 21,
  Stmt.init Prim.luffa512, Stmt.update Prim.luffa512 (Src.hash 21) (Len.lit 64), Stmt.close Prim.luffa512 22,
  Stmt.init Prim.cubehash512, Stmt.update Prim.cubehash512 (Src.hash 22) (Len.lit 64), Stmt.close Prim.cubehash512 23,
  Stmt.init Prim.shavite512, Stmt.update Prim.shavite512 (Src.hash 23) (Len.lit 64), Stmt.close Prim.shavite512 24,
  Stmt.init Prim.simd512, Stmt.update Prim.simd512 (Src.hash 24) (Len.lit 64), Stmt.close Prim.simd512 25,
  Stmt.init Prim.echo512, Stmt.update Prim.echo512 (Src.hash 25) (Len.lit 64), Stmt.close Prim.echo512 26,
  Stmt.init Prim.hamsi512, Stmt.update Prim.hamsi512 (Src.hash 26) (Len.lit 64), Stmt.close Prim.hamsi512 27,
  Stmt.init Prim.fugue512, Stmt.update Prim.fugue512 (Src.hash 27) (Len.lit 64), Stmt.close Prim.fugue512 28,
  Stmt.init Prim.shabal512, Stmt.update Prim.shabal512 (Src.hash 28) (Len.lit 64), Stmt.close Prim.shabal512 29,
  Stmt.init Prim.whirlpool, Stmt.update Prim.whirlpool (Src.hash 29) (Len.lit 64), Stmt.close Prim.whirlpool 30,
  Stmt.init Prim.sha512, Stmt.update Prim.sha512 (Src.hash 30) (Len.lit 64), Stmt.close Prim.sha512 31,
  Stmt.init Prim.haval256_5, Stmt.update Prim.haval256_5 (Src.hash 31) (Len.lit 64), Stmt.close Prim.haval256_5 32,
  Stmt.init Prim.sha512, Stmt.update Prim.sha512 (Src.hash 32) (Len.lit 64), Stmt.close Prim.sha512 33,
  Stmt.init Prim.haval256_5, Stmt.update Prim.haval256_5 (Src.hash 33) (Len.lit 64), Stmt.close Prim.haval256_5 34,
  Stmt.init Prim.bmw512, Stmt.update Prim.bmw512 (Src.hash 34) (Len.lit 64), Stmt.close Prim.bmw512 35,
  Stmt.init Prim.groestl512, Stmt.update Prim.groestl512 (Src.hash 35) (Len.lit 64), Stmt.close Prim.groestl512 36,
  Stmt.init Prim.skein512, Stmt.update Prim.skein512 (Src.hash 36) (Len.lit 64), Stmt.close Prim.skein512 37,
  Stmt.init Prim.sha512, Stmt.update Prim.sha512 (Src.hash 37) (Len.lit 64), Stmt.close Prim.sha512 38,
  Stmt.init Prim.haval256_5, Stmt.update Prim.haval256_5 (Src.hash 38) (Len.lit 64), Stmt.close Prim.haval256_5 39,
  Stmt.init Prim.bmw512, Stmt.update Prim.bmw512 (Src.hash 39) (Len.lit 64), Stmt.close Prim.bmw512 40,
  Stmt.init Prim.groestl512, Stmt.update Prim.groestl512 (Src.hash 40) (Len.lit 64), Stmt.close Prim.groestl512 41,
  Stmt.init Prim.skein512, Stmt.update Prim.skein512 (Src.hash 41) (Len.lit 64), Stmt.close Prim.skein512 42,
  Stmt.init Prim.fugue512, Stmt.update Prim.fugue512 (Src.hash 42) (Len.lit 64), Stmt.close Prim.fugue512 43]

/-- Statements of the block at hash.h lines 1739-1876, between the declaration
`uint512 hash[45];` and `return hash[44].trim256();`. -/
def body_sel98 : List Stmt := [
  Stmt.init Prim.blake512, Stmt.update Prim.blake512 Src.blankOrBegin Len.rangeBytes, Stmt.close Prim.blake512 0,
  Stmt.init Prim.bmw512, Stmt.update Prim.bmw512 (Src.hash 0) (Len.lit 64), Stmt.close Prim.bmw512 1,
  Stmt.init Prim.groestl512, Stmt.update Prim.groestl512 (Src.hash 1) (Len.lit 64), Stmt.close Prim.groestl512 2,
  Stmt.init Prim.skein512, Stmt.update Prim.skein512 (Src.hash 2) (Len.lit 64), Stmt.close Prim.skein512 3,
  Stmt.init Prim.jh512, Stmt.update Prim.jh512 (Src.hash 3) (Len.lit 64), Stmt.close Prim.jh512 4,
  Stmt.init Prim.keccak512, Stmt.update Prim.keccak512 (Src.hash 4) (Len.lit 64), Stmt.close Prim.keccak512 5,
  Stmt.init Prim.luffa512, Stmt.update Prim.luffa512 (Src.hash 5) (Len.lit 64), Stmt.close Prim.luffa512 6,
  Stmt.init Prim.cubehash512, Stmt.update Prim.cubehash512 (Src.hash 6) (Len.lit 64), Stmt.close Prim.cubehash512 7,
  Stmt.init Prim.shavite512, Stmt.update Prim.shavite512 (Src.hash 7) (Len.lit 64), Stmt.close Prim.shavite512 8,
  Stmt.init Prim.simd512, Stmt.update Prim.simd512 (Src.hash 8) (Len.lit 64), Stmt.close Prim.simd512 9,
  Stmt.init Prim.echo512, Stmt.update Prim.echo512 (Src.hash 9) (Len.lit 64), Stmt.close Prim.echo512 10,
  Stmt.init Prim.hamsi512, Stmt.update Prim.hamsi512 (Src.hash 10) (Len.lit 64), Stmt.close Prim.hamsi512 11,
  Stmt.init Prim.fugue512, Stmt.update Prim.fugue512 (Src.hash 11) (Len.lit 64), Stmt.close Prim.fugue512 12,
  Stmt.init Prim.shabal512, Stmt.update Prim.shabal512 (Src.hash 12) (Len.lit 64), Stmt.close Prim.shabal512 13,
  Stmt.init Prim.whirlpool, Stmt.update Prim.whirlpool (Src.hash 13) (Len.lit 64), Stmt.close Prim.whirlpool 14,
  Stmt.init Prim.sha512, Stmt.update Prim.sha512 (Src.hash 14) (Len.lit 64), Stmt.close Prim.sha512 15,
  Stmt.init Prim.haval256_5, Stmt.update Prim.haval256_5 (Src.hash 15) (Len.lit 64), Stmt.close Prim.haval256_5 16,
  Stmt.init Prim.bmw512, Stmt.update Prim.bmw512 (Src.hash 16) (Len.lit 64), Stmt.close Prim.bmw512 17,
  Stmt.init Prim.groestl512, Stmt.update Prim.groestl512 (Src.hash 17) (Len.lit 64), Stmt.close Prim.groestl512 18,
  Stmt.init Prim.skein512, Stmt.update Prim.skein512 (Src.hash 18) (Len.lit 64), Stmt.close Prim.skein512 19,
  Stmt.init Prim.jh512, Stmt.update Prim.jh512 (Src.hash 19) (Len.lit 64), Stmt.close Prim.jh512 20,
  Stmt.init Prim.keccak512, Stmt.update Prim.keccak512 (Src.hash 20) (Len.lit 64), Stmt.close Prim.keccak512 21,
  Stmt.init Prim.luffa512, Stmt.update Prim.luffa512 (Src.hash 21) (Len.lit 64), Stmt.close Prim.luffa512 22,
  Stmt.init Prim.cubehash512, Stmt.update Prim.cubehash512 (Src.hash 22) (Len.lit 64), Stmt.close Prim.cubehash512 23,
  Stmt.init Prim.shavite512, Stmt.update Prim.shavite512 (Src.hash 23) (Len.lit 64), Stmt.close Prim.shavite512 24,
  Stmt.init Prim.simd512, Stmt.update Prim.simd512 (Src.hash 24) (Len.lit 64), Stmt.close Prim.simd512 25,
  Stmt.init Prim.echo512, Stmt.update Prim.echo512 (Src.hash 25) (Len.lit 64), Stmt.close Prim.echo512 26,
  Stmt.init Prim.hamsi512, Stmt.update Prim.hamsi512 (Src.hash 26) (Len.lit 64), Stmt.close Prim.hamsi512 27,
  Stmt.init Prim.fugue512, Stmt.update Prim.fugue512 (Src.hash 27) (Len.lit 64), Stmt.close Prim.fugue512 28,
  Stmt.init Prim.shabal512, Stmt.update Prim.shabal512 (Src.hash 28) (Len.lit 64), Stmt.close Prim.shabal512 29,
  Stmt.init Prim.whirlpool, Stmt.update Prim.whirlpool (Src.hash 29) (Len.lit 64), Stmt.close Prim.whirlpool 30,
  Stmt.init Prim.sha512, Stmt.update Prim.sha512 (Src.hash 30) (Len.lit 64), Stmt.close Prim.sha512 31,
  Stmt.init Prim.haval256_5, Stmt.update Prim.haval256_5 (Src.hash 31) (Len.lit 64), Stmt.close Prim.haval256_5 32,
  Stmt.init Prim.shavite512, Stmt.update Prim.shavite512 (Src.hash 32) (Len.lit 64), Stmt.close Prim.shavite512 33,
  Stmt.init Prim.simd512, Stmt.update Prim.simd512 (Src.hash 33) (Len.lit 64), Stmt.close Prim.simd512 34,
  Stmt.init Prim.echo512, Stmt.update Prim.echo512 (Src.hash 34) (Len.lit 64), Stmt.close Prim.echo512 35,
  Stmt.init Prim.hamsi512, Stmt.update Prim.hamsi512 (Src.hash 35) (Len.lit 64), Stmt.close Prim.hamsi512 36,
  Stmt.init Prim.fugue512, Stmt.update Prim.fugue512 (Src.hash 36) (Len.lit 64), Stmt.close Prim.fugue512 37,
  Stmt.init Prim.shabal512, Stmt.update Prim.shabal512 (Src.hash 37) (Len.lit 64), Stmt.close Prim.shabal512 38,
  Stmt.init Prim.whirlpool, Stmt.update Prim.whirlpool (Src.hash 38) (Len.lit 64), Stmt.close Prim.whirlpool 39,
  Stmt.init Prim.sha512, Stmt.update Prim.sha512 (Src.hash 39) (Len.lit 64), Stmt.close Prim.sha512 40,
  Stmt.init Prim.haval256_5, Stmt.update Prim.haval256_5 (Src.hash 40) (Len.lit 64), Stmt.close Prim.haval256_5 41,
  Stmt.init Prim.bmw512, Stmt.update Prim.bmw512 (Src.hash 41) (Len.lit 64), Stmt.close Prim.bmw512 42,
  Stmt.init Prim.groestl512, Stmt.update Prim.groestl512 (Src.hash 42) (Len.lit 64), Stmt.close Prim.groestl512 43,
  Stmt.init Prim.skein512, Stmt.update Prim.skein512 (Src.hash 43) (Len.lit 64), Stmt.close Prim.skein512 44]

/-- Statements of the block at hash.h lines 1877-2017, between the declaration
`uint512 hash[46];` and `return hash[45].trim256();`. -/
def body_sel99 : List Stmt := [
  Stmt.init Prim.blake512, Stmt.update Prim.blake512 Src.blankOrBegin Len.rangeBytes, Stmt.close Prim.blake512 0,
  Stmt.init Prim.bmw512, Stmt.update Prim.bmw512 (Src.hash 0) (Len.lit 64), Stmt.close Prim.bmw512 1,
  Stmt.init Prim.groestl512, Stmt.update Prim.groestl512 (Src.hash 1) (Len.lit 64), Stmt.close Prim.groestl512 2,
  Stmt.init Prim.skein512, Stmt.update Prim.skein512 (Src.hash 2) (Len.lit 64), Stmt.close Prim.skein512 3,
  Stmt.init Prim.jh512, Stmt.update Prim.jh512 (Src.hash 3) (Len.lit 64), Stmt.close Prim.jh512 4,
  Stmt.init Prim.keccak512, Stmt.update Prim.keccak512 (Src.hash 4) (Len.lit 64), Stmt.close Prim.keccak512 5,
  Stmt.init Prim.luffa512, Stmt.update Prim.luffa512 (Src.hash 5) (Len.lit 64), Stmt.close Prim.luffa512 6,
  Stmt.init Prim.cubehash512, Stmt.update Prim.cubehash512 (Src.hash 6) (Len.lit 64), Stmt.close Prim.cubehash512 7,
  Stmt.init Prim.shavite512, Stmt.update Prim.shavite512 (Src.hash 7) (Len.lit 64), Stmt.close Prim.shavite512 8,
  Stmt.init Prim.simd512, Stmt.update Prim.simd512 (Src.hash 8) (Len.lit 64), Stmt.close Prim.simd512 9,
  Stmt.init Prim.echo512, Stmt.update Prim.echo512 (Src.hash 9) (Len.lit 64), Stmt.close Prim.echo512 10,
  Stmt.init Prim.hamsi512, Stmt.update Prim.hamsi512 (Src.hash 10) (Len.lit 64), Stmt.close Prim.hamsi512 11,
  Stmt.init Prim.fugue512, Stmt.update Prim.fugue512 (Src.hash 11) (Len.lit 64), Stmt.close Prim.fugue512 12,
  Stmt.init Prim.shabal512, Stmt.update Prim.shabal512 (Src.hash 12) (Len.lit 64), Stmt.close Prim.shabal512 13,
  Stmt.init Prim.whirlpool, Stmt.update Prim.whirlpool (Src.hash 13) (Len.lit 64), Stmt.close Prim.whirlpool 14,
  Stmt.init Prim.sha512, Stmt.update Prim.sha512 (Src.hash 14) (Len.lit 64), Stmt.close Prim.sha512 15,
  Stmt.init Prim.haval256_5, Stmt.update Prim.haval256_5 (Src.hash 15) (Len.lit 64), Stmt.close Prim.haval256_5 16,
  Stmt.init Prim.bmw512, Stmt.update Prim.bmw512 (Src.hash 16) (Len.lit 64), Stmt.close Prim.bmw512 17,
  Stmt.init Prim.groestl512, Stmt.update Prim.groestl512 (Src.hash 17) (Len.lit 64), Stmt.close Prim.groestl512 18,
  Stmt.init Prim.skein512, Stmt.update Prim.skein512 (Src.hash 18) (Len.lit 64), Stmt.close Prim.skein512 19,
  Stmt.init Prim.jh512, Stmt.update Prim.jh512 (Src.hash 19) (Len.lit 64), Stmt.close Prim.jh512 20,
  Stmt.init Prim.keccak512, Stmt.update Prim.keccak512 (Src.hash 20) (Len.lit 64), Stmt.close Prim.keccak512 21,
  Stmt.init Prim.luffa512, Stmt.update Prim.luffa512 (Src.hash 21) (Len.lit 64), Stmt.close Prim.luffa512 22,
  Stmt.init Prim.cubehash512, Stmt.update Prim.cubehash512 (Src.hash 22) (Len.lit 64), Stmt.close Prim.cubehash512 23,
  Stmt.init Prim.shavite512, Stmt.update Prim.shavite512 (Src.hash 23) (Len.lit 64), Stmt.close Prim.shavite512 24,
  Stmt.init Prim.simd512, Stmt.update Prim.simd512 (Src.hash 24) (Len.lit 64), Stmt.close Prim.simd512 25,
  Stmt.init Prim.echo512, Stmt.update Prim.echo512 (Src.hash 25) (Len.lit 64), Stmt.close Prim.echo512 26,
  Stmt.init Prim.hamsi512, Stmt.update Prim.hamsi512 (Src.hash 26) (Len.lit 64), Stmt.close Prim.hamsi512 27,
  Stmt.init Prim.fugue512, Stmt.update Prim.fugue512 (Src.hash 27) (Len.lit 64), Stmt.close Prim.fugue512 28,
  Stmt.init Prim.shabal512, Stmt.update Prim.shabal512 (Src.hash 28) (Len.lit 64), Stmt.close Prim.shabal512 29,
  Stmt.init Prim.whirlpool, Stmt.update Prim.whirlpool (Src.hash 29) (Len.lit 64), Stmt.close Prim.whirlpool 30,
  Stmt.init Prim.sha512, Stmt.update Prim.sha512 (Src.hash 30) (Len.lit 64), Stmt.close Prim.sha512 31,
  Stmt.init Prim.haval256_5, Stmt.update Prim.haval256_5 (Src.hash 31) (Len.lit 64), Stmt.close Prim.haval256_5 32,
  Stmt.init Prim.shabal512, Stmt.update Prim.shabal512 (Src.hash 32) (Len.lit 64), Stmt.close Prim.shabal512 33,
  Stmt.init Prim.whirlpool, Stmt.update Prim.whirlpool (Src.hash 33) (Len.lit 64), Stmt.close Prim.whirlpool 34,
  Stmt.init Prim.sha512, Stmt.update Prim.sha512 (Src.hash 34) (Len.lit 64), Stmt.close Prim.sha512 35,
  Stmt.init Prim.haval256_5, Stmt.update Prim.haval256_5 (Src.hash 35) (Len.lit 64), Stmt.close Prim.haval256_5 36,
  Stmt.init Prim.bmw512, Stmt.update Prim.bmw512 (Src.hash 36) (Len.lit 64), Stmt.close Prim.bmw512 37,
  Stmt.init Prim.groestl512, Stmt.update Prim.groestl512 (Src.hash 37) (Len.lit 64), Stmt.close Prim.groestl512 38,
  Stmt.init Prim.skein512, Stmt.update Prim.skein512 (Src.hash 38) (Len.lit 64), Stmt.close Prim.skein512 39,
  Stmt.init Prim.shabal512, Stmt.update Prim.shabal512 (Src.hash 39) (Len.lit 64), Stmt.close Prim.shabal512 40,
  Stmt.init Prim.whirlpool, Stmt.update Prim.whirlpool (Src.hash 40) (Len.lit 64), Stmt.close Prim.whirlpool 41,
  Stmt.init Prim.sha512, Stmt.update Prim.sha512 (Src.hash 41) (Len.lit 64), Stmt.close Prim.sha512 42,
  Stmt.init Prim.haval256_5, Stmt.update Prim.haval256_5 (Src.hash 42) (Len.lit 64), Stmt.close Prim.haval256_5 43,
  Stmt.init Prim.bmw512, Stmt.update Prim.bmw512 (Src.hash 43) (Len.lit 64), Stmt.close Prim.bmw512 44,
  Stmt.init Prim.groestl512, Stmt.update Prim.groestl512 (Src.hash 44) (Len.lit 64), Stmt.close Prim.groestl512 45]

/-- Statements of the block at hash.h lines 2018-2161, between the declaration
`uint512 hash[47];` and `return hash[46].trim256();`. -/
def body_sel100 : List Stmt := [
  Stmt.init Prim.blake512, Stmt.update Prim.blake512 Src.blankOrBegin Len.rangeBytes, Stmt.close Prim.blake512 0,
  Stmt.init Prim.bmw512, Stmt.update Prim.bmw512 (Src.hash 0) (Len.lit 64), Stmt.close Prim.bmw512 1,
  Stmt.init Prim.groestl512, Stmt.update Prim.groestl512 (Src.hash 1) (Len.lit 64), Stmt.close Prim.groestl512 2,
  Stmt.init Prim.skein512, Stmt.update Prim.skein512 (Src.hash 2) (Len.lit 64), Stmt.close Prim.skein512 3,
  Stmt.init Prim.jh512, Stmt.update Prim.jh512 (Src.hash 3) (Len.lit 64), Stmt.close Prim.jh512 4,
  Stmt.init Prim.keccak512, Stmt.update Prim.keccak512 (Src.hash 4) (Len.lit 64), Stmt.close Prim.keccak512 5,
  Stmt.init Prim.luffa512, Stmt.update Prim.luffa512 (Src.hash 5) (Len.lit 64), Stmt.close Prim.luffa512 6,
  Stmt.init Prim.cubehash512, Stmt.update Prim.cubehash512 (Src.hash 6) (Len.lit 64), Stmt.close Prim.cubehash512 7,
  Stmt.init Prim.shavite512, Stmt.update Prim.shavite512 (Src.hash 7) (Len.lit 64), Stmt.close Prim.shavite512 8,
  Stmt.init Prim.simd512, Stmt.update Prim.simd512 (Src.hash 8) (Len.lit 64), Stmt.close Prim.simd512 9,
  Stmt.init Prim.echo512, Stmt.update Prim.echo512 (Src.hash 9) (Len.lit 64), Stmt.close Prim.echo512 10,
  Stmt.init Prim.hamsi512, Stmt.update Prim.hamsi512 (Src.hash 10) (Len.lit 64), Stmt.close Prim.hamsi512 11,
  Stmt.init Prim.fugue512, Stmt.update Prim.fugue512 (Src.hash 11) (Len.lit 64), Stmt.close Prim.fugue512 12,
  Stmt.init Prim.shabal512, Stmt.update Prim.shabal512 (Src.hash 12) (Len.lit 64), Stmt.close Prim.shabal512 13,
  Stmt.init Prim.whirlpool, Stmt.update Prim.whirlpool (Src.hash 13) (Len.lit 64), Stmt.close Prim.whirlpool 14,
  Stmt.init Prim.sha512, Stmt.update Prim.sha512 (Src.hash 14) (Len.lit 64), Stmt.close Prim.sha512 15,
  Stmt.init Prim.haval256_5, Stmt.update Prim.haval256_5 (Src.hash 15) (Len.lit 64), Stmt.close Prim.haval256_5 16,
  Stmt.init Prim.bmw512, Stmt.update Prim.bmw512 (Src.hash 16) (Len.lit 64), Stmt.close Prim.bmw512 17,
  Stmt.init Prim.groestl512, Stmt.update Prim.groestl512 (Src.hash 17) (Len.lit 64), Stmt.close Prim.groestl512 18,
  Stmt.init Prim.skein512, Stmt.update Prim.skein512 (Src.hash 18) (Len.lit 64), Stmt.close Prim.skein512 19,
  Stmt.init Prim.jh512, Stmt.update Prim.jh512 (Src.hash 19) (Len.lit 64), Stmt.close Prim.jh512 20,
  Stmt.init Prim.keccak512, Stmt.update Prim.keccak512 (Src.hash 20) (Len.lit 64), Stmt.close Prim.keccak512 21,
  Stmt.init Prim.luffa512, Stmt.update Prim.luffa512 (Src.hash 21) (Len.lit 64), Stmt.close Prim.luffa512 22,
  Stmt.init Prim.cubehash512, Stmt.update Prim.cubehash512 (Src.hash 22) (Len.lit 64), Stmt.close Prim.cubehash512 23,
  Stmt.init Prim.shavite512, Stmt.update Prim.shavite512 (Src.hash 23) (Len.lit 64), Stmt.close Prim.shavite512 24,
  Stmt.init Prim.simd512, Stmt.update Prim.simd512 (Src.hash 24) (Len.lit 64), Stmt.close Prim.simd512 25,
  Stmt.init Prim.echo512, Stmt.update Prim.echo512 (Src.hash 25) (Len.lit 64), Stmt.close Prim.echo512 26,
  Stmt.init Prim.hamsi512, Stmt.update Prim.hamsi512 (Src.hash 26) (Len.lit 64), Stmt.close Prim.hamsi512 27,
  Stmt.init Prim.fugue512, Stmt.update Prim.fugue512 (Src.hash 27) (Len.lit 64), Stmt.close Prim.fugue512 28,
  Stmt.init Prim.shabal512, Stmt.update Prim.shabal512 (Src.hash 28) (Len.lit 64), Stmt.close Prim.shabal512 29,
  Stmt.init Prim.whirlpool, Stmt.update Prim.whirlpool (Src.hash 29) (Len.lit 64), Stmt.close Prim.whirlpool 30,
  Stmt.init Prim.sha512, Stmt.update Prim.sha512 (Src.hash 30) (Len.lit 64), Stmt.close Prim.sha512 31,
  Stmt.init Prim.haval256_5, Stmt.update Prim.haval256_5 (Src.hash 31) (Len.lit 64), Stmt.close Prim.haval256_5 32,
  Stmt.init Prim.shabal512, Stmt.update Prim.shabal512 (Src.hash 32) (Len.lit 64), Stmt.close Prim.shabal512 33,
  Stmt.init Prim.whirlpool, Stmt.update Prim.whirlpool (Src.hash 33) (Len.lit 64), Stmt.close Prim.whirlpool 34,
  Stmt.init Prim.sha512, Stmt.update Prim.sha512 (Src.hash 34) (Len.lit 64), Stmt.close Prim.sha512 35,
  Stmt.init Prim.haval256_5, Stmt.update Prim.haval256_5 (Src.hash 35) (Len.lit 64), Stmt.close Prim.haval256_5 36,
  Stmt.init Prim.bmw512, Stmt.update Prim.bmw512 (Src.hash 36) (Len.lit 64), Stmt.close Prim.bmw512 37,
  Stmt.init Prim.groestl512, Stmt.update Prim.groestl512 (Src.hash 37) (Len.lit 64), Stmt.close Prim.groestl512 38,
  Stmt.init Prim.skein512, Stmt.update Prim.skein512 (Src.hash 38) (Len.lit 64), Stmt.close Prim.skein512 39,
  Stmt.init Prim.shabal512, Stmt.update Prim.shabal512 (Src.hash 39) (Len.lit 64), Stmt.close Prim.shabal512 40,
  Stmt.init Prim.whirlpool, Stmt.update Prim.whirlpool (Src.hash 40) (Len.lit 64), Stmt.close Prim.whirlpool 41,
  Stmt.init Prim.sha512, Stmt.update Prim.sha512 (Src.hash 41) (Len.lit 64), Stmt.close Prim.sha512 42,
  Stmt.init Prim.haval256_5, Stmt.update Prim.haval256_5 (Src.hash 42) (Len.lit 64), Stmt.close Prim.haval256_5 43,
  Stmt.init Prim.bmw512, Stmt.update Prim.bmw512 (Src.hash 43) (Len.lit 64), Stmt.close Prim.bmw512 44,
  Stmt.init Prim.groestl512, Stmt.update Prim.groestl512 (Src.hash 44) (Len.lit 64), Stmt.close Prim.groestl512 45,
  Stmt.init Prim.skein512, Stmt.update Prim.skein512 (Src.hash 45) (Len.lit 64), Stmt.close Prim.skein512 46]

/-- Statements of the block at hash.h lines 2162-2308, between the declaration
`uint512 hash[48];` and `return hash[47].trim256();`. -/
def body_sel101 : List Stmt := [
  Stmt.init Prim.blake512, Stmt.update Prim.blake512 Src.blankOrBegin Len.rangeBytes, Stmt.close Prim.blake512 0,
  Stmt.init Prim.bmw512, Stmt.update Prim.bmw512 (Src.hash 0) (Len.lit 64), Stmt.close Prim.bmw512 1,
  Stmt.init Prim.groestl512, Stmt.update Prim.groestl512 (Src.hash 1) (Len.lit 64), Stmt.close Prim.groestl512 2,
  Stmt.init Prim.skein512, Stmt.update Prim.skein512 (Src.hash 2) (Len.lit 64), Stmt.close Prim.skein512 3,
  Stmt.init Prim.jh512, Stmt.update Prim.jh512 (Src.hash 3) (Len.lit 64), Stmt.close Prim.jh512 4,
  Stmt.init Prim.keccak512, Stmt.update Prim.keccak512 (Src.hash 4) (Len.lit 64), Stmt.close Prim.keccak512 5,
  Stmt.init Prim.luffa512, Stmt.update Prim.luffa512 (Src.hash 5) (Len.lit 64), Stmt.close Prim.luffa512 6,
  Stmt.init Prim.cubehash512, Stmt.update Prim.cubehash512 (Src.hash 6) (Len.lit 64), Stmt.close Prim.cubehash512 7,
  Stmt.init Prim.shavite512, Stmt.update Prim.shavite512 (Src.hash 7) (Len.lit 64), Stmt.close Prim.shavite512 8,
  Stmt.init Prim.simd512, Stmt.update Prim.simd512 (Src.hash 8) (Len.lit 64), Stmt.close Prim.simd512 9,
  Stmt.init Prim.echo512, Stmt.update Prim.echo512 (Src.hash 9) (Len.lit 64), Stmt.close Prim.echo512 10,
  Stmt.init Prim.hamsi512, Stmt.update Prim.hamsi512 (Src.hash 10) (Len.lit 64), Stmt.close Prim.hamsi512 11,
  Stmt.init Prim.fugue512, Stmt.update Prim.fugue512 (Src.hash 11) (Len.lit 64), Stmt.close Prim.fugue512 12,
  Stmt.init Prim.shabal512, Stmt.update Prim.shabal512 (Src.hash 12) (Len.lit 64), Stmt.close Prim.shabal512 13,
  Stmt.init Prim.whirlpool, Stmt.update Prim.whirlpool (Src.hash 13) (Len.lit 64), Stmt.close Prim.whirlpool 14,
  Stmt.init Prim.sha512, Stmt.update Prim.sha512 (Src.hash 14) (Len.lit 64), Stmt.close Prim.sha512 15,
  Stmt.init Prim.haval256_5, Stmt.update Prim.haval256_5 (Src.hash 15) (Len.lit 64), Stmt.close Prim.haval256_5 16,
  Stmt.init Prim.bmw512, Stmt.update Prim.bmw512 (Src.hash 16) (Len.lit 64), Stmt.close Prim.bmw512 17,
  Stmt.init Prim.groestl512, Stmt.update Prim.groestl512 (Src.hash 17) (Len.lit 64), Stmt.close Prim.groestl512 18,
  Stmt.init Prim.skein512, Stmt.update Prim.skein512 (Src.hash 18) (Len.lit 64), Stmt.close Prim.skein512 19,
  Stmt.init Prim.jh512, Stmt.update Prim.jh512 (Src.hash 19) (Len.lit 64), Stmt.close Prim.jh512 20,
  Stmt.init Prim.keccak512, Stmt.update Prim.keccak512 (Src.hash 20) (Len.lit 64), Stmt.close Prim.keccak512 21,
  Stmt.init Prim.luffa512, Stmt.update Prim.luffa512 (Src.hash 21) (Len.lit 64), Stmt.close Prim.luffa512 22,
  Stmt.init Prim.cubehash512, Stmt.update Prim.cubehash512 (Src.hash 22) (Len.lit 64), Stmt.close Prim.cubehash512 23,
  Stmt.init Prim.shavite512, Stmt.update Prim.shavite512 (Src.hash 23) (Len.lit 64), Stmt.close Prim.shavite512 24,
  Stmt.init Prim.simd512, Stmt.update Prim.simd512 (Src.hash 24) (Len.lit 64), Stmt.close Prim.simd512 25,
  Stmt.init Prim.echo512, Stmt.update Prim.echo512 (Src.hash 25) (Len.lit 64), Stmt.close Prim.echo512 26,
  Stmt.init Prim.hamsi512, Stmt.update Prim.hamsi512 (Src.hash 26) (Len.lit 64), Stmt.close Prim.hamsi512 27,
  Stmt.init Prim.fugue512, Stmt.update Prim.fugue512 (Src.hash 27) (Len.lit 64), Stmt.close Prim.fugue512 28,
  Stmt.init Prim.shabal512, Stmt.update Prim.shabal512 (Src.hash 28) (Len.lit 64), Stmt.close Prim.shabal512 29,
  Stmt.init Prim.whirlpool, Stmt.update Prim.whirlpool (Src.hash 29) (Len.lit 64), Stmt.close Prim.whirlpool 30,
  Stmt.init Prim.sha512, Stmt.update Prim.sha512 (Src.hash 30) (Len.lit 64), Stmt.close Prim.sha512 31,
  Stmt.init Prim.haval256_5, Stmt.update Prim.haval256_5 (Src.hash 31) (Len.lit 64), Stmt.close Prim.haval256_5 32,
  Stmt.init Prim.shabal512, Stmt.update Prim.shabal512 (Src.hash 32) (Len.lit 64), Stmt.close Prim.shabal512 33,
  Stmt.init Prim.whirlpool, Stmt.update Prim.whirlpool (Src.hash 33) (Len.lit 64), Stmt.close Prim.whirlpool 34,
  Stmt.init Prim.sha512, Stmt.update Prim.sha512 (Src.hash 34) (Len.lit 64), Stmt.close Prim.sha512 35,
  Stmt.init Prim.haval256_5, Stmt.update Prim.haval256_5 (Src.hash 35) (Len.lit 64), Stmt.close Prim.haval256_5 36,
  Stmt.init Prim.bmw512, Stmt.update Prim.bmw512 (Src.hash 36) (Len.lit 64), Stmt.close Prim.bmw512 37,
  Stmt.init Prim.groestl512, Stmt.update Prim.groestl512 (Src.hash 37) (Len.lit 64), Stmt.close Prim.groestl512 38,
  Stmt.init Prim.skein512, Stmt.update Prim.skein512 (Src.hash 38) (Len.lit 64), Stmt.close Prim.skein512 39,
  Stmt.init Prim.shabal512, Stmt.update Prim.shabal512 (Src.hash 39) (Len.lit 64), Stmt.close Prim.shabal512 40,
  Stmt.init Prim.whirlpool, Stmt.update Prim.whirlpool (Src.hash 40) (Len.lit 64), Stmt.close Prim.whirlpool 41,
  Stmt.init Prim.sha512, Stmt.update Prim.sha512 (Src.hash 41) (Len.lit 64), Stmt.close Prim.sha512 42,
  Stmt.init Prim.haval256_5, Stmt.update Prim.haval256_5 (Src.hash 42) (Len.lit 64), Stmt.close Prim.haval256_5 43,
  Stmt.init Prim.bmw512, Stmt.update Prim.bmw512 (Src.hash 43) (Len.lit 64), Stmt.close Prim.bmw512 44,
  Stmt.init Prim.groestl512, Stmt.update Prim.groestl512 (Src.hash 44) (Len.lit 64), Stmt.close Prim.groestl512 45,
  Stmt.init Prim.skein512, Stmt.update Prim.skein512 (Src.hash 45) (Len.lit 64), Stmt.close Prim.skein512 46,
  Stmt.init Prim.groestl512, Stmt.update Prim.groestl512 (Src.hash 46) (Len.lit 64), Stmt.close Prim.groestl512 47]

/-- Statements of the block at hash.h lines 2309-2458, between the declaration
`uint512 hash[49];` and `return hash[48].trim256();`. -/
def body_sel102 : List Stmt := [
  Stmt.init Prim.blake512, Stmt.update Prim.blake512 Src.blankOrBegin Len.rangeBytes, Stmt.close Prim.blake512 0,
  Stmt.init Prim.bmw512, Stmt.update Prim.bmw512 (Src.hash 0) (Len.lit 64), Stmt.close Prim.bmw512 1,
  Stmt.init Prim.groestl512, Stmt.update Prim.groestl512 (Src.hash 1) (Len.lit 64), Stmt.close Prim.groestl512 2,
  Stmt.init Prim.skein512, Stmt.update Prim.skein512 (Src.hash 2) (Len.lit 64), Stmt.close Prim.skein512 3,
  Stmt.init Prim.jh512, Stmt.update Prim.jh512 (Src.hash 3) (Len.lit 64), Stmt.close Prim.jh512 4,
  Stmt.init Prim.keccak512, Stmt.update Prim.keccak512 (Src.hash 4) (Len.lit 64), Stmt.close Prim.keccak512 5,
  Stmt.init Prim.luffa512, Stmt.update Prim.luffa512 (Src.hash 5) (Len.lit 64), Stmt.close Prim.luffa512 6,
  Stmt.init Prim.cubehash512, Stmt.update Prim.cubehash512 (Src.hash 6) (Len.lit 64), Stmt.close Prim.cubehash512 7,
  Stmt.init Prim.shavite512, Stmt.update Prim.shavite512 (Src.hash 7) (Len.lit 64), Stmt.close Prim.shavite512 8,
  Stmt.init Prim.simd512, Stmt.update Prim.simd512 (Src.hash 8) (Len.lit 64), Stmt.close Prim.simd512 9,
  Stmt.init Prim.echo512, Stmt.update Prim.echo512 (Src.hash 9) (Len.lit 64), Stmt.close Prim.echo512 10,
  Stmt.init Prim.hamsi512, Stmt.update Prim.hamsi512 (Src.hash 10) (Len.lit 64), Stmt.close Prim.hamsi512 11,
  Stmt.init Prim.fugue512, Stmt.update Prim.fugue512 (Src.hash 11) (Len.lit 64), Stmt.close Prim.fugue512 12,
  Stmt.init Prim.shabal512, Stmt.update Prim.shabal512 (Src.hash 12) (Len.lit 64), Stmt.close Prim.shabal512 13,
  Stmt.init Prim.whirlpool, Stmt.update Prim.whirlpool (Src.hash 13) (Len.lit 64), Stmt.close Prim.whirlpool 14,
  Stmt.init Prim.sha512, Stmt.update Prim.sha512 (Src.hash 14) (Len.lit 64), Stmt.close Prim.sha512 15,
  Stmt.init Prim.haval256_5, Stmt.update Prim.haval256_5 (Src.hash 15) (Len.lit 64), Stmt.close Prim.haval256_5 16,
  Stmt.init Prim.bmw512, Stmt.update Prim.bmw512 (Src.hash 16) (Len.lit 64), Stmt.close Prim.bmw512 17,
  Stmt.init Prim.groestl512, Stmt.update Prim.groestl512 (Src.hash 17) (Len.lit 64), Stmt.close Prim.groestl512 18,
  Stmt.init Prim.skein512, Stmt.update Prim.skein512 (Src.hash 18) (Len.lit 64), Stmt.close Prim.skein512 19,
  Stmt.init Prim.jh512, Stmt.update Prim.jh512 (Src.hash 19) (Len.lit 64), Stmt.close Prim.jh512 20,
  Stmt.init Prim.keccak512, Stmt.update Prim.keccak512 (Src.hash 20) (Len.lit 64), Stmt.close Prim.keccak512 21,
  Stmt.init Prim.luffa512, Stmt.update Prim.luffa512 (Src.hash 21) (Len.lit 64), Stmt.close Prim.luffa512 22,
  Stmt.init Prim.cubehash512, Stmt.update Prim.cubehash512 (Src.hash 22) (Len.lit 64), Stmt.close Prim.cubehash512 23,
  Stmt.init Prim.shavite512, Stmt.update Prim.shavite512 (Src.hash 23) (Len.lit 64), Stmt.close Prim.shavite512 24,
  Stmt.init Prim.simd512, Stmt.update Prim.simd512 (Src.hash 24) (Len.lit 64), Stmt.close Prim.simd512 25,
  Stmt.init Prim.echo512, Stmt.update Prim.echo512 (Src.hash 25) (Len.lit 64), Stmt.close Prim.echo512 26,
  Stmt.init Prim.hamsi512, Stmt.update Prim.hamsi512 (Src.hash 26) (Len.lit 64), Stmt.close Prim.hamsi512 27,
  Stmt.init Prim.fugue512, Stmt.update Prim.fugue512 (Src.hash 27) (Len.lit 64), Stmt.close Prim.fugue512 28,
  Stmt.init Prim.shabal512, Stmt.update Prim.shabal512 (Src.hash 28) (Len.lit 64), Stmt.close Prim.shabal512 29,
  Stmt.init Prim.whirlpool, Stmt.update Prim.whirlpool (Src.hash 29) (Len.lit 64), Stmt.close Prim.whirlpool 30,
  Stmt.init Prim.sha512, Stmt.update Prim.sha512 (Src.hash 30) (Len.lit 64), Stmt.close Prim.sha512 31,
  Stmt.init Prim.haval256_5, Stmt.update Prim.haval256_5 (Src.hash 31) (Len.lit 64), Stmt.close Prim.haval256_5 32,
  Stmt.init Prim.shabal512, Stmt.update Prim.shabal512 (Src.hash 32) (Len.lit 64), Stmt.close Prim.shabal512 33,
  Stmt.init Prim.whirlpool, Stmt.update Prim.whirlpool (Src.hash 33) (Len.lit 64), Stmt.close Prim.whirlpool 34,
  Stmt.init Prim.sha512, Stmt.update Prim.sha512 (Src.hash 34) (Len.lit 64), Stmt.close Prim.sha512 35,
  Stmt.init Prim.haval256_5, Stmt.update Prim.haval256_5 (Src.hash 35) (Len.lit 64), Stmt.close Prim.haval256_5 36,
  Stmt.init Prim.bmw512, Stmt.update Prim.bmw512 (Src.hash 36) (Len.lit 64), Stmt.close Prim.bmw512 37,
  Stmt.init Prim.groestl512, Stmt.update Prim.groestl512 (Src.hash 37) (Len.lit 64), Stmt.close Prim.groestl512 38,
  Stmt.init Prim.skein512, Stmt.update Prim.skein512 (Src.hash 38) (Len.lit 64), Stmt.close Prim.skein512 39,
  Stmt.init Prim.shabal512, Stmt.update Prim.shabal512 (Src.hash 39) (Len.lit 64), Stmt.close Prim.shabal512 40,
  Stmt.init Prim.whirlpool, Stmt.update Prim.whirlpool (Src.hash 40) (Len.lit 64), Stmt.close Prim.whirlpool 41,
  Stmt.init Prim.sha512, Stmt.update Prim.sha512 (Src.hash 41) (Len.lit 64), Stmt.close Prim.sha512 42,
  Stmt.init Prim.haval256_5, Stmt.update Prim.haval256_5 (Src.hash 42) (Len.lit 64), Stmt.close Prim.haval256_5 43,
  Stmt.init Prim.bmw512, Stmt.update Prim.bmw512 (Src.hash 43) (Len.lit 64), Stmt.close Prim.bmw512 44,
  Stmt.init Prim.groestl512, Stmt.update Prim.groestl512 (Src.hash 44) (Len.lit 64), Stmt.close Prim.groestl512 45,
  Stmt.init Prim.skein512, Stmt.update Prim.skein512 (Src.hash 45) (Len.lit 64), Stmt.close Prim.skein512 46,
  Stmt.init Prim.groestl512, Stmt.update Prim.groestl512 (Src.hash 46) (Len.lit 64), Stmt.close Prim.groestl512 47,
  Stmt.init Prim.skein512, Stmt.update Prim.skein512 (Src.hash 47) (Len.lit 64), Stmt.close Prim.skein512 48]

/-- Statements of the block at hash.h lines 2459-2560, between the declaration
`uint512 hash[33];` and `return hash[32].trim256();`. -/
def body_fallback : List Stmt := [
  Stmt.init Prim.blake512, Stmt.update Prim.blake512 Src.blankOrBegin Len.rangeBytes, Stmt.close Prim.blake512 0,
  Stmt.init Prim.bmw512, Stmt.update Prim.bmw512 (Src.hash 0) (Len.lit 64), Stmt.close Prim.bmw512 1,
  Stmt.init Prim.groestl512, Stmt.update Prim.groestl512 (Src.hash 1) (Len.lit 64), Stmt.close Prim.groestl512 2,
  Stmt.init Prim.skein512, Stmt.update Prim.skein512 (Src.hash 2) (Len.lit 64), Stmt.close Prim.skein512 3,
  Stmt.init Prim.jh512, Stmt.update Prim.jh512 (Src.hash 3) (Len.lit 64), Stmt.close Prim.jh512 4,
  Stmt.init Prim.keccak512, Stmt.update Prim.keccak512 (Src.hash 4) (Len.lit 64), Stmt.close Prim.keccak512 5,
  Stmt.init Prim.luffa512, Stmt.update Prim.luffa512 (Src.hash 5) (Len.lit 64), Stmt.close Prim.luffa512 6,
  Stmt.init Prim.cubehash512, Stmt.update Prim.cubehash512 (Src.hash 6) (Len.lit 64), Stmt.close Prim.cubehash512 7,
  Stmt.init Prim.shavite512, Stmt.update Prim.shavite512 (Src.hash 7) (Len.lit 64), Stmt.close Prim.shavite512 8,
  Stmt.init Prim.simd512, Stmt.update Prim.simd512 (Src.hash 8) (Len.lit 64), Stmt.close Prim.simd512 9,
  Stmt.init Prim.echo512, Stmt.update Prim.echo512 (Src.hash 9) (Len.lit 64), Stmt.close Prim.echo512 10,
  Stmt.init Prim.hamsi512, Stmt.update Prim.hamsi512 (Src.hash 10) (Len.lit 64), Stmt.close Prim.hamsi512 11,
  Stmt.init Prim.fugue512, Stmt.update Prim.fugue512 (Src.hash 11) (Len.lit 64), Stmt.close Prim.fugue512 12,
  Stmt.init Prim.shabal512, Stmt.update Prim.shabal512 (Src.hash 12) (Len.lit 64), Stmt.close Prim.shabal512 13,
  Stmt.init Prim.whirlpool, Stmt.update Prim.whirlpool (Src.hash 13) (Len.lit 64), Stmt.close Prim.whirlpool 14,
  Stmt.init Prim.sha512, Stmt.update Prim.sha512 (Src.hash 14) (Len.lit 64), Stmt.close Prim.sha512 15,
  Stmt.init Prim.haval256_5, Stmt.update Prim.haval256_5 (Src.hash 15) (Len.lit 64), Stmt.close Prim.haval256_5 16,
  Stmt.init Prim.bmw512, Stmt.update Prim.bmw512 (Src.hash 16) (Len.lit 64), Stmt.close Prim.bmw512 17,
  Stmt.init Prim.groestl512, Stmt.update Prim.groestl512 (Src.hash 17) (Len.lit 64), Stmt.close Prim.groestl512 18,
  Stmt.init Prim.skein512, Stmt.update Prim.skein512 (Src.hash 18) (Len.lit 64), Stmt.close Prim.skein512 19,
  Stmt.init Prim.jh512, Stmt.update Prim.jh512 (Src.hash 19) (Len.lit 64), Stmt.close Prim.jh512 20,
  Stmt.init Prim.keccak512, Stmt.update Prim.keccak512 (Src.hash 20) (Len.lit 64), Stmt.close Prim.keccak512 21,
  Stmt.init Prim.luffa512, Stmt.update Prim.luffa512 (Src.hash 21) (Len.lit 64), Stmt.close Prim.luffa512 22,
  Stmt.init Prim.cubehash512, Stmt.update Prim.cubehash512 (Src.hash 22) (Len.lit 64), Stmt.close Prim.cubehash512 23,
  Stmt.init Prim.shavite512, Stmt.update Prim.shavite512 (Src.hash 23) (Len.lit 64), Stmt.close Prim.shavite512 24,
  Stmt.init Prim.simd512, Stmt.update Prim.simd512 (Src.hash 24) (Len.lit 64), Stmt.close Prim.simd512 25,
  Stmt.init Prim.echo512, Stmt.update Prim.echo512 (Src.hash 25) (Len.lit 64), Stmt.close Prim.echo512 26,
  Stmt.init Prim.hamsi512, Stmt.update Prim.hamsi512 (Src.hash 26) (Len.lit 64), Stmt.close Prim.hamsi512 27,
  Stmt.init Prim.fugue512, Stmt.update Prim.fugue512 (Src.hash 27) (Len.lit 64), Stmt.close Prim.fugue512 28,
  Stmt.init Prim.shabal512, Stmt.update Prim.shabal512 (Src.hash 28) (Len.lit 64), Stmt.close Prim.shabal512 29,
  Stmt.init Prim.whirlpool, Stmt.update Prim.whirlpool (Src.hash 29) (Len.lit 64), Stmt.close Prim.whirlpool 30,
  Stmt.init Prim.sha512, Stmt.update Prim.sha512 (Src.hash 30) (Len.lit 64), Stmt.close Prim.sha512 31,
  Stmt.init Prim.haval256_5, Stmt.update Prim.haval256_5 (Src.hash 31) (Len.lit 64), Stmt.close Prim.haval256_5 32]

/-- Statements of the block at hash.h lines 2562-2663, between the declaration
`uint512 hash[33];` and `return hash[32].trim256();`. -/
def body_legacy : List Stmt := [
  Stmt.init Prim.blake512, Stmt.update Prim.blake512 Src.blankOrBegin Len.rangeBytes, Stmt.close Prim.blake512 0,
  Stmt.init Prim.bmw512, Stmt.update Prim.bmw512 (Src.hash 0) (Len.lit 64), Stmt.close Prim.bmw512 1,
  Stmt.init Prim.groestl512, Stmt.update Prim.groestl512 (Src.hash 1) (Len.lit 64), Stmt.close Prim.groestl512 2,
  Stmt.init Prim.skein512, Stmt.update Prim.skein512 (Src.hash 2) (Len.lit 64), Stmt.close Prim.skein512 3,
  Stmt.init Prim.jh512, Stmt.update Prim.jh512 (Src.hash 3) (Len.lit 64), Stmt.close Prim.jh512 4,
  Stmt.init Prim.keccak512, Stmt.update Prim.keccak512 (Src.hash 4) (Len.lit 64), Stmt.close Prim.keccak512 5,
  Stmt.init Prim.luffa512, Stmt.update Prim.luffa512 (Src.hash 5) (Len.lit 64), Stmt.close Prim.luffa512 6,
  Stmt.init Prim.cubehash512, Stmt.update Prim.cubehash512 (Src.hash 6) (Len.lit 64), Stmt.close Prim.cubehash512 7,
  Stmt.init Prim.shavite512, Stmt.update Prim.shavite512 (Src.hash 7) (Len.lit 64), Stmt.close Prim.shavite512 8,
  Stmt.init Prim.simd512, Stmt.update Prim.simd512 (Src.hash 8) (Len.lit 64), Stmt.close Prim.simd512 9,
  Stmt.init Prim.echo512, Stmt.update Prim.echo512 (Src.hash 9) (Len.lit 64), Stmt.close Prim.echo512 10,
  Stmt.init Prim.hamsi512, Stmt.update Prim.hamsi512 (Src.hash 10) (Len.lit 64), Stmt.close Prim.hamsi512 11,
  Stmt.init Prim.fugue512, Stmt.update Prim.fugue512 (Src.hash 11) (Len.lit 64), Stmt.close Prim.fugue512 12,
  Stmt.init Prim.shabal512, Stmt.update Prim.shabal512 (Src.hash 12) (Len.lit 64), Stmt.close Prim.shabal512 13,
  Stmt.init Prim.whirlpool, Stmt.update Prim.whirlpool (Src.hash 13) (Len.lit 64), Stmt.close Prim.whirlpool 14,
  Stmt.init Prim.sha512, Stmt.update Prim.sha512 (Src.hash 14) (Len.lit 64), Stmt.close Prim.sha512 15,
  Stmt.init Prim.haval256_5, Stmt.update Prim.haval256_5 (Src.hash 15) (Len.lit 64), Stmt.close Prim.haval256_5 16,
  Stmt.init Prim.bmw512, Stmt.update Prim.bmw512 (Src.hash 16) (Len.lit 64), Stmt.close Prim.bmw512 17,
  Stmt.init Prim.groestl512, Stmt.update Prim.groestl512 (Src.hash 17) (Len.lit 64), Stmt.close Prim.groestl512 18,
  Stmt.init Prim.skein512, Stmt.update Prim.skein512 (Src.hash 18) (Len.lit 64), Stmt.close Prim.skein512 19,
  Stmt.init Prim.jh512, Stmt.update Prim.jh512 (Src.hash 19) (Len.lit 64), Stmt.close Prim.jh512 20,
  Stmt.init Prim.keccak512, Stmt.update Prim.keccak512 (Src.hash 20) (Len.lit 64), Stmt.close Prim.keccak512 21,
  Stmt.init Prim.luffa512, Stmt.update Prim.luffa512 (Src.hash 21) (Len.lit 64), Stmt.close Prim.luffa512 22,
  Stmt.init Prim.cubehash512, Stmt.update Prim.cubehash512 (Src.hash 22) (Len.lit 64), Stmt.close Prim.cubehash512 23,
  Stmt.init Prim.shavite512, Stmt.update Prim.shavite512 (Src.hash 23) (Len.lit 64), Stmt.close Prim.shavite512 24,
  Stmt.init Prim.simd512, Stmt.update Prim.simd512 (Src.hash 24) (Len.lit 64), Stmt.close Prim.simd512 25,
  Stmt.init Prim.echo512, Stmt.update Prim.echo512 (Src.hash 25) (Len.lit 64), Stmt.close Prim.echo512 26,
  Stmt.init Prim.hamsi512, Stmt.update Prim.hamsi512 (Src.hash 26) (Len.lit 64), Stmt.close Prim.hamsi512 27,
  Stmt.init Prim.fugue512, Stmt.update Prim.fugue512 (Src.hash 27) (Len.lit 64), Stmt.close Prim.fugue512 28,
  Stmt.init Prim.shabal512, Stmt.update Prim.shabal512 (Src.hash 28) (Len.lit 64), Stmt.close Prim.shabal512 29,
  Stmt.init Prim.whirlpool, Stmt.update Prim.whirlpool (Src.hash 29) (Len.lit 64), Stmt.close Prim.whirlpool 30,
  Stmt.init Prim.sha512, Stmt.update Prim.sha512 (Src.hash 30) (Len.lit 64), Stmt.close Prim.sha512 31,
  Stmt.init Prim.haval256_5, Stmt.update Prim.haval256_5 (Src.hash 31) (Len.lit 64), Stmt.close Prim.haval256_5 32]
/-- The nineteen blocks of `phiCHOX`, one per `return`: the block for
`nTime >= 1646118000`, the sixteen blocks for `hashChar == 48` ... `102`, the
closing `else` of the selector chain, and the closing `else` on `nTime`. -/
inductive Block where
  | modern
  | sel48 | sel49 | sel50 | sel51 | sel52 | sel53 | sel54 | sel55 | sel56 | sel57
  | sel97 | sel98 | sel99 | sel100 | sel101 | sel102
  | fallback
  | legacy
  deriving DecidableEq, Repr

/-- The `N` of the block's declaration `uint512 hash[N];`. -/
def Block.size : Block → Nat
  | .modern => 11
  | .sel48 => 34 | .sel49 => 35 | .sel50 => 36 | .sel51 => 37 | .sel52 => 38
  | .sel53 => 39 | .sel54 => 40 | .sel55 => 41 | .sel56 => 42 | .sel57 => 43
  | .sel97 => 44 | .sel98 => 45 | .sel99 => 46 | .sel100 => 47 | .sel101 => 48
  | .sel102 => 49
  | .fallback => 33
  | .legacy => 33

/-- The `i` of the block's `return hash[i].trim256();`. -/
def Block.ret : Block → Nat
  | .modern => 10
  | .sel48 => 33 | .sel49 => 34 | .sel50 => 35 | .sel51 => 36 | .sel52 => 37
  | .sel53 => 38 | .sel54 => 39 | .sel55 => 40 | .sel56 => 41 | .sel57 => 42
  | .sel97 => 43 | .sel98 => 44 | .sel99 => 45 | .sel100 => 46 | .sel101 => 47
  | .sel102 => 48
  | .fallback => 32
  | .legacy => 32

/-- The statements of a block. -/
def Block.body : Block → List Stmt
  | .modern => body_modern
  | .sel48 => body_sel48 | .sel49 => body_sel49 | .sel50 => body_sel50
  | .sel51 => body_sel51 | .sel52 => body_sel52 | .sel53 => body_sel53
  | .sel54 => body_sel54 | .sel55 => body_sel55 | .sel56 => body_sel56
  | .sel57 => body_sel57 | .sel97 => body_sel97 | .sel98 => body_sel98
  | .sel99 => body_sel99 | .sel100 => body_sel100 | .sel101 => body_sel101
  | .sel102 => body_sel102
  | .fallback => body_fallback
  | .legacy => body_legacy

/-- Modelled from the spec: `uint512::trim256`, defined in `uint256.h`; the
spec has it return the first 32 bytes of the 64-byte buffer. -/
def trim256 (s : List Byte) : List Byte := s.take 32

/-- The locals on entry to a block: no context initialised, `hash` freshly
declared with `n` elements, nothing executed. -/
def initState (x : Lib) (n : Nat) : State :=
  { ctx := fun _ => none, hash := List.replicate n x.uint512_init, log := [] }

/-- What a call leaves behind: the block that ran, the final contents of its
`hash` array, the index and the value it returned, and the statements it
executed. -/
structure Final where
  block : Block
  hash : List (List Byte)
  retIndex : Nat
  ret : List Byte
  log : List Event

/-- Execution of one block from its declaration to its `return`. -/
def runBlock (x : Lib) (input : Range) (b : Block) : Option Final :=
  match execBody x input (initState x b.size) b.body with
  | none => none
  | some σ =>
    match σ.hash.get? b.ret with
    | none => none
    | some s =>
      some { block := b, hash := σ.hash, retIndex := b.ret, ret := trim256 s, log := σ.log }

/-- The value of `char hashChar` as an `int`, from the byte stored in the
string: bytes above 127 are negative where `char` is signed. -/
def charValue (signed : Bool) (b : Byte) : Int :=
  if signed ∧ 128 ≤ b.val then (b.val : Int) - 256 else (b.val : Int)

/-- The function `phiCHOX` (hash.h lines 358-2665) with its execution record.
`hashPrevBlock.back()` has no value on an empty string, which gives `none`.
`nTime` is a `uint32_t`; it is only compared with constants. -/
def phiCHOX_run (x : Lib) (input : Range) (hashPrevBlock : List Byte) (nTime : Nat) :
    Option Final :=
  match hashPrevBlock.getLast? with
  | none => none
  | some back =>
    let hashChar : Int := charValue x.char_signed back
    if nTime ≥ 1646118000 then runBlock x input .modern
    else if nTime ≥ 1644451200 ∧ nTime < 1646118000 then
      if hashChar = 48 then runBlock x input .sel48
      else if hashChar = 49 then runBlock x input .sel49
      else if hashChar = 50 then runBlock x input .sel50
      else if hashChar = 51 then runBlock x input .sel51
      else if hashChar = 52 then runBlock x input .sel52
      else if hashChar = 53 then runBlock x input .sel53
      else if hashChar = 54 then runBlock x input .sel54
      else if hashChar = 55 then runBlock x input .sel55
      else if hashChar = 56 then runBlock x input .sel56
      else if hashChar = 57 then runBlock x input .sel57
      else if hashChar = 97 then runBlock x input .sel97
      else if hashChar = 98 then runBlock x input .sel98
      else if hashChar = 99 then runBlock x input .sel99
      else if hashChar = 100 then runBlock x input .sel100
      else if hashChar = 101 then runBlock x input .sel101
      else if hashChar = 102 then runBlock x input .sel102
      else runBlock x input .fallback
    else runBlock x input .legacy

/-- The value `phiCHOX` returns. -/
def phiCHOX (x : Lib) (input : Range) (hashPrevBlock : List Byte) (nTime : Nat) :
    Option (List Byte) :=
  (phiCHOX_run x input hashPrevBlock nTime).map Final.ret

/-- One primitive invocation: the context used, the address and number of
bytes it absorbed, and the index of the slot its digest went to. -/
structure Call where
  prim : Prim
  src : Ptr
  len : Nat
  dst : Nat
  deriving DecidableEq, Repr

/-- Reading of an execution record as a sequence of invocations
`init c; update c; close c`; `none` when the record is not such a sequence. -/
def calls : List Event → Option (List Call)
  | [] => some []
  | .init a :: .update b p n :: .close c d :: rest =>
    if a = b ∧ b = c then
      match calls rest with
      | some cs => some (⟨a, p, n, d⟩ :: cs)
      | none => none
    else none
  | _ => none

/-- The primitives a call executed, in order. -/
def Final.prims (f : Final) : Option (List Prim) :=
  (calls f.log).map fun cs => cs.map Call.prim

/-- The record a statement leaves when it executes. -/
def eventOf (input : Range) : Stmt → Event
  | .init c => .init c
  | .update c src len => .update c (evalSrc input src) (evalLen input len)
  | .close c dst => .close c dst

/-- The context each invocation of a block belongs to, read off its `close`
statements. -/
def recipeOf : List Stmt → List Prim
  | [] => []
  | .close c _ :: rest => c :: recipeOf rest
  | _ :: rest => recipeOf rest

/-- The primitive sequence of a block. -/
def Block.recipe (b : Block) : List Prim := recipeOf b.body

/-- Statements that feed slot `k` to each primitive in turn, the first digest
going to slot `k + 1`. -/
def unrollFrom : Nat → List Prim → List Stmt
  | _, [] => []
  | k, p :: ps =>
    Stmt.init p :: Stmt.update p (Src.hash k) (Len.lit 64) :: Stmt.close p (k + 1) ::
      unrollFrom (k + 1) ps

/-- The straight-line code of a recipe: the first primitive absorbs the input
range into slot 0, every later one absorbs 64 bytes of the slot before its own. -/
def unroll : List Prim → List Stmt
  | [] => []
  | p :: ps =>
    Stmt.init p :: Stmt.update p Src.blankOrBegin Len.rangeBytes :: Stmt.close p 0 ::
      unrollFrom 0 ps

/-- The slot a primitive leaves for a message: its digest at the start of a
freshly declared `uint512`. -/
def slotOf (x : Lib) (p : Prim) (msg : List Byte) : List Byte :=
  store x.uint512_init (x.digest p msg)

/-- Pipeline executor of the specification, section 4.3, steps 1 and 2:
`slot[0] := p_0(input)` and `slot[k] := p_k(slot[k-1])`. -/
def pipelineSlots (x : Lib) : List Prim → List Byte → List (List Byte)
  | [], _ => []
  | p :: ps, msg => slotOf x p msg :: pipelineSlots x ps (slotOf x p msg)

/-- Pipeline executor of the specification, section 4.3, step 3: the first 32
bytes of the last slot. -/
def pipeline (x : Lib) (recipe : List Prim) (msg : List Byte) : Option (List Byte) :=
  (pipelineSlots x recipe msg).getLast?.map trim256

/-- The MODERN recipe as the specification lists it (section 4.2). -/
def spec_MODERN : List Prim :=
  [.blake512, .skein512, .bmw512, .groestl512, .jh512, .luffa512, .keccak512,
   .cubehash512, .simd512, .shavite512, .echo512]

/-- The base sequence S17 as the specification lists it (section 4.2). -/
def spec_S17 : List Prim :=
  [.blake512, .bmw512, .groestl512, .skein512, .jh512, .keccak512, .luffa512,
   .cubehash512, .shavite512, .simd512, .echo512, .hamsi512, .fugue512, .shabal512,
   .whirlpool, .sha512, .haval256_5]

/-- The suffix column of the selector table of the specification (section 4.2),
by character code; empty for a code the table does not list. -/
def spec_suffix (code : Nat) : List Prim :=
  if code = 48 then [.cubehash512]
  else if code = 49 then [.shabal512, .whirlpool]
  else if code = 50 then [.simd512, .echo512, .hamsi512]
  else if code = 51 then [.bmw512, .groestl512, .skein512, .jh512]
  else if code = 52 then [.sha512, .haval256_5, .bmw512, .groestl512, .skein512]
  else if code = 53 then
    [.jh512, .keccak512, .luffa512, .cubehash512, .shavite512, .simd512]
  else if code = 54 then
    [.shabal512, .whirlpool, .sha512, .haval256_5, .bmw512, .groestl512, .skein512]
  else if code = 55 then
    [.bmw512, .groestl512, .skein512, .jh512, .keccak512, .luffa512, .cubehash512,
     .shavite512]
  else if code = 56 then
    [.shavite512, .simd512, .echo512, .hamsi512, .fugue512, .shabal512, .whirlpool,
     .sha512, .haval256_5]
  else if code = 57 then
    [.sha512, .haval256_5, .bmw512, .groestl512, .skein512,
     .sha512, .haval256_5, .bmw512, .groestl512, .skein512]
  else if code = 97 then
    [.sha512, .haval256_5, .bmw512, .groestl512, .skein512,
     .sha512, .haval256_5, .bmw512, .groestl512, .skein512, .fugue512]
  else if code = 98 then
    [.shavite512, .simd512, .echo512, .hamsi512, .fugue512, .shabal512, .whirlpool,
     .sha512, .haval256_5, .bmw512, .groestl512, .skein512]
  else if code = 99 then
    [.shabal512, .whirlpool, .sha512, .haval256_5, .bmw512, .groestl512, .skein512,
     .shabal512, .whirlpool, .sha512, .haval256_5, .bmw512, .groestl512]
  else if code = 100 then
    [.shabal512, .whirlpool, .sha512, .haval256_5, .bmw512, .groestl512, .skein512,
     .shabal512, .whirlpool, .sha512, .haval256_5, .bmw512, .groestl512, .skein512]
  else if code = 101 then
    [.shabal512, .whirlpool, .sha512, .haval256_5, .bmw512, .groestl512, .skein512,
     .shabal512, .whirlpool, .sha512, .haval256_5, .bmw512, .groestl512, .skein512,
     .groestl512]
  else if code = 102 then
    [.shabal512, .whirlpool, .sha512, .haval256_5, .bmw512, .groestl512, .skein512,
     .shabal512, .whirlpool, .sha512, .haval256_5, .bmw512, .groestl512, .skein512,
     .groestl512, .skein512]
  else []

/-- The pipeline-length column of the selector table of the specification
(section 4.2), by character code. -/
def spec_length (code : Nat) : Nat :=
  if 48 ≤ code ∧ code ≤ 57 then 34 + (code - 48)
  else if 97 ≤ code ∧ code ≤ 102 then 44 + (code - 97)
  else 33

/-- Whether a character code is one of the sixteen the selector chain tests for. -/
def isSelector (code : Nat) : Prop :=
  (48 ≤ code ∧ code ≤ 57) ∨ (97 ≤ code ∧ code ≤ 102)

instance (code : Nat) : Decidable (isSelector code) := by
  unfold isSelector; infer_instance

/-- The block the selector chain reaches for a character code. -/
def selBlock (code : Nat) : Block :=
  if code = 48 then .sel48 else if code = 49 then .sel49
  else if code = 50 then .sel50 else if code = 51 then .sel51
  else if code = 52 then .sel52 else if code = 53 then .sel53
  else if code = 54 then .sel54 else if code = 55 then .sel55
  else if code = 56 then .sel56 else if code = 57 then .sel57
  else if code = 97 then .sel97 else if code = 98 then .sel98
  else if code = 99 then .sel99 else if code = 100 then .sel100
  else if code = 101 then .sel101 else if code = 102 then .sel102
  else .fallback

/-- The blocks inside `else if(nTime >= 1644451200 && nTime < 1646118000)`. -/
def Block.transitional (b : Block) : Bool :=
  match b with
  | .modern => false
  | .legacy => false
  | _ => true

/-- A stand-in for the external collaborators, for evaluating the definitions:
a digest is the message length followed by the message, cut or zero-padded to
the output size; a fresh `uint512` is zero; `char` is signed. -/
def sampleLib : Lib where
  digest p m := ((Fin.ofNat m.length :: m) ++ List.replicate 64 0).take (outLen p)
  digest_length p m := by
    cases p <;> simp [outLen, List.length_take]
  uint512_init := List.replicate 64 0
  uint512_init_length := by simp
  char_signed := true

/-- Memory accesses of the pipeline executor of the specification, section 4.3,
step 2, from step `k + 1` on: each step absorbs 64 bytes at slot `k` and writes
slot `k + 1`. -/
def tailCalls : Nat → List Prim → List Call
  | _, [] => []
  | k, p :: ps => ⟨p, Ptr.hash k, 64, k + 1⟩ :: tailCalls (k + 1) ps

/-- Memory accesses of the pipeline executor of the specification, section 4.3:
the first step absorbs the range and writes slot 0, the others follow
`tailCalls`. -/
def linearCalls (input : Range) : List Prim → List Call
  | [] => []
  | p :: ps =>
    ⟨p, evalSrc input Src.blankOrBegin, evalLen input Len.rangeBytes, 0⟩ :: tailCalls 0 ps

/-- The module-scope contexts `z_blake` ... `z_haval` (hash.h lines 46-62), by
primitive, each with the message it has absorbed; `none` before `fillz()`. -/
abbrev Globals := Prim → Option (List Byte)

/-- Execution of one block when the declarations of lines 363-379, which
initialise nothing, have left `ctx0` in the seventeen local contexts. -/
def runBlockFrom (x : Lib) (input : Range) (ctx0 : Prim → Option (List Byte)) (b : Block) :
    Option Final :=
  match execBody x input
      { ctx := ctx0, hash := List.replicate b.size x.uint512_init, log := [] } b.body with
  | none => none
  | some σ =>
    match σ.hash.get? b.ret with
    | none => none
    | some s =>
      some { block := b, hash := σ.hash, retIndex := b.ret, ret := trim256 s, log := σ.log }

/-- The statements `hash.h` has the means to write on contexts: the three forms
a block of `phiCHOX` is made of, on the local `ctx_*`, and the macros of lines
64-95 on the module-scope contexts, `fillz()` and the copies `ZBLAKE`, `ZBMW`,
... `ZHAVAL` (`memcpy(&ctx_c, &z_c, sizeof(z_c))`). -/
inductive MStmt where
  | stmt (s : Stmt)
  | fillz
  | zcopy (c : Prim)
  deriving DecidableEq, Repr

/-- The contexts of the module and the locals of a running block. -/
structure Machine where
  z : Globals
  σ : State

/-- Execution of one statement on the machine: a block statement acts on the
locals as `step` says, `fillz()` initialises every module-scope context, a copy
macro overwrites the local context with the module-scope one. -/
def mstep (x : Lib) (input : Range) (m : Machine) : MStmt → Option Machine
  | .stmt s =>
    match step x input m.σ s with
    | some σ' => some { z := m.z, σ := σ' }
    | none => none
  | .fillz => some { z := fun _ => some [], σ := m.σ }
  | .zcopy c => some { z := m.z, σ := { m.σ with ctx := setCtx m.σ.ctx c (m.z c) } }

/-- Execution of a statement list on the machine, in order. -/
def mexec (x : Lib) (input : Range) : Machine → List MStmt → Option Machine
  | m, [] => some m
  | m, s :: rest =>
    match mstep x input m s with
    | some m' => mexec x input m' rest
    | none => none

/-- The statements of a block as machine statements: every one of them is of
the three block forms. -/
def Block.mbody (b : Block) : List MStmt := b.body.map MStmt.stmt

/-- Execution of one block on the machine, entered with `z` in the module-scope
contexts and `ctx0` in the local ones: the outcome of the block and the
module-scope contexts it leaves. -/
def runBlockM (x : Lib) (input : Range) (z : Globals) (ctx0 : Prim → Option (List Byte))
    (b : Block) : Option (Final × Globals) :=
  match mexec x input
      { z := z, σ := { ctx := ctx0, hash := List.replicate b.size x.uint512_init, log := [] } }
      b.mbody with
  | none => none
  | some m =>
    match m.σ.hash.get? b.ret with
    | none => none
    | some s =>
      some ({ block := b, hash := m.σ.hash, retIndex := b.ret, ret := trim256 s,
              log := m.σ.log }, m.z)

/-- The seventeen blocks inside
`else if(nTime >= 1644451200 && nTime < 1646118000)`, in source order. -/
def transitionalBlocks : List Block :=
  [.sel48, .sel49, .sel50, .sel51, .sel52, .sel53, .sel54, .sel55, .sel56, .sel57,
   .sel97, .sel98, .sel99, .sel100, .sel101, .sel102, .fallback]

/-- Whether a machine statement is one of the macros of lines 64-95 (`fillz()`
or a copy `ZBLAKE` ... `ZHAVAL`). -/
def MStmt.isMacro : MStmt → Bool
  | .stmt _ => false
  | .fillz => true
  | .zcopy _ => true

/-- Whether a statement stays inside an array `uint512 hash[n]`: the slot an
update reads at `&hash[k]` exists and the bytes it reads end before the array
does; the slot a close writes exists. -/
def Stmt.inBounds (n : Nat) : Stmt → Bool
  | .init _ => true
  | .update _ Src.blankOrBegin _ => true
  | .update _ (Src.hash k) (Len.lit len) => decide (k < n) && decide (64 * k + len ≤ 64 * n)
  | .update _ (Src.hash _) Len.rangeBytes => false
  | .close _ dst => decide (dst < n)

/-- The nineteen blocks of `phiCHOX` in source order. -/
def allBlocks : List Block :=
  Block.modern :: (transitionalBlocks ++ [Block.legacy])

/-- Pairs of selector characters, the recipe of the first being the beginning
of the recipe of the second: `1 6`, `6 c`, `c d`, `d e`, `e f`, `4 9`, `9 a`,
`3 7`, `8 b`. -/
def nestedPairs : List (Byte × Byte) :=
  [(49, 54), (54, 99), (99, 100), (100, 101), (101, 102), (52, 57), (57, 97), (51, 55),
   (56, 98)]

/-! ### The hasher classes of lines 97-259 -/

/-- A hash class of the `crypto/` directory (`CSHA256`, `CRIPEMD160`), which
`hash.h` only includes: its state, its constructor, its members `Write`,
`Finalize` and `Reset`, and its constant `OUTPUT_SIZE`.  `Finalize` yields the
bytes written to the output buffer and leaves the object in some state
(`spent`).  The laws are those of an incremental hash: writing in pieces is
writing the concatenation, `Reset` gives the constructed state, and `Finalize`
writes `OUTPUT_SIZE` bytes. -/
structure Hasher where
  /-- The state of an object of the class. -/
  Ctx : Type
  /-- The state the constructor leaves. -/
  init : Ctx
  /-- The member `Write(data, len)`, `data` being the `len` bytes. -/
  write : Ctx → List Byte → Ctx
  /-- The bytes `Finalize(hash)` writes to `hash`. -/
  finalize : Ctx → List Byte
  /-- The state `Finalize` leaves. -/
  spent : Ctx → Ctx
  /-- The member `Reset()`. -/
  reset : Ctx → Ctx
  /-- The constant `OUTPUT_SIZE`. -/
  outputSize : Nat
  write_write : ∀ c a b, write (write c a) b = write c (a ++ b)
  write_nil : ∀ c, write c [] = c
  reset_eq : ∀ c, reset c = init
  finalize_length : ∀ c, (finalize c).length = outputSize

/-- The hash function a hasher class computes: the output of `Finalize` on a
fresh object that has been written the message. -/
def Hasher.hash (H : Hasher) (m : List Byte) : List Byte :=
  H.finalize (H.write H.init m)

/-- The class `CHash256` (hash.h lines 99-120): its private member `sha`. -/
structure CHash256 (S : Hasher) where
  sha : S.Ctx

/-- The implicit constructor of `CHash256`: `sha` is default-constructed. -/
def CHash256.new (S : Hasher) : CHash256 S := ⟨S.init⟩

/-- The member `CHash256::Write` (lines 111-114): `sha.Write(data, len)`. -/
def CHash256.Write {S : Hasher} (h : CHash256 S) (data : List Byte) : CHash256 S :=
  ⟨S.write h.sha data⟩

/-- The member `CHash256::Reset` (lines 116-119): `sha.Reset()`. -/
def CHash256.Reset {S : Hasher} (h : CHash256 S) : CHash256 S :=
  ⟨S.reset h.sha⟩

/-- The member `CHash256::Finalize` (lines 105-109): `sha.Finalize(buf)` fills
the local `buf[sha.OUTPUT_SIZE]`, then
`sha.Reset().Write(buf, sha.OUTPUT_SIZE).Finalize(hash)`.  The result is the
bytes written to `hash` and the object afterwards. -/
def CHash256.Finalize {S : Hasher} (h : CHash256 S) : List Byte × CHash256 S :=
  let buf := S.finalize h.sha
  let sha1 := S.spent h.sha
  let sha2 := S.write (S.reset sha1) (buf.take S.outputSize)
  (S.finalize sha2, ⟨S.spent sha2⟩)

/-- The class `CHash160` (hash.h lines 123-144): its private member `sha`. -/
structure CHash160 (S : Hasher) where
  sha : S.Ctx

/-- The implicit constructor of `CHash160`. -/
def CHash160.new (S : Hasher) : CHash160 S := ⟨S.init⟩

/-- The member `CHash160::Write` (lines 135-138). -/
def CHash160.Write {S : Hasher} (h : CHash160 S) (data : List Byte) : CHash160 S :=
  ⟨S.write h.sha data⟩

/-- The member `CHash160::Reset` (lines 140-143). -/
def CHash160.Reset {S : Hasher} (h : CHash160 S) : CHash160 S :=
  ⟨S.reset h.sha⟩

/-- The member `CHash160::Finalize` (lines 129-133): `sha.Finalize(buf)`, then
`CRIPEMD160().Write(buf, sha.OUTPUT_SIZE).Finalize(hash)` on a temporary. -/
def CHash160.Finalize {S : Hasher} (R : Hasher) (h : CHash160 S) : List Byte × CHash160 S :=
  let buf := S.finalize h.sha
  (R.finalize (R.write R.init (buf.take S.outputSize)), ⟨S.spent h.sha⟩)

/-- The bytes a `Write(pbegin == pend ? pblank : (const unsigned char*)&pbegin[0],
(pend - pbegin) * sizeof(pbegin[0]))` passes on, `pblank` being the one-element
zero array each of these functions declares. -/
def rangeArg (input : Range) : List Byte :=
  (if input.elems.isEmpty then pblank else input.bytes).take (input.count * input.sz)

/-- The template `Hash160(pbegin, pend)` (hash.h lines 238-246). -/
def Hash160 (S R : Hasher) (input : Range) : List Byte :=
  (((CHash160.new S).Write (rangeArg input)).Finalize R).1

/-- The overload `Hash160(const std::vector<unsigned char>& vch)` (lines
249-252): `Hash160(vch.begin(), vch.end())`. -/
def Hash160_vector (S R : Hasher) (vch : List Byte) : List Byte :=
  Hash160 S R (Range.ofBytes vch)

/-- The overload `Hash160(const prevector<N, unsigned char>& vch)` (lines
255-259): `Hash160(vch.begin(), vch.end())`. -/
def Hash160_prevector (S R : Hasher) (vch : List Byte) : List Byte :=
  Hash160 S R (Range.ofBytes vch)

/-- A stand-in hasher class for evaluating the definitions: the state is the
message, the output is the message length followed by the message, cut or
zero-padded to `n` bytes. -/
def sampleHasher (n : Nat) : Hasher where
  Ctx := List Byte
  init := []
  write c d := c ++ d
  finalize c := ((Fin.ofNat c.length :: c) ++ List.replicate n 0).take n
  spent c := c
  reset _ := []
  outputSize := n
  write_write c a b := List.append_assoc c a b
  write_nil c := List.append_nil c
  reset_eq _ := rfl
  finalize_length c := by simp [List.length_take]; omega

/-- The template `Hash(pbegin, pend)` (hash.h lines 147-155):
`CHash256().Write(...).Finalize((unsigned char*)&result)`. -/
def Hash (S : Hasher) (r : Range) : List Byte :=
  ((CHash256.new S).Write (rangeArg r)).Finalize.1

/-- The template `Hash(p1begin, p1end, p2begin, p2end)` (hash.h lines 158-167):
two `Write` calls, then `Finalize`. -/
def Hash_2 (S : Hasher) (r1 r2 : Range) : List Byte :=
  (((CHash256.new S).Write (rangeArg r1)).Write (rangeArg r2)).Finalize.1

/-- The template `Hash(p1begin, p1end, p2begin, p2end, p3begin, p3end)`
(hash.h lines 170-181): three `Write` calls, then `Finalize`. -/
def Hash_3 (S : Hasher) (r1 r2 r3 : Range) : List Byte :=
  ((((CHash256.new S).Write (rangeArg r1)).Write (rangeArg r2)).Write (rangeArg r3)).Finalize.1

/-! ### The stream classes of lines 262-326 -/

/-- The template parameter `Source` of `CHashVerifier`: a stream with a member
`read(pch, nSize)`.  A read yields `nSize` bytes and the stream after them, or
throws (`none`).  The laws are those of reading a stream in order: a read has
the length asked for, a read of nothing changes nothing, and a read of `n + m`
bytes is a read of `n` followed by a read of `m`. -/
structure Source where
  /-- The state of the stream. -/
  Pos : Type
  /-- The member `read`. -/
  read : Pos → Nat → Option (List Byte × Pos)
  read_length : ∀ s n d s', read s n = some (d, s') → d.length = n
  read_zero : ∀ s, read s 0 = some ([], s)
  read_add : ∀ s n m, read s (n + m)
    = match read s n with
      | none => none
      | some (d, s') =>
        match read s' m with
        | none => none
        | some (e, s'') => some (d ++ e, s'')

/-- The class `CHashWriter` (hash.h lines 262-291): the private `ctx` and the
public `nType`, `nVersion`. -/
structure CHashWriter (S : Hasher) where
  ctx : CHash256 S
  nType : Int
  nVersion : Int

/-- The member `CHashWriter::write` (lines 273-276): `ctx.Write(pch, size)`, which
takes `size` bytes at `pch`. -/
def CHashWriter.write {S : Hasher} (w : CHashWriter S) (pch : List Byte) (size : Nat) :
    CHashWriter S :=
  { w with ctx := w.ctx.Write (pch.take size) }

/-- The member `CHashWriter::GetHash` (lines 279-283). -/
def CHashWriter.GetHash {S : Hasher} (w : CHashWriter S) : List Byte :=
  w.ctx.Finalize.1

/-- The class `CHashVerifier<Source>` (hash.h lines 294-326): the `CHashWriter`
it derives from and the stream `source` points to. -/
structure CHashVerifier (S : Hasher) (Src : Source) where
  writer : CHashWriter S
  source : Src.Pos

/-- The member `CHashVerifier::read` (lines 303-307): `source->read(pch, nSize)`
fills the first `nSize` bytes of the buffer, then `this->write(pch, nSize)`.
The result is the buffer and the object afterwards, `none` when the stream
throws. -/
def CHashVerifier.read {S : Hasher} {Src : Source} (v : CHashVerifier S Src)
    (pch : List Byte) (nSize : Nat) : Option (List Byte × CHashVerifier S Src) :=
  match Src.read v.source nSize with
  | none => none
  | some (d, pos) =>
    some (store pch d, { writer := v.writer.write (store pch d) nSize, source := pos })

/-- The state of `CHashVerifier::ignore` when its loop is left: the object, the
local buffer `data`, and the bytes each call of `write` was given, in order. -/
structure IgnoreRun (S : Hasher) (Src : Source) where
  obj : CHashVerifier S Src
  data : List Byte
  chunks : List (List Byte)

/-- The loop of `CHashVerifier::ignore` (lines 312-316) for at most `fuel`
evaluations of its condition: `while (nSize > 0) { now = min(nSize, 1024);
read(data, now); nSize -= now; }`.  The result is `none` when the evaluations
do not suffice, `some none` when the stream throws, and the state at the exit
otherwise. -/
def CHashVerifier.ignoreLoop {S : Hasher} {Src : Source} :
    Nat → CHashVerifier S Src → List Byte → Nat → List (List Byte)
      → Option (Option (IgnoreRun S Src))
  | 0, _, _, _, _ => none
  | fuel + 1, v, data, nSize, chunks =>
    if nSize > 0 then
      match v.read data (min nSize 1024) with
      | none => some none
      | some (data', v') =>
        CHashVerifier.ignoreLoop fuel v' data' (nSize - min nSize 1024)
          (chunks ++ [data'.take (min nSize 1024)])
    else some (some { obj := v, data := data, chunks := chunks })

/-- The member `CHashVerifier::ignore` (lines 309-317), `data0` being what the
declaration `char data[1024]` leaves in the buffer. -/
def CHashVerifier.ignore {S : Hasher} {Src : Source} (fuel : Nat) (v : CHashVerifier S Src)
    (data0 : List Byte) (nSize : Nat) : Option (Option (IgnoreRun S Src)) :=
  CHashVerifier.ignoreLoop fuel v data0 nSize []

/-- The sizes of the reads of `ignore(nSize)`: 1024 as often as it fits, then
the rest when there is one. -/
def chunkSizes (nSize : Nat) : List Nat :=
  List.replicate (nSize / 1024) 1024 ++ (if nSize % 1024 = 0 then [] else [nSize % 1024])

/-- A stand-in stream for evaluating the definitions: the bytes still to come;
a read beyond them throws. -/
def sampleSource : Source where
  Pos := List Byte
  read s n := if n ≤ s.length then some (s.take n, s.drop n) else none
  read_length s n d s' h := by
    dsimp only at h
    split at h
    · simp only [Option.some.injEq, Prod.mk.injEq] at h
      rw [← h.1, List.length_take]
      omega
    · simp at h
  read_zero s := by simp
  read_add s n m := by
    by_cases h1 : n ≤ s.length
    · by_cases h2 : m ≤ s.length - n
      · have h3 : n + m ≤ s.length := by omega
        simp only [h1, h3, if_true, List.length_drop, h2, List.take_add, List.drop_drop]
      · have h3 : ¬ n + m ≤ s.length := by omega
        simp only [h1, h3, if_true, if_false, List.length_drop, h2]
    · have h3 : ¬ n + m ≤ s.length := by omega
      simp only [h1, h3, if_false]

/-! ## General facts about the interpreter -/

theorem Range.bytes_length (r : Range) : r.bytes.length = r.count * r.sz := by
  obtain ⟨sz, elems⟩ := r
  simp only [Range.bytes, Range.count]
  induction elems with
  | nil => simp [flat]
  | cons e es ih =>
    simp only [List.map_cons, flat, List.length_append, List.length_cons, ih, e.2]
    rw [Nat.add_mul, Nat.one_mul, Nat.add_comm]

theorem Range.bytes_of_isEmpty (r : Range) (h : r.elems.isEmpty = true) : r.bytes = [] := by
  obtain ⟨sz, elems⟩ := r
  cases elems with
  | nil => rfl
  | cons e es => simp at h

theorem Range.count_of_isEmpty (r : Range) (h : r.elems.isEmpty = true) : r.count = 0 := by
  obtain ⟨sz, elems⟩ := r
  cases elems with
  | nil => rfl
  | cons e es => simp at h

theorem outLen_le (p : Prim) : outLen p ≤ 64 := by
  cases p <;> decide

theorem slotOf_length (x : Lib) (p : Prim) (m : List Byte) :
    (slotOf x p m).length = 64 := by
  have h1 := x.digest_length p m
  have h2 := outLen_le p
  simp only [slotOf, store, List.length_append, List.length_drop, x.uint512_init_length, h1]
  omega

theorem pipelineSlots_length (x : Lib) (ps : List Prim) (m : List Byte) :
    (pipelineSlots x ps m).length = ps.length := by
  induction ps generalizing m with
  | nil => rfl
  | cons p ps ih => simp [pipelineSlots, ih]

/-- What the first statement triple of a block reads: the whole range. -/
theorem readMem_range (input : Range) (hash : List (List Byte)) :
    readMem input hash (evalSrc input Src.blankOrBegin) (evalLen input Len.rangeBytes)
      = some input.bytes := by
  unfold evalSrc evalLen
  by_cases h : input.elems.isEmpty = true
  · simp [h, readMem, Range.count_of_isEmpty input h, Range.bytes_of_isEmpty input h]
  · simp [h, readMem, ← Range.bytes_length]

/-- What a later statement triple reads: the whole of the slot before its own. -/
theorem readMem_slot (input : Range) (pre : List (List Byte)) (cur : List Byte)
    (rest : List (List Byte)) (hcur : cur.length = 64) :
    readMem input (pre ++ cur :: rest) (Ptr.hash pre.length) 64 = some cur := by
  have hd : List.drop pre.length (pre ++ cur :: rest) = cur :: rest := by simp
  have ht : List.take 64 (cur ++ flat rest) = cur := by
    rw [← hcur]; simp
  simp [readMem, hd, flat, hcur, ht]

/-- Running the tail of a recipe: every primitive turns the slot before its own
into the next slot of the pipeline. -/
theorem execBody_unrollFrom (x : Lib) (input : Range) (ps : List Prim) :
    ∀ (pre : List (List Byte)) (cur : List Byte) (m : Nat)
      (ctx : Prim → Option (List Byte)) (log : List Event),
      cur.length = 64 → ps.length ≤ m →
      ∃ σ, execBody x input ⟨ctx, pre ++ cur :: List.replicate m x.uint512_init, log⟩
              (unrollFrom pre.length ps) = some σ
        ∧ σ.hash = pre ++ cur ::
            (pipelineSlots x ps cur ++ List.replicate (m - ps.length) x.uint512_init) := by
  induction ps with
  | nil =>
    intro pre cur m ctx log _ _
    exact ⟨_, rfl, by simp [pipelineSlots]⟩
  | cons p ps ih =>
    intro pre cur m ctx log hcur hm
    obtain ⟨m', rfl⟩ : ∃ m', m = m' + 1 := ⟨m - 1, by simp at hm; omega⟩
    have hm' : ps.length ≤ m' := by simpa using hm
    have hget : (pre ++ cur :: List.replicate (m' + 1) x.uint512_init).get? (pre.length + 1)
        = some x.uint512_init := by
      have hsplit : pre ++ cur :: List.replicate (m' + 1) x.uint512_init
          = (pre ++ [cur]) ++ x.uint512_init :: List.replicate m' x.uint512_init := by
        simp [List.replicate_succ]
      rw [hsplit, List.get?_eq_getElem?, List.getElem?_append_right (by simp)]
      simp
    have hset : (pre ++ cur :: List.replicate (m' + 1) x.uint512_init).set (pre.length + 1)
          (store x.uint512_init (x.digest p cur))
        = (pre ++ [cur]) ++ slotOf x p cur :: List.replicate m' x.uint512_init := by
      simp [List.set_append, List.replicate_succ, slotOf]
    obtain ⟨σ, hσ, hh⟩ := ih (pre ++ [cur]) (slotOf x p cur) m'
      (setCtx (setCtx (setCtx ctx p (some [])) p (some ([] ++ cur))) p none)
      (log ++ [Event.init p] ++ [Event.update p (Ptr.hash pre.length) 64]
        ++ [Event.close p (pre.length + 1)])
      (slotOf_length x p cur) hm'
    refine ⟨σ, ?_, ?_⟩
    · rw [← hσ]
      simp only [unrollFrom, execBody, step, setCtx, if_true, evalSrc, evalLen,
        readMem_slot input pre cur _ hcur, hget, hset, List.length_append,
        List.length_singleton, List.nil_append]
    · rw [hh]
      simp [pipelineSlots, Nat.add_sub_add_right]

/-- Running a whole recipe from a fresh block state fills the array with the
slots of the pipeline. -/
theorem execBody_unroll (x : Lib) (input : Range) (p : Prim) (ps : List Prim) (m : Nat)
    (hm : ps.length ≤ m) :
    ∃ σ, execBody x input (initState x (m + 1)) (unroll (p :: ps)) = some σ
      ∧ σ.hash = pipelineSlots x (p :: ps) input.bytes
          ++ List.replicate (m - ps.length) x.uint512_init := by
  obtain ⟨σ, hσ, hh⟩ := execBody_unrollFrom x input ps [] (slotOf x p input.bytes) m
    (setCtx (setCtx (setCtx (fun _ => none) p (some [])) p (some ([] ++ input.bytes))) p none)
    ([] ++ [Event.init p]
      ++ [Event.update p (evalSrc input Src.blankOrBegin) (evalLen input Len.rangeBytes)]
      ++ [Event.close p 0])
    (slotOf_length x p input.bytes) hm
  refine ⟨σ, ?_, ?_⟩
  · rw [← hσ]
    simp only [unroll, execBody, step, initState, setCtx, if_true, readMem_range,
      List.replicate_succ, List.get?, List.set, slotOf, List.nil_append, List.length_nil]
  · rw [hh]
    simp [pipelineSlots]

/-- The record of a successful run lists the statements in program order. -/
theorem execBody_log (x : Lib) (input : Range) (stmts : List Stmt) :
    ∀ (σ σ' : State), execBody x input σ stmts = some σ' →
      σ'.log = σ.log ++ stmts.map (eventOf input) := by
  induction stmts with
  | nil =>
    intro σ σ' h
    simp only [execBody, Option.some.injEq] at h
    simp [← h]
  | cons s rest ih =>
    intro σ σ' h
    simp only [execBody] at h
    cases hs : step x input σ s with
    | none => simp [hs] at h
    | some σ1 =>
      rw [hs] at h
      have h1 : σ1.log = σ.log ++ [eventOf input s] := by
        cases s with
        | init c =>
          simp only [step, Option.some.injEq] at hs
          simp [← hs, eventOf]
        | update c src len =>
          simp only [step] at hs
          split at hs
          · simp only [Option.some.injEq] at hs
            simp [← hs, eventOf]
          · simp at hs
        | close c dst =>
          simp only [step] at hs
          split at hs
          · simp only [Option.some.injEq] at hs
            simp [← hs, eventOf]
          · simp at hs
      rw [ih σ1 σ' h, h1]
      simp

/-! ## The nineteen blocks -/

theorem Block.body_eq_unroll (b : Block) : b.body = unroll b.recipe := by
  cases b <;> rfl

theorem Block.recipe_length (b : Block) : b.recipe.length = b.size := by
  cases b <;> rfl

theorem Block.ret_succ (b : Block) : b.ret + 1 = b.size := by
  cases b <;> rfl

/-- Every block runs to its `return`: its array then holds the slots of the
pipeline of its primitive sequence on the bytes of the range, its record is its
statement list, and it returns the trimmed slot `hash[ret]`. -/
theorem runBlock_eq (x : Lib) (input : Range) (b : Block) :
    runBlock x input b = some
      { block := b
        hash := pipelineSlots x b.recipe input.bytes
        retIndex := b.ret
        ret := trim256 ((pipelineSlots x b.recipe input.bytes).getD b.ret [])
        log := b.body.map (eventOf input) } := by
  have hlen := b.recipe_length
  have hret := b.ret_succ
  cases hr : b.recipe with
  | nil => rw [hr] at hlen; simp at hlen; omega
  | cons p ps =>
    rw [hr] at hlen
    simp only [List.length_cons] at hlen
    obtain ⟨σ, hσ, hh⟩ := execBody_unroll x input p ps ps.length (Nat.le_refl _)
    have hlog := execBody_log x input _ _ _ hσ
    rw [Nat.sub_self, List.replicate_zero, List.append_nil] at hh
    have hidx : b.ret < (pipelineSlots x (p :: ps) input.bytes).length := by
      rw [pipelineSlots_length, List.length_cons]; omega
    unfold runBlock
    rw [b.body_eq_unroll, hr, ← hlen, hσ]
    simp only [hh, List.get?_eq_getElem?, List.getElem?_eq_getElem hidx, List.getD,
      Option.getD_some, hlog, initState, List.nil_append]

/-- The value a block returns is the one the pipeline executor of the
specification computes for the block's primitive sequence. -/
theorem pipeline_block (x : Lib) (b : Block) (msg : List Byte) :
    pipeline x b.recipe msg = some (trim256 ((pipelineSlots x b.recipe msg).getD b.ret [])) := by
  have hlen := b.recipe_length
  have hret := b.ret_succ
  have hidx : b.ret < (pipelineSlots x b.recipe msg).length := by
    rw [pipelineSlots_length]; omega
  have hlast : (pipelineSlots x b.recipe msg).length - 1 = b.ret := by
    rw [pipelineSlots_length]; omega
  simp only [pipeline, List.getLast?_eq_getElem?, hlast, List.getD, List.get?_eq_getElem?,
    List.getElem?_eq_getElem hidx, Option.map_some', Option.getD_some]

/-! ## The dispatch -/

theorem charValue_eq_iff (s : Bool) (c : Byte) (n : Nat) (z : Int) (hz : z = (n : Int))
    (hn : n < 128) : charValue s c = z ↔ c.val = n := by
  unfold charValue
  have hc := c.isLt
  split <;> omega

theorem phiCHOX_run_modern (x : Lib) (input : Range) (prev : List Byte) (t : Nat)
    (hprev : prev ≠ []) (ht : 1646118000 ≤ t) :
    phiCHOX_run x input prev t = runBlock x input .modern := by
  obtain ⟨c, hc⟩ : ∃ c, prev.getLast? = some c :=
    ⟨prev.getLast hprev, List.getLast?_eq_getLast _ hprev⟩
  simp [phiCHOX_run, hc, ht]

theorem phiCHOX_run_legacy (x : Lib) (input : Range) (prev : List Byte) (t : Nat)
    (hprev : prev ≠ []) (ht : t < 1644451200) :
    phiCHOX_run x input prev t = runBlock x input .legacy := by
  obtain ⟨c, hc⟩ : ∃ c, prev.getLast? = some c :=
    ⟨prev.getLast hprev, List.getLast?_eq_getLast _ hprev⟩
  have h1 : ¬ 1646118000 ≤ t := by omega
  have h2 : ¬ 1644451200 ≤ t := by omega
  simp [phiCHOX_run, hc, h1, h2]

theorem phiCHOX_run_transitional (x : Lib) (input : Range) (prev : List Byte) (t : Nat)
    (c : Byte) (hc : prev.getLast? = some c) (h1 : 1644451200 ≤ t) (h2 : t < 1646118000) :
    phiCHOX_run x input prev t = runBlock x input (selBlock c.val) := by
  have h3 : ¬ 1646118000 ≤ t := by omega
  have e48 := charValue_eq_iff x.char_signed c 48 48 rfl (by decide)
  have e49 := charValue_eq_iff x.char_signed c 49 49 rfl (by decide)
  have e50 := charValue_eq_iff x.char_signed c 50 50 rfl (by decide)
  have e51 := charValue_eq_iff x.char_signed c 51 51 rfl (by decide)
  have e52 := charValue_eq_iff x.char_signed c 52 52 rfl (by decide)
  have e53 := charValue_eq_iff x.char_signed c 53 53 rfl (by decide)
  have e54 := charValue_eq_iff x.char_signed c 54 54 rfl (by decide)
  have e55 := charValue_eq_iff x.char_signed c 55 55 rfl (by decide)
  have e56 := charValue_eq_iff x.char_signed c 56 56 rfl (by decide)
  have e57 := charValue_eq_iff x.char_signed c 57 57 rfl (by decide)
  have e97 := charValue_eq_iff x.char_signed c 97 97 rfl (by decide)
  have e98 := charValue_eq_iff x.char_signed c 98 98 rfl (by decide)
  have e99 := charValue_eq_iff x.char_signed c 99 99 rfl (by decide)
  have e100 := charValue_eq_iff x.char_signed c 100 100 rfl (by decide)
  have e101 := charValue_eq_iff x.char_signed c 101 101 rfl (by decide)
  have e102 := charValue_eq_iff x.char_signed c 102 102 rfl (by decide)
  unfold phiCHOX_run
  rw [hc]
  dsimp only
  rw [if_neg h3, if_pos ⟨h1, h2⟩]
  simp only [e48]
  simp only [e49]
  simp only [e50]
  simp only [e51]
  simp only [e52]
  simp only [e53]
  simp only [e54]
  simp only [e55]
  simp only [e56]
  simp only [e57]
  simp only [e97]
  simp only [e98]
  simp only [e99]
  simp only [e100]
  simp only [e101]
  simp only [e102]
  unfold selBlock
  by_cases h48 : c.val = 48
  · rw [if_pos h48, if_pos h48]
  rw [if_neg h48, if_neg h48]
  by_cases h49 : c.val = 49
  · rw [if_pos h49, if_pos h49]
  rw [if_neg h49, if_neg h49]
  by_cases h50 : c.val = 50
  · rw [if_pos h50, if_pos h50]
  rw [if_neg h50, if_neg h50]
  by_cases h51 : c.val = 51
  · rw [if_pos h51, if_pos h51]
  rw [if_neg h51, if_neg h51]
  by_cases h52 : c.val = 52
  · rw [if_pos h52, if_pos h52]
  rw [if_neg h52, if_neg h52]
  by_cases h53 : c.val = 53
  · rw [if_pos h53, if_pos h53]
  rw [if_neg h53, if_neg h53]
  by_cases h54 : c.val = 54
  · rw [if_pos h54, if_pos h54]
  rw [if_neg h54, if_neg h54]
  by_cases h55 : c.val = 55
  · rw [if_pos h55, if_pos h55]
  rw [if_neg h55, if_neg h55]
  by_cases h56 : c.val = 56
  · rw [if_pos h56, if_pos h56]
  rw [if_neg h56, if_neg h56]
  by_cases h57 : c.val = 57
  · rw [if_pos h57, if_pos h57]
  rw [if_neg h57, if_neg h57]
  by_cases h97 : c.val = 97
  · rw [if_pos h97, if_pos h97]
  rw [if_neg h97, if_neg h97]
  by_cases h98 : c.val = 98
  · rw [if_pos h98, if_pos h98]
  rw [if_neg h98, if_neg h98]
  by_cases h99 : c.val = 99
  · rw [if_pos h99, if_pos h99]
  rw [if_neg h99, if_neg h99]
  by_cases h100 : c.val = 100
  · rw [if_pos h100, if_pos h100]
  rw [if_neg h100, if_neg h100]
  by_cases h101 : c.val = 101
  · rw [if_pos h101, if_pos h101]
  rw [if_neg h101, if_neg h101]
  by_cases h102 : c.val = 102
  · rw [if_pos h102, if_pos h102]
  rw [if_neg h102, if_neg h102]

/-! ## Invocations -/

theorem calls_unrollFrom (input : Range) (ps : List Prim) :
    ∀ k, calls ((unrollFrom k ps).map (eventOf input)) = some (tailCalls k ps) := by
  induction ps with
  | nil => intro k; rfl
  | cons p ps ih =>
    intro k
    simp [unrollFrom, eventOf, calls, ih, tailCalls, evalSrc, evalLen]

theorem calls_unroll (input : Range) (ps : List Prim) :
    calls ((unroll ps).map (eventOf input)) = some (linearCalls input ps) := by
  cases ps with
  | nil => rfl
  | cons p ps =>
    simp [unroll, eventOf, calls, calls_unrollFrom, linearCalls]

theorem tailCalls_prims (ps : List Prim) : ∀ k, (tailCalls k ps).map Call.prim = ps := by
  induction ps with
  | nil => intro k; rfl
  | cons p ps ih => intro k; simp [tailCalls, ih]

theorem linearCalls_prims (input : Range) (ps : List Prim) :
    (linearCalls input ps).map Call.prim = ps := by
  cases ps with
  | nil => rfl
  | cons p ps => simp [linearCalls, tailCalls_prims]

theorem tailCalls_length (ps : List Prim) : ∀ k, (tailCalls k ps).length = ps.length := by
  induction ps with
  | nil => intro k; rfl
  | cons p ps ih => intro k; simp [tailCalls, ih]

theorem linearCalls_length (input : Range) (ps : List Prim) :
    (linearCalls input ps).length = ps.length := by
  cases ps with
  | nil => rfl
  | cons p ps => simp [linearCalls, tailCalls_length]

theorem tailCalls_dst (ps : List Prim) :
    ∀ k, (tailCalls k ps).map Call.dst = List.range' (k + 1) ps.length := by
  induction ps with
  | nil => intro k; rfl
  | cons p ps ih => intro k; simp [tailCalls, ih, List.range']

theorem linearCalls_dst (input : Range) (ps : List Prim) :
    (linearCalls input ps).map Call.dst = List.range ps.length := by
  cases ps with
  | nil => rfl
  | cons p ps =>
    simp [linearCalls, tailCalls_dst, List.range_eq_range', List.range']

/-- The record of a block read as invocations. -/
theorem calls_block (input : Range) (b : Block) :
    calls (b.body.map (eventOf input)) = some (linearCalls input b.recipe) := by
  rw [b.body_eq_unroll, calls_unroll]

theorem pipelineSlots_take (x : Lib) (a b : List Prim) :
    ∀ m, (pipelineSlots x (a ++ b) m).take a.length = pipelineSlots x a m := by
  induction a with
  | nil => intro m; simp [pipelineSlots]
  | cons p ps ih => intro m; simp [pipelineSlots, ih]

theorem pipelineSlots_get (x : Lib) (ps : List Prim) :
    ∀ m k p, ps.get? (k + 1) = some p →
      ∃ s, (pipelineSlots x ps m).get? k = some s ∧ s.length = 64
        ∧ (pipelineSlots x ps m).get? (k + 1) = some (slotOf x p s) := by
  induction ps with
  | nil => intro m k p h; simp at h
  | cons q qs ih =>
    intro m k p h
    cases k with
    | zero =>
      cases qs with
      | nil => simp at h
      | cons r rs =>
        simp only [List.get?, Option.some.injEq] at h
        subst h
        exact ⟨slotOf x q m, rfl, slotOf_length x q m, rfl⟩
    | succ k =>
      simp only [List.get?] at h
      obtain ⟨s, h1, h2, h3⟩ := ih (slotOf x q m) k p h
      exact ⟨s, by simpa [pipelineSlots] using h1, h2, by simpa [pipelineSlots] using h3⟩

theorem selBlock_transitional (n : Nat) : (selBlock n).transitional = true := by
  unfold selBlock
  by_cases h48 : n = 48
  · rw [if_pos h48]; rfl
  rw [if_neg h48]
  by_cases h49 : n = 49
  · rw [if_pos h49]; rfl
  rw [if_neg h49]
  by_cases h50 : n = 50
  · rw [if_pos h50]; rfl
  rw [if_neg h50]
  by_cases h51 : n = 51
  · rw [if_pos h51]; rfl
  rw [if_neg h51]
  by_cases h52 : n = 52
  · rw [if_pos h52]; rfl
  rw [if_neg h52]
  by_cases h53 : n = 53
  · rw [if_pos h53]; rfl
  rw [if_neg h53]
  by_cases h54 : n = 54
  · rw [if_pos h54]; rfl
  rw [if_neg h54]
  by_cases h55 : n = 55
  · rw [if_pos h55]; rfl
  rw [if_neg h55]
  by_cases h56 : n = 56
  · rw [if_pos h56]; rfl
  rw [if_neg h56]
  by_cases h57 : n = 57
  · rw [if_pos h57]; rfl
  rw [if_neg h57]
  by_cases h97 : n = 97
  · rw [if_pos h97]; rfl
  rw [if_neg h97]
  by_cases h98 : n = 98
  · rw [if_pos h98]; rfl
  rw [if_neg h98]
  by_cases h99 : n = 99
  · rw [if_pos h99]; rfl
  rw [if_neg h99]
  by_cases h100 : n = 100
  · rw [if_pos h100]; rfl
  rw [if_neg h100]
  by_cases h101 : n = 101
  · rw [if_pos h101]; rfl
  rw [if_neg h101]
  by_cases h102 : n = 102
  · rw [if_pos h102]; rfl
  rw [if_neg h102]
  rfl

theorem selBlock_of_not_selector (n : Nat) (h : ¬ isSelector n) : selBlock n = .fallback := by
  unfold isSelector at h
  unfold selBlock
  rw [if_neg (by omega : ¬ n = 48)]
  rw [if_neg (by omega : ¬ n = 49)]
  rw [if_neg (by omega : ¬ n = 50)]
  rw [if_neg (by omega : ¬ n = 51)]
  rw [if_neg (by omega : ¬ n = 52)]
  rw [if_neg (by omega : ¬ n = 53)]
  rw [if_neg (by omega : ¬ n = 54)]
  rw [if_neg (by omega : ¬ n = 55)]
  rw [if_neg (by omega : ¬ n = 56)]
  rw [if_neg (by omega : ¬ n = 57)]
  rw [if_neg (by omega : ¬ n = 97)]
  rw [if_neg (by omega : ¬ n = 98)]
  rw [if_neg (by omega : ¬ n = 99)]
  rw [if_neg (by omega : ¬ n = 100)]
  rw [if_neg (by omega : ¬ n = 101)]
  rw [if_neg (by omega : ¬ n = 102)]

theorem getLast?_of_ne_nil (prev : List Byte) (h : prev ≠ []) :
    ∃ c, prev.getLast? = some c :=
  ⟨prev.getLast h, List.getLast?_eq_getLast _ h⟩

theorem phiCHOX_run_block (x : Lib) (input : Range) (prev : List Byte) (t : Nat)
    (hprev : prev ≠ []) : ∃ b, phiCHOX_run x input prev t = runBlock x input b := by
  by_cases h1 : 1646118000 ≤ t
  · exact ⟨_, phiCHOX_run_modern x input prev t hprev h1⟩
  · by_cases h2 : 1644451200 ≤ t
    · obtain ⟨c, hc⟩ := getLast?_of_ne_nil prev hprev
      exact ⟨_, phiCHOX_run_transitional x input prev t c hc h2 (by omega)⟩
    · exact ⟨_, phiCHOX_run_legacy x input prev t hprev (by omega)⟩

theorem phiCHOX_run_fallback (x : Lib) (input : Range) (prev : List Byte) (t : Nat)
    (c : Byte) (hc : prev.getLast? = some c) (hns : ¬ isSelector c.val)
    (h1 : 1644451200 ≤ t) (h2 : t < 1646118000) :
    phiCHOX_run x input prev t = runBlock x input .fallback := by
  rw [phiCHOX_run_transitional x input prev t c hc h1 h2, selBlock_of_not_selector _ hns]

theorem isSelector_cases (n : Nat) (h : isSelector n) :
    n = 48 ∨ n = 49 ∨ n = 50 ∨ n = 51 ∨ n = 52 ∨ n = 53 ∨ n = 54 ∨ n = 55 ∨ n = 56 ∨ n = 57
      ∨ n = 97 ∨ n = 98 ∨ n = 99 ∨ n = 100 ∨ n = 101 ∨ n = 102 := by
  unfold isSelector at h
  omega

/-- The primitive sequence of a selector block is that of the closing `else`
followed by the suffix the specification lists for the selector. -/
theorem selBlock_recipe (n : Nat) (h : isSelector n) :
    (selBlock n).recipe = Block.fallback.recipe ++ spec_suffix n := by
  rcases isSelector_cases n h with
    rfl | rfl | rfl | rfl | rfl | rfl | rfl | rfl | rfl | rfl | rfl | rfl | rfl | rfl | rfl | rfl
  all_goals rfl

/-- The array size of the block a character code selects is the pipeline length
the specification lists for it. -/
theorem selBlock_size (n : Nat) : (selBlock n).size = spec_length n := by
  by_cases h : isSelector n
  · rcases isSelector_cases n h with
      rfl | rfl | rfl | rfl | rfl | rfl | rfl | rfl | rfl | rfl | rfl | rfl | rfl | rfl | rfl | rfl
    all_goals rfl
  · rw [selBlock_of_not_selector n h]
    unfold isSelector at h
    unfold spec_length
    rw [if_neg (by omega), if_neg (by omega)]
    rfl

theorem Block.recipe_head (b : Block) : ∃ ps, b.recipe = Prim.blake512 :: ps := by
  cases b <;> exact ⟨_, rfl⟩

theorem tailCalls_getElem? (ps : List Prim) :
    ∀ (k j : Nat) (p : Prim), ps.get? j = some p →
      (tailCalls k ps).get? j = some ⟨p, Ptr.hash (k + j), 64, k + j + 1⟩ := by
  induction ps with
  | nil => intro k j p h; simp at h
  | cons q qs ih =>
    intro k j p h
    cases j with
    | zero =>
      simp only [List.get?, Option.some.injEq] at h
      subst h
      rfl
    | succ j =>
      simp only [List.get?] at h
      have := ih (k + 1) j p h
      simp only [tailCalls, List.get?]
      rw [this]
      have e : k + 1 + j = k + (j + 1) := by omega
      rw [e]

theorem evalSrc_range_ne_hash (input : Range) (j : Nat) :
    evalSrc input Src.blankOrBegin ≠ Ptr.hash j := by
  by_cases h : input.elems.isEmpty = true <;> simp [evalSrc, h]

/-- Sixty-four bytes read at `&hash[j]` are the whole of slot `j`. -/
theorem readMem_hash_get (input : Range) (hash : List (List Byte)) (j : Nat) (s : List Byte)
    (h : hash.get? j = some s) (hs : s.length = 64) :
    readMem input hash (Ptr.hash j) 64 = some s := by
  rw [List.get?_eq_getElem?] at h
  obtain ⟨hj, rfl⟩ := List.getElem?_eq_some.mp h
  have hsplit : hash = hash.take j ++ hash[j] :: hash.drop (j + 1) := by
    rw [← List.drop_eq_getElem_cons hj, List.take_append_drop]
  have hpre : (hash.take j).length = j := by
    rw [List.length_take]; omega
  have := readMem_slot input (hash.take j) hash[j] (hash.drop (j + 1)) hs
  rw [hpre, ← hsplit] at this
  exact this

/-! ## Further facts about blocks -/

/-- Running a whole recipe fills the array with the slots of the pipeline,
whatever the local contexts held on entry. -/
theorem execBody_unroll_ctx (x : Lib) (input : Range) (p : Prim) (ps : List Prim) (m : Nat)
    (ctx0 : Prim → Option (List Byte)) (hm : ps.length ≤ m) :
    ∃ σ, execBody x input
          { ctx := ctx0, hash := List.replicate (m + 1) x.uint512_init, log := [] }
          (unroll (p :: ps)) = some σ
      ∧ σ.hash = pipelineSlots x (p :: ps) input.bytes
          ++ List.replicate (m - ps.length) x.uint512_init := by
  obtain ⟨σ, hσ, hh⟩ := execBody_unrollFrom x input ps [] (slotOf x p input.bytes) m
    (setCtx (setCtx (setCtx ctx0 p (some [])) p (some ([] ++ input.bytes))) p none)
    ([] ++ [Event.init p]
      ++ [Event.update p (evalSrc input Src.blankOrBegin) (evalLen input Len.rangeBytes)]
      ++ [Event.close p 0])
    (slotOf_length x p input.bytes) hm
  refine ⟨σ, ?_, ?_⟩
  · rw [← hσ]
    simp only [unroll, execBody, step, setCtx, if_true, readMem_range,
      List.replicate_succ, List.get?, List.set, slotOf, List.nil_append, List.length_nil]
  · rw [hh]
    simp [pipelineSlots]

/-- A block does the same whatever its local contexts held on entry. -/
theorem runBlockFrom_eq (x : Lib) (input : Range) (ctx0 : Prim → Option (List Byte))
    (b : Block) : runBlockFrom x input ctx0 b = runBlock x input b := by
  rw [runBlock_eq]
  have hlen := b.recipe_length
  have hret := b.ret_succ
  cases hr : b.recipe with
  | nil => rw [hr] at hlen; simp at hlen; omega
  | cons p ps =>
    rw [hr] at hlen
    simp only [List.length_cons] at hlen
    obtain ⟨σ, hσ, hh⟩ := execBody_unroll_ctx x input p ps ps.length ctx0 (Nat.le_refl _)
    have hlog := execBody_log x input _ _ _ hσ
    rw [Nat.sub_self, List.replicate_zero, List.append_nil] at hh
    have hidx : b.ret < (pipelineSlots x (p :: ps) input.bytes).length := by
      rw [pipelineSlots_length, List.length_cons]; omega
    unfold runBlockFrom
    rw [b.body_eq_unroll, hr, ← hlen, hσ]
    simp only [hh, List.get?_eq_getElem?, List.getElem?_eq_getElem hidx, List.getD,
      Option.getD_some, hlog, List.nil_append]

theorem Block.size_bounds (b : Block) : 11 ≤ b.size ∧ b.size ≤ 49 := by
  cases b <;> decide

theorem pipelineSlots_mem_length (x : Lib) (ps : List Prim) :
    ∀ (m s : List Byte), s ∈ pipelineSlots x ps m → s.length = 64 := by
  induction ps with
  | nil => intro m s h; simp [pipelineSlots] at h
  | cons p ps ih =>
    intro m s h
    simp only [pipelineSlots, List.mem_cons] at h
    rcases h with rfl | h
    · exact slotOf_length x p m
    · exact ih _ s h

theorem flat_pipelineSlots_length (x : Lib) (ps : List Prim) :
    ∀ m, (flat (pipelineSlots x ps m)).length = ps.length * 64 := by
  induction ps with
  | nil => intro m; rfl
  | cons p ps ih =>
    intro m
    simp only [pipelineSlots, flat, List.length_append, slotOf_length, ih, List.length_cons]
    omega

/-- The slot a block returns from, with its length and the length of the value
returned. -/
theorem Block.ret_slot (x : Lib) (b : Block) (msg : List Byte) :
    ∃ s, (pipelineSlots x b.recipe msg).get? b.ret = some s
      ∧ (pipelineSlots x b.recipe msg).getLast? = some s
      ∧ (pipelineSlots x b.recipe msg).getD b.ret [] = s
      ∧ s.length = 64 ∧ (trim256 s).length = 32 := by
  have hlen := b.recipe_length
  have hret := b.ret_succ
  have hidx : b.ret < (pipelineSlots x b.recipe msg).length := by
    rw [pipelineSlots_length]; omega
  have hlast : (pipelineSlots x b.recipe msg).length - 1 = b.ret := by
    rw [pipelineSlots_length]; omega
  have hs : ((pipelineSlots x b.recipe msg)[b.ret]).length = 64 :=
    pipelineSlots_mem_length x b.recipe msg _ (List.getElem_mem _)
  refine ⟨(pipelineSlots x b.recipe msg)[b.ret], ?_, ?_, ?_, hs, ?_⟩
  · simp only [List.get?_eq_getElem?, List.getElem?_eq_getElem hidx]
  · simp only [List.getLast?_eq_getElem?, hlast, List.getElem?_eq_getElem hidx]
  · simp only [List.getD, List.get?_eq_getElem?, List.getElem?_eq_getElem hidx,
      Option.getD_some]
  · simp only [trim256, List.length_take, hs]; decide

theorem tailCalls_src (ps : List Prim) :
    ∀ k, (tailCalls k ps).map Call.src = (List.range' k ps.length).map Ptr.hash := by
  induction ps with
  | nil => intro k; rfl
  | cons p ps ih => intro k; simp [tailCalls, ih, List.range']

/-- The last invocation of a block writes the slot the block returns from. -/
theorem linearCalls_getLast (input : Range) (b : Block) :
    ∃ c, (linearCalls input b.recipe).getLast? = some c ∧ c.dst = b.ret := by
  have hlen := b.recipe_length
  have hret := b.ret_succ
  have hb := b.size_bounds
  obtain ⟨ps, hps⟩ := b.recipe_head
  rw [hps] at hlen
  simp only [List.length_cons] at hlen
  obtain ⟨j, hj⟩ : ∃ j, ps.length = j + 1 := ⟨ps.length - 1, by omega⟩
  have hjl : j < ps.length := by omega
  have hjp : ps.get? j = some ps[j] := by
    simp only [List.get?_eq_getElem?, List.getElem?_eq_getElem hjl]
  have hc := tailCalls_getElem? ps 0 j ps[j] hjp
  rw [Nat.zero_add] at hc
  refine ⟨⟨ps[j], Ptr.hash j, 64, j + 1⟩, ?_, ?_⟩
  · rw [hps, List.getLast?_eq_getElem?]
    simp only [linearCalls, List.length_cons, tailCalls_length, Nat.add_sub_cancel, hj,
      List.getElem?_cons_succ]
    rw [← List.get?_eq_getElem?]
    exact hc
  · simp only; omega


/-- Every slot of the pipeline is the slot its primitive leaves for the message
it absorbed: the input for slot 0, the slot before for the others. -/
theorem pipelineSlots_get_msg (x : Lib) (ps : List Prim) :
    ∀ (msg : List Byte) (k : Nat) (p : Prim), ps.get? k = some p →
      ∃ m, (pipelineSlots x ps msg).get? k = some (slotOf x p m)
        ∧ ((k = 0 ∧ m = msg) ∨ (1 ≤ k ∧ (pipelineSlots x ps msg).get? (k - 1) = some m)) := by
  induction ps with
  | nil => intro msg k p h; simp at h
  | cons q qs ih =>
    intro msg k p h
    cases k with
    | zero =>
      simp only [List.get?, Option.some.injEq] at h
      subst h
      exact ⟨msg, rfl, Or.inl ⟨rfl, rfl⟩⟩
    | succ k =>
      simp only [List.get?] at h
      obtain ⟨m, h1, h2⟩ := ih (slotOf x q msg) k p h
      refine ⟨m, by simpa [pipelineSlots] using h1, Or.inr ⟨by omega, ?_⟩⟩
      rcases h2 with ⟨rfl, rfl⟩ | ⟨hk, h3⟩
      · rfl
      · obtain ⟨k', rfl⟩ : ∃ k', k = k' + 1 := ⟨k - 1, by omega⟩
        simpa [pipelineSlots] using h3

theorem linearCalls_get_prim (input : Range) (ps : List Prim) (k : Nat) (p : Prim)
    (h : ps.get? k = some p) :
    ∃ c, (linearCalls input ps).get? k = some c ∧ c.prim = p := by
  have hm := linearCalls_prims input ps
  have hk : k < ps.length := by
    rw [List.get?_eq_getElem?] at h
    exact (List.getElem?_eq_some.mp h).1
  have hk' : k < (linearCalls input ps).length := by rw [linearCalls_length]; exact hk
  refine ⟨(linearCalls input ps)[k], ?_, ?_⟩
  · simp only [List.get?_eq_getElem?, List.getElem?_eq_getElem hk']
  · have h2 : ((linearCalls input ps).map Call.prim)[k]? = some p := by
      rw [hm, ← List.get?_eq_getElem?]; exact h
    simpa [List.getElem?_map, List.getElem?_eq_getElem hk'] using h2

/-! ## The recipes of the transitional epoch -/

theorem selBlock_mem (n : Nat) : selBlock n ∈ transitionalBlocks := by
  by_cases h : isSelector n
  · rcases isSelector_cases n h with
      rfl | rfl | rfl | rfl | rfl | rfl | rfl | rfl | rfl | rfl | rfl | rfl | rfl | rfl | rfl | rfl
    all_goals decide
  · rw [selBlock_of_not_selector n h]
    decide

theorem transitionalBlocks_selBlock (b : Block) (h : b ∈ transitionalBlocks) :
    ∃ c : Byte, selBlock c.val = b := by
  simp only [transitionalBlocks, List.mem_cons, List.mem_singleton, List.not_mem_nil,
    or_false] at h
  rcases h with
    rfl | rfl | rfl | rfl | rfl | rfl | rfl | rfl | rfl | rfl | rfl | rfl | rfl | rfl | rfl | rfl
      | rfl
  · exact ⟨48, rfl⟩
  · exact ⟨49, rfl⟩
  · exact ⟨50, rfl⟩
  · exact ⟨51, rfl⟩
  · exact ⟨52, rfl⟩
  · exact ⟨53, rfl⟩
  · exact ⟨54, rfl⟩
  · exact ⟨55, rfl⟩
  · exact ⟨56, rfl⟩
  · exact ⟨57, rfl⟩
  · exact ⟨97, rfl⟩
  · exact ⟨98, rfl⟩
  · exact ⟨99, rfl⟩
  · exact ⟨100, rfl⟩
  · exact ⟨101, rfl⟩
  · exact ⟨102, rfl⟩
  · exact ⟨122, rfl⟩

theorem transitionalRecipes_card :
    (transitionalBlocks.map Block.recipe).toFinset.card = 17 := by
  set_option maxRecDepth 1000000 in decide

/-- In the transitional epoch the primitive sequences that some non-empty
`prev` makes `phiCHOX` execute are those of the seventeen blocks of the epoch. -/
theorem transitional_recipe_iff (x : Lib) (input : Range) (t : Nat)
    (h1 : 1644451200 ≤ t) (h2 : t < 1646118000) (r : List Prim) :
    r ∈ (transitionalBlocks.map Block.recipe).toFinset
      ↔ ∃ prev f, prev ≠ [] ∧ phiCHOX_run x input prev t = some f ∧ f.prims = some r := by
  have hp (b : Block) : (calls (b.body.map (eventOf input))).map (fun cs => cs.map Call.prim)
      = some b.recipe := by
    rw [calls_block, Option.map_some', linearCalls_prims]
  constructor
  · intro hr
    simp only [List.mem_toFinset, List.mem_map] at hr
    obtain ⟨b, hb, rfl⟩ := hr
    obtain ⟨c, rfl⟩ := transitionalBlocks_selBlock b hb
    refine ⟨[c], _, by simp, (phiCHOX_run_transitional x input [c] t c rfl h1 h2).trans
      (runBlock_eq x input _), hp _⟩
  · rintro ⟨prev, f, hprev, hf, hr⟩
    obtain ⟨c, hc⟩ := getLast?_of_ne_nil prev hprev
    rw [(phiCHOX_run_transitional x input prev t c hc h1 h2).trans (runBlock_eq x input _)]
      at hf
    simp only [Option.some.injEq] at hf
    subst hf
    simp only [Final.prims] at hr
    rw [hp] at hr
    simp only [Option.some.injEq] at hr
    subst hr
    simp only [List.mem_toFinset, List.mem_map]
    exact ⟨_, selBlock_mem c.val, rfl⟩

/-! ## The machine with module-scope contexts -/

/-- Block statements run on the machine as they run on the locals alone, and
leave the module-scope contexts as they were. -/
theorem mexec_stmts (x : Lib) (input : Range) (stmts : List Stmt) :
    ∀ m : Machine, mexec x input m (stmts.map MStmt.stmt)
      = (execBody x input m.σ stmts).map (fun σ' => { z := m.z, σ := σ' }) := by
  induction stmts with
  | nil => intro m; rfl
  | cons s rest ih =>
    intro m
    simp only [List.map_cons, mexec, mstep, execBody]
    cases hs : step x input m.σ s with
    | none => rfl
    | some σ1 => simp only [ih]

/-- A block on the machine does what `runBlockFrom` does and hands the
module-scope contexts through. -/
theorem runBlockM_eq (x : Lib) (input : Range) (z : Globals)
    (ctx0 : Prim → Option (List Byte)) (b : Block) :
    runBlockM x input z ctx0 b = (runBlock x input b).map (fun f => (f, z)) := by
  rw [← runBlockFrom_eq x input ctx0 b]
  unfold runBlockM runBlockFrom Block.mbody
  rw [mexec_stmts]
  cases execBody x input
      { ctx := ctx0, hash := List.replicate b.size x.uint512_init, log := [] } b.body with
  | none => rfl
  | some σ =>
    simp only [Option.map_some']
    cases σ.hash.get? b.ret with
    | none => rfl
    | some s => rfl

/-! ## What a step reads -/

/-- The 64 bytes step `k >= 1` of a block reads are the slot of step `k - 1`:
the digest of that step for the message it absorbed, followed by what the
declaration left beyond the digest. -/
theorem block_step_bytes (x : Lib) (input : Range) (b : Block) (k : Nat)
    (hk : 1 ≤ k) (hkb : k < b.size) :
    ∃ p c m s, (linearCalls input b.recipe).get? (k - 1) = some p
      ∧ (linearCalls input b.recipe).get? k = some c
      ∧ c.src = Ptr.hash (k - 1) ∧ c.len = 64
      ∧ (pipelineSlots x b.recipe input.bytes).get? (k - 1) = some s
      ∧ readMem input (pipelineSlots x b.recipe input.bytes) c.src c.len = some s
      ∧ s = x.digest p.prim m ++ x.uint512_init.drop (outLen p.prim)
      ∧ (x.digest p.prim m).length = outLen p.prim
      ∧ ((k = 1 ∧ m = input.bytes)
          ∨ (2 ≤ k ∧ (pipelineSlots x b.recipe input.bytes).get? (k - 2) = some m)) := by
  obtain ⟨j, rfl⟩ : ∃ j, k = j + 1 := ⟨k - 1, by omega⟩
  have hlen := b.recipe_length
  have hjr : j < b.recipe.length := by omega
  have hq : b.recipe.get? j = some b.recipe[j] := by
    simp only [List.get?_eq_getElem?, List.getElem?_eq_getElem hjr]
  obtain ⟨p, hp1, hp2⟩ := linearCalls_get_prim input b.recipe j _ hq
  obtain ⟨m, hm1, hm2⟩ := pipelineSlots_get_msg x b.recipe input.bytes j _ hq
  obtain ⟨ps, hps⟩ := b.recipe_head
  have hj : j < ps.length := by
    rw [hps] at hlen; simp only [List.length_cons] at hlen; omega
  have hjp : ps.get? j = some ps[j] := by
    simp only [List.get?_eq_getElem?, List.getElem?_eq_getElem hj]
  have hc := tailCalls_getElem? ps 0 j ps[j] hjp
  rw [Nat.zero_add] at hc
  have hc' : (linearCalls input b.recipe).get? (j + 1) = some ⟨ps[j], Ptr.hash j, 64, j + 1⟩ := by
    rw [hps]; simp only [linearCalls, List.get?]; exact hc
  have hsl : (slotOf x b.recipe[j] m).length = 64 := slotOf_length x _ m
  refine ⟨p, _, m, slotOf x b.recipe[j] m, hp1, hc', rfl, rfl, hm1, ?_, ?_, ?_, ?_⟩
  · exact readMem_hash_get input _ j _ hm1 hsl
  · rw [hp2]
    simp only [slotOf, store, x.digest_length]
  · rw [hp2]; exact x.digest_length _ _
  · rcases hm2 with ⟨rfl, rfl⟩ | ⟨h1, h2⟩
    · exact Or.inl ⟨rfl, rfl⟩
    · exact Or.inr ⟨by omega, h2⟩

/-! ## Shape of the blocks -/

theorem unrollFrom_length (ps : List Prim) :
    ∀ k, (unrollFrom k ps).length = 3 * ps.length := by
  induction ps with
  | nil => intro k; rfl
  | cons p ps ih => intro k; simp only [unrollFrom, List.length_cons, ih]; omega

theorem unroll_length (ps : List Prim) : (unroll ps).length = 3 * ps.length := by
  cases ps with
  | nil => rfl
  | cons p ps => simp only [unroll, List.length_cons, unrollFrom_length]; omega

theorem Block.body_length (b : Block) : b.body.length = 3 * b.size := by
  rw [b.body_eq_unroll, unroll_length, b.recipe_length]

theorem Block.mbody_no_macro (b : Block) : (b.mbody.all fun s => !s.isMacro) = true := by
  simp only [Block.mbody, List.all_eq_true, List.mem_map]
  rintro s ⟨t, _, rfl⟩
  rfl

theorem Block.body_inBounds (b : Block) : b.body.all (Stmt.inBounds b.size) = true := by
  cases b <;> rfl

theorem Block.mem_allBlocks (b : Block) : b ∈ allBlocks := by
  cases b <;> decide

/-- The slots the invocations of a block read, by slot index. -/
theorem linearCalls_src_count (input : Range) (b : Block) (j : Nat) :
    ((linearCalls input b.recipe).map Call.src).count (Ptr.hash j)
      = if j + 1 < b.size then 1 else 0 := by
  have hlen := b.recipe_length
  obtain ⟨ps, hps⟩ := b.recipe_head
  rw [hps] at hlen
  simp only [List.length_cons] at hlen
  have hinj : Function.Injective Ptr.hash := fun a c h => by cases h; rfl
  have hnd : ((List.range' 0 ps.length).map Ptr.hash).Nodup :=
    (List.nodup_range' 0 ps.length).map hinj
  rw [hps]
  simp only [linearCalls, List.map_cons, tailCalls_src]
  rw [List.count_cons_of_ne (evalSrc_range_ne_hash input j).symm, List.count_eq_of_nodup hnd]
  simp only [List.mem_map, List.mem_range', Ptr.hash.injEq, exists_eq_right]
  by_cases h : j + 1 < b.size
  · rw [if_pos h, if_pos]
    exact ⟨j, by omega, by omega⟩
  · rw [if_neg h, if_neg]
    rintro ⟨i, hi, hj⟩
    omega

/-- The slots the invocations of a block write, by slot index. -/
theorem linearCalls_dst_count (input : Range) (b : Block) (j : Nat) :
    ((linearCalls input b.recipe).map Call.dst).count j = if j < b.size then 1 else 0 := by
  rw [linearCalls_dst, b.recipe_length, List.count_eq_of_nodup (List.nodup_range b.size)]
  simp only [List.mem_range]

/-! ## The recipes of all epochs -/

theorem allRecipes_card : (allBlocks.map Block.recipe).toFinset.card = 18 := by
  set_option maxRecDepth 1000000 in decide

theorem allRecipes_lengths :
    (allBlocks.map Block.recipe).toFinset.image List.length = insert 11 (Finset.Icc 33 49) := by
  set_option maxRecDepth 1000000 in decide

theorem transitionalRecipes_subset :
    (transitionalBlocks.map Block.recipe).toFinset ⊆ (allBlocks.map Block.recipe).toFinset := by
  set_option maxRecDepth 1000000 in decide

/-- The primitive sequences that some timestamp and some non-empty `prev` make
`phiCHOX` execute are those of the nineteen blocks. -/
theorem all_recipe_iff (x : Lib) (input : Range) (r : List Prim) :
    r ∈ (allBlocks.map Block.recipe).toFinset
      ↔ ∃ prev t f, prev ≠ [] ∧ phiCHOX_run x input prev t = some f ∧ f.prims = some r := by
  have hp (b : Block) : (calls (b.body.map (eventOf input))).map (fun cs => cs.map Call.prim)
      = some b.recipe := by
    rw [calls_block, Option.map_some', linearCalls_prims]
  constructor
  · intro hr
    simp only [List.mem_toFinset, List.mem_map] at hr
    obtain ⟨b, hb, rfl⟩ := hr
    simp only [allBlocks, List.mem_cons, List.mem_append, List.mem_singleton,
      List.not_mem_nil, or_false] at hb
    rcases hb with rfl | hb | rfl
    · exact ⟨[48], 1646118000, _, by simp,
        (phiCHOX_run_modern x input [48] 1646118000 (by simp) (by decide)).trans
          (runBlock_eq x input _), hp _⟩
    · obtain ⟨c, rfl⟩ := transitionalBlocks_selBlock b hb
      exact ⟨[c], 1644451200, _, by simp,
        (phiCHOX_run_transitional x input [c] 1644451200 c rfl (by decide) (by decide)).trans
          (runBlock_eq x input _), hp _⟩
    · exact ⟨[48], 0, _, by simp,
        (phiCHOX_run_legacy x input [48] 0 (by simp) (by decide)).trans
          (runBlock_eq x input _), hp _⟩
  · rintro ⟨prev, t, f, hprev, hf, hr⟩
    obtain ⟨b, hb⟩ := phiCHOX_run_block x input prev t hprev
    rw [hb.trans (runBlock_eq x input b)] at hf
    simp only [Option.some.injEq] at hf
    subst hf
    simp only [Final.prims] at hr
    rw [hp] at hr
    simp only [Option.some.injEq] at hr
    subst hr
    simp only [List.mem_toFinset, List.mem_map]
    exact ⟨b, b.mem_allBlocks, rfl⟩

/-! ## Nested recipes -/

/-- The recipes of a pair of `nestedPairs`: the second is the first followed by
further primitives. -/
theorem nestedPairs_recipe (c1 c2 : Byte) (h : (c1, c2) ∈ nestedPairs) :
    ∃ ext, ext ≠ [] ∧ (selBlock c2.val).recipe = (selBlock c1.val).recipe ++ ext := by
  simp only [nestedPairs, List.mem_cons, List.mem_singleton, List.not_mem_nil, or_false,
    Prod.mk.injEq] at h
  rcases h with h | h | h | h | h | h | h | h | h
  all_goals
    obtain ⟨e1, e2⟩ := h
    refine ⟨List.drop (selBlock c1.val).recipe.length (selBlock c2.val).recipe, ?_, ?_⟩
    · rw [e1, e2]; decide
    · rw [e1, e2]; rfl

/-- The slots of a recipe followed by one more primitive. -/
theorem pipelineSlots_concat (x : Lib) (ps : List Prim) (q : Prim) :
    ∀ (m : List Byte), ps ≠ [] →
      ∃ s, (pipelineSlots x ps m).getLast? = some s
        ∧ pipelineSlots x (ps ++ [q]) m = pipelineSlots x ps m ++ [slotOf x q s] := by
  induction ps with
  | nil => intro m h; exact absurd rfl h
  | cons p ps ih =>
    intro m _
    cases ps with
    | nil => exact ⟨slotOf x p m, rfl, rfl⟩
    | cons p' ps' =>
      obtain ⟨s, h1, h2⟩ := ih (slotOf x p m) (by simp)
      refine ⟨s, ?_, ?_⟩
      · simp only [pipelineSlots] at h1 ⊢
        rw [List.getLast?_cons_cons]
        exact h1
      · simp only [List.cons_append, pipelineSlots] at h2 ⊢
        rw [h2]

/-! ## The hasher classes -/

theorem rangeArg_eq (input : Range) : rangeArg input = input.bytes := by
  unfold rangeArg
  by_cases h : input.elems.isEmpty = true
  · simp [h, Range.count_of_isEmpty input h, Range.bytes_of_isEmpty input h]
  · simp [h, ← Range.bytes_length]

theorem Range.ofBytes_bytes (bs : List Byte) : (Range.ofBytes bs).bytes = bs := by
  induction bs with
  | nil => rfl
  | cons b bs ih =>
    simp only [Range.ofBytes, Range.bytes, List.map_cons, flat, List.singleton_append,
      List.map_map] at ih ⊢
    rw [ih]

theorem Hasher.take_finalize (S : Hasher) (c : S.Ctx) :
    (S.finalize c).take S.outputSize = S.finalize c :=
  List.take_of_length_le (by rw [S.finalize_length])

/-- A run of `Write` calls leaves in `sha` what one `Write` of the
concatenation leaves. -/
theorem CHash256_foldl_Write (S : Hasher) (ws : List (List Byte)) :
    ∀ h : CHash256 S, (ws.foldl CHash256.Write h).sha = S.write h.sha (flat ws) := by
  induction ws with
  | nil => intro h; simp only [List.foldl, flat, S.write_nil]
  | cons w ws ih =>
    intro h
    simp only [List.foldl, flat, ih, CHash256.Write, S.write_write]

theorem CHash160_foldl_Write (S : Hasher) (ws : List (List Byte)) :
    ∀ h : CHash160 S, (ws.foldl CHash160.Write h).sha = S.write h.sha (flat ws) := by
  induction ws with
  | nil => intro h; simp only [List.foldl, flat, S.write_nil]
  | cons w ws ih =>
    intro h
    simp only [List.foldl, flat, ih, CHash160.Write, S.write_write]

/-- What `CHash256::Finalize` writes, by the state of `sha`. -/
theorem CHash256_Finalize_fst (S : Hasher) (h : CHash256 S) :
    h.Finalize.1 = S.hash (S.finalize h.sha) := by
  simp only [CHash256.Finalize, Hasher.hash, S.take_finalize, S.reset_eq]

/-- What `CHash160::Finalize` writes, by the state of `sha`. -/
theorem CHash160_Finalize_fst (S R : Hasher) (h : CHash160 S) :
    (h.Finalize R).1 = R.hash (S.finalize h.sha) := by
  simp only [CHash160.Finalize, Hasher.hash, S.take_finalize]

/-! ## The `Hash` overloads -/

theorem Hash_eq (S : Hasher) (r : Range) : Hash S r = S.hash (S.hash r.bytes) := by
  rw [Hash, CHash256_Finalize_fst, rangeArg_eq]
  rfl

theorem Hash_2_eq (S : Hasher) (r1 r2 : Range) :
    Hash_2 S r1 r2 = S.hash (S.hash (r1.bytes ++ r2.bytes)) := by
  rw [Hash_2, CHash256_Finalize_fst, rangeArg_eq, rangeArg_eq]
  simp only [CHash256.Write, CHash256.new, S.write_write]
  rfl

theorem Hash_3_eq (S : Hasher) (r1 r2 r3 : Range) :
    Hash_3 S r1 r2 r3 = S.hash (S.hash (r1.bytes ++ r2.bytes ++ r3.bytes)) := by
  rw [Hash_3, CHash256_Finalize_fst, rangeArg_eq, rangeArg_eq, rangeArg_eq]
  simp only [CHash256.Write, CHash256.new, S.write_write, List.append_assoc]
  rfl

/-! ## The loop of `CHashVerifier::ignore` -/

theorem chunkSizes_pos (n : Nat) (h : 0 < n) :
    chunkSizes n = min n 1024 :: chunkSizes (n - min n 1024) := by
  by_cases hn : 1024 ≤ n
  · have hmin : min n 1024 = 1024 := Nat.min_eq_right hn
    have hd : n / 1024 = (n - 1024) / 1024 + 1 := by omega
    have hm : (n - 1024) % 1024 = n % 1024 := by omega
    rw [hmin]
    unfold chunkSizes
    rw [hd, hm, List.replicate_succ, List.cons_append]
  · have hmin : min n 1024 = n := Nat.min_eq_left (by omega)
    have hd : n / 1024 = 0 := by omega
    have hm : n % 1024 = n := by omega
    rw [hmin, Nat.sub_self]
    unfold chunkSizes
    rw [hd, hm, if_neg (by omega)]
    rfl

theorem chunkSizes_le (n : Nat) : ∀ k ∈ chunkSizes n, k ≤ 1024 := by
  intro k hk
  simp only [chunkSizes, List.mem_append, List.mem_replicate] at hk
  rcases hk with ⟨_, rfl⟩ | hk
  · exact Nat.le_refl _
  · split at hk
    · simp at hk
    · simp only [List.mem_singleton] at hk
      omega

theorem chunkSizes_sum (n : Nat) : (chunkSizes n).sum = n := by
  simp only [chunkSizes, List.sum_append, List.sum_replicate, smul_eq_mul]
  split
  · simp only [List.sum_nil]; omega
  · simp only [List.sum_cons, List.sum_nil]; omega

theorem chunkSizes_dropLast (n : Nat) : ∀ k ∈ (chunkSizes n).dropLast, k = 1024 := by
  intro k hk
  unfold chunkSizes at hk
  split at hk
  · rw [List.append_nil] at hk
    exact (List.mem_replicate.mp (List.mem_of_mem_dropLast hk)).2
  · rw [List.dropLast_concat] at hk
    exact (List.mem_replicate.mp hk).2

theorem store_take (old d : List Byte) (n : Nat) (h : d.length = n) :
    (store old d).take n = d := by
  unfold store
  exact List.take_left' h

/-- The loop with a stream that delivers `nSize` bytes: it leaves having given
the hasher those bytes, in chunks of the sizes `chunkSizes nSize`. -/
theorem ignoreLoop_ok (S : Hasher) (Src : Source) :
    ∀ (fuel : Nat) (v : CHashVerifier S Src) (data : List Byte) (nSize : Nat)
      (chunks : List (List Byte)) (d : List Byte) (pos : Src.Pos),
      (nSize + 1023) / 1024 < fuel → Src.read v.source nSize = some (d, pos) →
      ∃ data' cs, CHashVerifier.ignoreLoop fuel v data nSize chunks
          = some (some { obj := { writer := { ctx := ⟨S.write v.writer.ctx.sha d⟩,
                                               nType := v.writer.nType,
                                               nVersion := v.writer.nVersion },
                                  source := pos },
                         data := data', chunks := chunks ++ cs })
        ∧ flat cs = d ∧ cs.map List.length = chunkSizes nSize := by
  intro fuel
  induction fuel with
  | zero => intro v data nSize chunks d pos hf; omega
  | succ fuel ih =>
    intro v data nSize chunks d pos hf hread
    by_cases hn : nSize > 0
    · have hle : min nSize 1024 ≤ nSize := Nat.min_le_left _ _
      have hle2 : min nSize 1024 ≤ 1024 := Nat.min_le_right _ _
      have hpos : 0 < min nSize 1024 := by
        rw [Nat.lt_min]; exact ⟨hn, by decide⟩
      have hsplit : min nSize 1024 + (nSize - min nSize 1024) = nSize := by omega
      have hadd := Src.read_add v.source (min nSize 1024) (nSize - min nSize 1024)
      rw [hsplit, hread] at hadd
      cases h1 : Src.read v.source (min nSize 1024) with
      | none => rw [h1] at hadd; simp at hadd
      | some r1 =>
        obtain ⟨d1, s1⟩ := r1
        cases h2 : Src.read s1 (nSize - min nSize 1024) with
        | none => simp [h1, h2] at hadd
        | some r2 =>
          obtain ⟨d2, s2⟩ := r2
          simp only [h1, h2, Option.some.injEq, Prod.mk.injEq] at hadd
          obtain ⟨rfl, rfl⟩ := hadd
          have hl1 := Src.read_length _ _ _ _ h1
          have htake := store_take data d1 _ hl1
          have hfuel : (nSize - min nSize 1024 + 1023) / 1024 < fuel := by omega
          obtain ⟨data', cs, hloop, hflat, hlen⟩ := ih
            { writer := v.writer.write (store data d1) (min nSize 1024), source := s1 }
            (store data d1) (nSize - min nSize 1024) (chunks ++ [d1]) d2 pos hfuel h2
          refine ⟨data', d1 :: cs, ?_, ?_, ?_⟩
          · simp only [CHashVerifier.ignoreLoop, hn, if_true, CHashVerifier.read, h1, htake]
            rw [hloop]
            simp only [CHashWriter.write, CHash256.Write, htake, S.write_write,
              List.append_assoc, List.singleton_append]
          · simp only [flat, hflat]
          · rw [chunkSizes_pos nSize hn, List.map_cons, hl1, hlen]
    · have h0 : nSize = 0 := by omega
      subst h0
      rw [Src.read_zero] at hread
      simp only [Option.some.injEq, Prod.mk.injEq] at hread
      obtain ⟨rfl, rfl⟩ := hread
      refine ⟨data, [], ?_, rfl, rfl⟩
      simp only [CHashVerifier.ignoreLoop, Nat.lt_irrefl, if_false, S.write_nil,
        List.append_nil]

/-- The loop with a stream that cannot deliver `nSize` bytes: it is left by the
exception of a `read`. -/
theorem ignoreLoop_throws (S : Hasher) (Src : Source) :
    ∀ (fuel : Nat) (v : CHashVerifier S Src) (data : List Byte) (nSize : Nat)
      (chunks : List (List Byte)),
      (nSize + 1023) / 1024 < fuel → Src.read v.source nSize = none →
      CHashVerifier.ignoreLoop fuel v data nSize chunks = some none := by
  intro fuel
  induction fuel with
  | zero => intro v data nSize chunks hf; omega
  | succ fuel ih =>
    intro v data nSize chunks hf hread
    by_cases hn : nSize > 0
    · have hle : min nSize 1024 ≤ nSize := Nat.min_le_left _ _
      have hle2 : min nSize 1024 ≤ 1024 := Nat.min_le_right _ _
      have hpos : 0 < min nSize 1024 := by
        rw [Nat.lt_min]; exact ⟨hn, by decide⟩
      have hsplit : min nSize 1024 + (nSize - min nSize 1024) = nSize := by omega
      have hadd := Src.read_add v.source (min nSize 1024) (nSize - min nSize 1024)
      rw [hsplit, hread] at hadd
      cases h1 : Src.read v.source (min nSize 1024) with
      | none => simp only [CHashVerifier.ignoreLoop, hn, if_true, CHashVerifier.read, h1]
      | some r1 =>
        obtain ⟨d1, s1⟩ := r1
        cases h2 : Src.read s1 (nSize - min nSize 1024) with
        | some r2 => simp [h1, h2] at hadd
        | none =>
          have hfuel : (nSize - min nSize 1024 + 1023) / 1024 < fuel := by omega
          simp only [CHashVerifier.ignoreLoop, hn, if_true, CHashVerifier.read, h1]
          exact ih _ _ _ _ hfuel h2
    · have h0 : nSize = 0 := by omega
      subst h0
      rw [Src.read_zero] at hread
      simp at hread

theorem sampleSource_read (s : List Byte) (n : Nat) (h : n ≤ s.length) :
    sampleSource.read s n = some (s.take n, s.drop n) :=
  if_pos h

/-! ## Epochs and recipes -/

/-- C1: for every timestamp `t` (every 32-bit value included) and non-empty
`prev`, `phiCHOX` runs to a `return`, and the block it runs is the MODERN block
iff `t >= 1646118000`, one of the seventeen TRANSITIONAL blocks iff
`1644451200 <= t < 1646118000`, and the LEGACY block iff `t < 1644451200`; the
primitives it executes are those of that block. -/
theorem phiCHOX_epoch_partition (x : Lib) (input : Range) (prev : List Byte) (t : Nat)
    (hprev : prev ≠ []) :
    ∃ f, phiCHOX_run x input prev t = some f
      ∧ f.prims = some f.block.recipe
      ∧ (f.block = Block.modern ↔ 1646118000 ≤ t)
      ∧ (f.block.transitional = true ↔ 1644451200 ≤ t ∧ t < 1646118000)
      ∧ (f.block = Block.legacy ↔ t < 1644451200) := by
  have hp (b : Block) : (calls (b.body.map (eventOf input))).map (fun cs => cs.map Call.prim)
      = some b.recipe := by
    rw [calls_block, Option.map_some', linearCalls_prims]
  by_cases h1 : 1646118000 ≤ t
  · refine ⟨_, (phiCHOX_run_modern x input prev t hprev h1).trans (runBlock_eq x input _),
      hp _, ?_, ?_, ?_⟩
    · simp [h1]
    · simp only [Block.transitional]; constructor
      · intro h; cases h
      · intro h; omega
    · constructor
      · intro h; cases h
      · intro h; omega
  · by_cases h2 : 1644451200 ≤ t
    · obtain ⟨c, hc⟩ := getLast?_of_ne_nil prev hprev
      have h3 : t < 1646118000 := by omega
      refine ⟨_, (phiCHOX_run_transitional x input prev t c hc h2 h3).trans
        (runBlock_eq x input _), hp _, ?_, ?_, ?_⟩
      · have ht := selBlock_transitional c.val
        constructor
        · intro h
          simp only at h
          rw [h] at ht
          cases ht
        · intro h; omega
      · simp only [selBlock_transitional, true_iff]
        exact ⟨h2, h3⟩
      · have ht := selBlock_transitional c.val
        constructor
        · intro h
          simp only at h
          rw [h] at ht
          cases ht
        · intro h; omega
    · have h3 : t < 1644451200 := by omega
      refine ⟨_, (phiCHOX_run_legacy x input prev t hprev h3).trans (runBlock_eq x input _),
        hp _, ?_, ?_, ?_⟩
      · constructor
        · intro h; cases h
        · intro h; omega
      · simp only [Block.transitional]; constructor
        · intro h; cases h
        · intro h; omega
      · simp [h3]

/-- The boundary timestamps of C1: 1644451199 is LEGACY, 1644451200 and
1646117999 are TRANSITIONAL, 1646118000 is MODERN. -/
theorem phiCHOX_epoch_partition_witness :
    ([102] : List Byte) ≠ []
      ∧ (∃ f, phiCHOX_run sampleLib (Range.ofBytes [7]) [102] 1644451199 = some f
          ∧ f.block = Block.legacy)
      ∧ (∃ f, phiCHOX_run sampleLib (Range.ofBytes [7]) [102] 1644451200 = some f
          ∧ f.block.transitional = true)
      ∧ (∃ f, phiCHOX_run sampleLib (Range.ofBytes [7]) [102] 1646117999 = some f
          ∧ f.block.transitional = true)
      ∧ (∃ f, phiCHOX_run sampleLib (Range.ofBytes [7]) [102] 1646118000 = some f
          ∧ f.block = Block.modern) := by
  refine ⟨by decide, ?_, ?_, ?_, ?_⟩
  · obtain ⟨f, hf, _, _, _, h⟩ :=
      phiCHOX_epoch_partition sampleLib (Range.ofBytes [7]) [102] 1644451199 (by decide)
    exact ⟨f, hf, h.2 (by decide)⟩
  · obtain ⟨f, hf, _, _, h, _⟩ :=
      phiCHOX_epoch_partition sampleLib (Range.ofBytes [7]) [102] 1644451200 (by decide)
    exact ⟨f, hf, h.2 (by decide)⟩
  · obtain ⟨f, hf, _, _, h, _⟩ :=
      phiCHOX_epoch_partition sampleLib (Range.ofBytes [7]) [102] 1646117999 (by decide)
    exact ⟨f, hf, h.2 (by decide)⟩
  · obtain ⟨f, hf, _, h, _, _⟩ :=
      phiCHOX_epoch_partition sampleLib (Range.ofBytes [7]) [102] 1646118000 (by decide)
    exact ⟨f, hf, h.2 (by decide)⟩

/-- C2: for every input, non-empty `prev` and `t >= 1646118000`, `phiCHOX`
returns the first 32 bytes of ECHO(SHAvite(SIMD(CubeHash(Keccak(Luffa(JH(
Groestl(BMW(Skein(Blake(input))))))))))), each step after Blake absorbing the
64 bytes of the slot before its own; the eleven invocations are those of the
MODERN recipe of the specification, in its order. -/
theorem phiCHOX_modern_chain (x : Lib) (input : Range) (prev : List Byte) (t : Nat)
    (hprev : prev ≠ []) (ht : 1646118000 ≤ t) :
    phiCHOX x input prev t = some (trim256
        (slotOf x .echo512 (slotOf x .shavite512 (slotOf x .simd512
        (slotOf x .cubehash512 (slotOf x .keccak512 (slotOf x .luffa512
        (slotOf x .jh512 (slotOf x .groestl512 (slotOf x .bmw512
        (slotOf x .skein512 (slotOf x .blake512 input.bytes))))))))))))
      ∧ phiCHOX x input prev t = pipeline x spec_MODERN input.bytes
      ∧ ∃ f, phiCHOX_run x input prev t = some f
          ∧ f.prims = some spec_MODERN
          ∧ calls f.log = some (linearCalls input spec_MODERN)
          ∧ f.hash = pipelineSlots x spec_MODERN input.bytes
          ∧ f.retIndex = 10 := by
  have hrun := (phiCHOX_run_modern x input prev t hprev ht).trans
    (runBlock_eq x input Block.modern)
  have hrec : Block.modern.recipe = spec_MODERN := rfl
  refine ⟨?_, ?_, _, hrun, ?_, ?_, ?_, rfl⟩
  · simp only [phiCHOX, hrun, Option.map_some', hrec]
    rfl
  · simp only [phiCHOX, hrun, Option.map_some', ← hrec, pipeline_block]
  · simp only [Final.prims, calls_block, Option.map_some', linearCalls_prims, hrec]
  · simp only [calls_block, hrec]
  · simp only [hrec]

/-- Instance of C2 at the scenario S1 timestamp. -/
theorem phiCHOX_modern_chain_witness :
    ([48] : List Byte) ≠ [] ∧ 1646118000 ≤ 1700000000
      ∧ phiCHOX sampleLib (Range.ofBytes [0, 0]) [48] 1700000000
          = pipeline sampleLib spec_MODERN (Range.ofBytes [0, 0]).bytes :=
  ⟨by decide, by decide,
    (phiCHOX_modern_chain sampleLib (Range.ofBytes [0, 0]) [48] 1700000000
      (by decide) (by decide)).2.1⟩

/-- C3: in the TRANSITIONAL epoch, for a `prev` whose last character is one of
the sixteen selectors, the primitives executed are the 33 primitives `D` that
the default path executes on the same input (here: `prev = "z"`), followed by
the suffix the specification lists for the selector; slots 0..32 are those of
the default path. -/
theorem phiCHOX_selector_suffix (x : Lib) (input : Range) (prev : List Byte) (t : Nat)
    (c : Byte) (h1 : 1644451200 ≤ t) (h2 : t < 1646118000)
    (hc : prev.getLast? = some c) (hsel : isSelector c.val) :
    ∃ f d D, phiCHOX_run x input prev t = some f
      ∧ phiCHOX_run x input [122] t = some d
      ∧ d.prims = some D ∧ D.length = 33
      ∧ f.prims = some (D ++ spec_suffix c.val)
      ∧ f.hash.take 33 = d.hash := by
  have hf := (phiCHOX_run_transitional x input prev t c hc h1 h2).trans
    (runBlock_eq x input _)
  have hd := (phiCHOX_run_fallback x input [122] t 122 rfl (by decide) h1 h2).trans
    (runBlock_eq x input _)
  refine ⟨_, _, Block.fallback.recipe, hf, hd, ?_, rfl, ?_, ?_⟩
  · simp only [Final.prims, calls_block, Option.map_some', linearCalls_prims]
  · simp only [Final.prims, calls_block, Option.map_some', linearCalls_prims,
      selBlock_recipe _ hsel]
  · simp only [selBlock_recipe _ hsel]
    exact pipelineSlots_take x Block.fallback.recipe (spec_suffix c.val) input.bytes

/-- Instance of C3 for the selector `f` (code 102). -/
theorem phiCHOX_selector_suffix_witness :
    1644451200 ≤ 1645000000 ∧ 1645000000 < 1646118000
      ∧ ([48, 102] : List Byte).getLast? = some 102 ∧ isSelector (102 : Byte).val
      ∧ ∃ f d D, phiCHOX_run sampleLib (Range.ofBytes [1, 2, 3]) [48, 102] 1645000000 = some f
          ∧ phiCHOX_run sampleLib (Range.ofBytes [1, 2, 3]) [122] 1645000000 = some d
          ∧ d.prims = some D ∧ D.length = 33
          ∧ f.prims = some (D ++ spec_suffix (102 : Byte).val)
          ∧ f.hash.take 33 = d.hash :=
  ⟨by decide, by decide, rfl, by decide,
    phiCHOX_selector_suffix sampleLib (Range.ofBytes [1, 2, 3]) [48, 102] 1645000000 102
      (by decide) (by decide) rfl (by decide)⟩

/-- C4: in the TRANSITIONAL epoch, for a `prev` whose last character code is
neither in 48..57 nor in 97..102 (whatever the signedness of `char`), `phiCHOX`
runs the closing `else` of the selector chain: the 33 primitives of the default
recipe, the same the LEGACY block holds, and it returns the first 32 bytes of
slot 32. -/
theorem phiCHOX_unrecognised_selector (x : Lib) (input : Range) (prev : List Byte)
    (t : Nat) (c : Byte) (h1 : 1644451200 ≤ t) (h2 : t < 1646118000)
    (hc : prev.getLast? = some c) (hns : ¬ isSelector c.val) :
    ∃ f s, phiCHOX_run x input prev t = some f
      ∧ f.block = Block.fallback
      ∧ f.prims = some Block.legacy.recipe
      ∧ f.prims = some (spec_S17 ++ spec_S17.tail)
      ∧ f.hash.get? 32 = some s
      ∧ phiCHOX x input prev t = some (trim256 s) := by
  have hf := (phiCHOX_run_fallback x input prev t c hc hns h1 h2).trans
    (runBlock_eq x input _)
  have hidx : 32 < (pipelineSlots x Block.fallback.recipe input.bytes).length := by
    rw [pipelineSlots_length]; decide
  have hp : (calls (Block.fallback.body.map (eventOf input))).map (fun cs => cs.map Call.prim)
      = some Block.fallback.recipe := by
    rw [calls_block, Option.map_some', linearCalls_prims]
  refine ⟨_, (pipelineSlots x Block.fallback.recipe input.bytes)[32], hf, rfl, hp, hp, ?_, ?_⟩
  · simp only [List.get?_eq_getElem?, List.getElem?_eq_getElem hidx]
  · simp only [phiCHOX, hf, Option.map_some', Block.ret, List.getD, List.get?_eq_getElem?,
      List.getElem?_eq_getElem hidx, Option.getD_some]

/-- Instance of C4 for the byte 200, a negative `char` where `char` is signed. -/
theorem phiCHOX_unrecognised_selector_witness :
    1644451200 ≤ 1645000000 ∧ 1645000000 < 1646118000
      ∧ ([65, 200] : List Byte).getLast? = some 200 ∧ ¬ isSelector (200 : Byte).val
      ∧ ∃ f s, phiCHOX_run sampleLib (Range.ofBytes [9]) [65, 200] 1645000000 = some f
          ∧ f.block = Block.fallback
          ∧ f.prims = some Block.legacy.recipe
          ∧ f.prims = some (spec_S17 ++ spec_S17.tail)
          ∧ f.hash.get? 32 = some s
          ∧ phiCHOX sampleLib (Range.ofBytes [9]) [65, 200] 1645000000 = some (trim256 s) :=
  ⟨by decide, by decide, rfl, by decide,
    phiCHOX_unrecognised_selector sampleLib (Range.ofBytes [9]) [65, 200] 1645000000 200
      (by decide) (by decide) rfl (by decide)⟩

/-- C5: the LEGACY block and the closing `else` of the selector chain hold the
same statements, so a call with `t1 < 1644451200` and any non-empty `prev1`
returns the same digest as a call with `1644451200 <= t2 < 1646118000` and a
`prev2` ending in an unrecognised selector. -/
theorem phiCHOX_legacy_eq_default (x : Lib) (input : Range) (prev1 prev2 : List Byte)
    (t1 t2 : Nat) (c : Byte) (hprev1 : prev1 ≠ []) (ht1 : t1 < 1644451200)
    (h2a : 1644451200 ≤ t2) (h2b : t2 < 1646118000)
    (hc : prev2.getLast? = some c) (hns : ¬ isSelector c.val) :
    phiCHOX x input prev1 t1 = phiCHOX x input prev2 t2
      ∧ (∃ v, phiCHOX x input prev1 t1 = some v)
      ∧ Block.legacy.body = Block.fallback.body := by
  have hl := (phiCHOX_run_legacy x input prev1 t1 hprev1 ht1).trans (runBlock_eq x input _)
  have hf := (phiCHOX_run_fallback x input prev2 t2 c hc hns h2a h2b).trans
    (runBlock_eq x input _)
  refine ⟨?_, ?_, rfl⟩
  · simp only [phiCHOX, hl, hf, Option.map_some']
    rfl
  · rw [phiCHOX, hl]
    exact ⟨_, rfl⟩

/-- Instance of C5: scenario S2 against scenario S5 (`prev` ending in `z`). -/
theorem phiCHOX_legacy_eq_default_witness :
    ([48] : List Byte) ≠ [] ∧ 1500000000 < 1644451200
      ∧ 1644451200 ≤ 1645000000 ∧ 1645000000 < 1646118000
      ∧ ([48, 122] : List Byte).getLast? = some 122 ∧ ¬ isSelector (122 : Byte).val
      ∧ phiCHOX sampleLib (Range.ofBytes [0, 0]) [48] 1500000000
          = phiCHOX sampleLib (Range.ofBytes [0, 0]) [48, 122] 1645000000 :=
  ⟨by decide, by decide, by decide, by decide, rfl, by decide,
    (phiCHOX_legacy_eq_default sampleLib (Range.ofBytes [0, 0]) [48] [48, 122]
      1500000000 1645000000 122 (by decide) (by decide) (by decide) (by decide) rfl
      (by decide)).1⟩

/-- C6 as stated fails: the LEGACY call of scenario S2 executes 33 primitives,
which are not the 34 of S17 followed by S17. -/
theorem phiCHOX_default_not_S17_twice :
    ∃ f ps, phiCHOX_run sampleLib (Range.ofBytes [0, 0]) [48] 1500000000 = some f
      ∧ f.prims = some ps
      ∧ ps ≠ spec_S17 ++ spec_S17
      ∧ ps.length ≠ 34 := by
  have hl := (phiCHOX_run_legacy sampleLib (Range.ofBytes [0, 0]) [48] 1500000000
    (by decide) (by decide)).trans (runBlock_eq sampleLib (Range.ofBytes [0, 0]) _)
  refine ⟨_, Block.legacy.recipe, hl, ?_, by decide, by decide⟩
  simp only [Final.prims, calls_block, Option.map_some', linearCalls_prims]

/-- C6 amended: for `t < 1644451200` the primitives executed are S17 followed by
S17 without its leading Blake, 33 invocations. -/
theorem phiCHOX_default_recipe (x : Lib) (input : Range) (prev : List Byte) (t : Nat)
    (hprev : prev ≠ []) (ht : t < 1644451200) :
    ∃ f, phiCHOX_run x input prev t = some f
      ∧ f.prims = some (spec_S17 ++ spec_S17.tail)
      ∧ (spec_S17 ++ spec_S17.tail).length = 33 := by
  have hl := (phiCHOX_run_legacy x input prev t hprev ht).trans (runBlock_eq x input _)
  refine ⟨_, hl, ?_, rfl⟩
  simp only [Final.prims, calls_block, Option.map_some', linearCalls_prims]
  rfl

/-- Instance of the amended C6 at scenario S2. -/
theorem phiCHOX_default_recipe_witness :
    ([48] : List Byte) ≠ [] ∧ 1500000000 < 1644451200
      ∧ ∃ f, phiCHOX_run sampleLib (Range.ofBytes [0, 0]) [48] 1500000000 = some f
          ∧ f.prims = some (spec_S17 ++ spec_S17.tail)
          ∧ (spec_S17 ++ spec_S17.tail).length = 33 :=
  ⟨by decide, by decide,
    phiCHOX_default_recipe sampleLib (Range.ofBytes [0, 0]) [48] 1500000000
      (by decide) (by decide)⟩

/-- C7: on the default path (LEGACY, or TRANSITIONAL with an unrecognised
selector) `phiCHOX` performs exactly 33 invocations, the k-th writing slot k for
k = 0..32, in an array of 33 slots, and returns the first 32 bytes of slot 32. -/
theorem phiCHOX_default_steps (x : Lib) (input : Range) (prev : List Byte) (t : Nat)
    (hprev : prev ≠ [])
    (hdef : t < 1644451200 ∨ (1644451200 ≤ t ∧ t < 1646118000
      ∧ ∃ c, prev.getLast? = some c ∧ ¬ isSelector c.val)) :
    ∃ f cs s, phiCHOX_run x input prev t = some f
      ∧ calls f.log = some cs
      ∧ cs.length = 33
      ∧ cs.map Call.dst = List.range 33
      ∧ f.hash.length = 33
      ∧ f.retIndex = 32
      ∧ f.hash.get? 32 = some s
      ∧ phiCHOX x input prev t = some (trim256 s) := by
  have key (b : Block) (hsz : b.size = 33) (hrun : phiCHOX_run x input prev t = runBlock x input b) :
      ∃ f cs s, phiCHOX_run x input prev t = some f
        ∧ calls f.log = some cs ∧ cs.length = 33 ∧ cs.map Call.dst = List.range 33
        ∧ f.hash.length = 33 ∧ f.retIndex = 32 ∧ f.hash.get? 32 = some s
        ∧ phiCHOX x input prev t = some (trim256 s) := by
    have hf := hrun.trans (runBlock_eq x input b)
    have hlen : b.recipe.length = 33 := by rw [b.recipe_length, hsz]
    have hret : b.ret = 32 := by have := b.ret_succ; omega
    have hidx : 32 < (pipelineSlots x b.recipe input.bytes).length := by
      rw [pipelineSlots_length, hlen]; decide
    refine ⟨_, _, (pipelineSlots x b.recipe input.bytes)[32], hf, calls_block input b,
      ?_, ?_, ?_, hret, ?_, ?_⟩
    · rw [linearCalls_length, hlen]
    · rw [linearCalls_dst, hlen]
    · rw [pipelineSlots_length, hlen]
    · simp only [List.get?_eq_getElem?, List.getElem?_eq_getElem hidx]
    · simp only [phiCHOX, hf, Option.map_some', hret, List.getD, List.get?_eq_getElem?,
        List.getElem?_eq_getElem hidx, Option.getD_some]
  rcases hdef with ht | ⟨h1, h2, c, hc, hns⟩
  · exact key Block.legacy rfl (phiCHOX_run_legacy x input prev t hprev ht)
  · exact key Block.fallback rfl (phiCHOX_run_fallback x input prev t c hc hns h1 h2)

/-- Instance of C7 at scenario S5 (`prev` ending in `z`). -/
theorem phiCHOX_default_steps_witness :
    ([48, 122] : List Byte) ≠ []
      ∧ (1645000000 < 1644451200 ∨ (1644451200 ≤ 1645000000 ∧ 1645000000 < 1646118000
          ∧ ∃ c, ([48, 122] : List Byte).getLast? = some c ∧ ¬ isSelector c.val))
      ∧ ∃ f cs s, phiCHOX_run sampleLib (Range.ofBytes [0, 0]) [48, 122] 1645000000 = some f
          ∧ calls f.log = some cs
          ∧ cs.length = 33
          ∧ cs.map Call.dst = List.range 33
          ∧ f.hash.length = 33
          ∧ f.retIndex = 32
          ∧ f.hash.get? 32 = some s
          ∧ phiCHOX sampleLib (Range.ofBytes [0, 0]) [48, 122] 1645000000
              = some (trim256 s) :=
  ⟨by decide, Or.inr ⟨by decide, by decide, 122, rfl, by decide⟩,
    phiCHOX_default_steps sampleLib (Range.ofBytes [0, 0]) [48, 122] 1645000000
      (by decide) (Or.inr ⟨by decide, by decide, 122, rfl, by decide⟩)⟩

/-- C8: in the TRANSITIONAL epoch the number of invocations is the pipeline
length of the specification table for the last byte `c` of `prev` (34 plus the
hex value for a selector, 33 for any other byte); the invocations write slots
0 .. length - 1 in order and the slot returned is slot length - 1. -/
theorem phiCHOX_pipeline_length (x : Lib) (input : Range) (prev : List Byte) (t : Nat)
    (c : Byte) (h1 : 1644451200 ≤ t) (h2 : t < 1646118000) (hc : prev.getLast? = some c) :
    ∃ f cs, phiCHOX_run x input prev t = some f
      ∧ calls f.log = some cs
      ∧ cs.length = spec_length c.val
      ∧ cs.map Call.dst = List.range (spec_length c.val)
      ∧ f.retIndex = spec_length c.val - 1 := by
  have hf := (phiCHOX_run_transitional x input prev t c hc h1 h2).trans
    (runBlock_eq x input _)
  have hlen : (selBlock c.val).recipe.length = spec_length c.val := by
    rw [Block.recipe_length, selBlock_size]
  refine ⟨_, _, hf, calls_block input _, ?_, ?_, ?_⟩
  · rw [linearCalls_length, hlen]
  · rw [linearCalls_dst, hlen]
  · have := (selBlock c.val).ret_succ
    rw [selBlock_size] at this
    simp only
    omega

/-- Instance of C8 for the selector `a` (code 97, length 44). -/
theorem phiCHOX_pipeline_length_witness :
    1644451200 ≤ 1645000000 ∧ 1645000000 < 1646118000
      ∧ ([97] : List Byte).getLast? = some 97
      ∧ spec_length (97 : Byte).val = 44
      ∧ ∃ f cs, phiCHOX_run sampleLib (Range.ofBytes [5]) [97] 1645000000 = some f
          ∧ calls f.log = some cs
          ∧ cs.length = spec_length (97 : Byte).val
          ∧ cs.map Call.dst = List.range (spec_length (97 : Byte).val)
          ∧ f.retIndex = spec_length (97 : Byte).val - 1 :=
  ⟨by decide, by decide, rfl, by decide,
    phiCHOX_pipeline_length sampleLib (Range.ofBytes [5]) [97] 1645000000 97
      (by decide) (by decide) rfl⟩

/-- C9 as stated fails: on the empty input the first invocation is given 0
bytes (at the address of `pblank`), not the byte 0x00, and with a digest that
tells the empty message from the message 0x00 the two calls of scenario S6
return different values. -/
theorem phiCHOX_blank_input_differs :
    (∃ f cs, phiCHOX_run sampleLib (Range.ofBytes []) [48] 1700000000 = some f
        ∧ calls f.log = some cs
        ∧ cs.head? = some ⟨Prim.blake512, Ptr.pblank, 0, 0⟩)
      ∧ phiCHOX sampleLib (Range.ofBytes []) [48] 1700000000
          ≠ phiCHOX sampleLib (Range.ofBytes [0]) [48] 1700000000 := by
  have h0 := (phiCHOX_run_modern sampleLib (Range.ofBytes []) [48] 1700000000
    (by decide) (by decide)).trans (runBlock_eq sampleLib (Range.ofBytes []) _)
  have h1 := (phiCHOX_run_modern sampleLib (Range.ofBytes [0]) [48] 1700000000
    (by decide) (by decide)).trans (runBlock_eq sampleLib (Range.ofBytes [0]) _)
  refine ⟨⟨_, _, h0, calls_block _ _, rfl⟩, ?_⟩
  simp only [phiCHOX, h0, h1, Option.map_some', ← pipeline_block]
  set_option maxRecDepth 1000000 in decide

/-- C9 amended: for every non-empty `prev` and every `t`, on an empty range the
first invocation is Blake-512 given 0 bytes at the address of `pblank`, slot 0
is the Blake-512 slot of the zero-length message, and the value returned is the
one the pipeline of the block's recipe gives for the zero-length message. -/
theorem phiCHOX_empty_input (x : Lib) (sz : Nat) (prev : List Byte) (t : Nat)
    (hprev : prev ≠ []) :
    ∃ f cs, phiCHOX_run x ⟨sz, []⟩ prev t = some f
      ∧ calls f.log = some cs
      ∧ cs.head? = some ⟨Prim.blake512, Ptr.pblank, 0, 0⟩
      ∧ f.hash.head? = some (slotOf x Prim.blake512 [])
      ∧ phiCHOX x ⟨sz, []⟩ prev t = pipeline x f.block.recipe [] := by
  obtain ⟨b, hb⟩ := phiCHOX_run_block x ⟨sz, []⟩ prev t hprev
  have hf := hb.trans (runBlock_eq x ⟨sz, []⟩ b)
  obtain ⟨ps, hps⟩ := b.recipe_head
  have hbytes : (⟨sz, []⟩ : Range).bytes = [] := rfl
  refine ⟨_, _, hf, calls_block _ b, ?_, ?_, ?_⟩
  · rw [hps]
    simp [linearCalls, evalSrc, evalLen, Range.count]
  · simp only [hps, hbytes, pipelineSlots, List.head?]
  · simp only [phiCHOX, hf, Option.map_some', hbytes, pipeline_block]

/-- Instance of the amended C9 at scenario S6. -/
theorem phiCHOX_empty_input_witness :
    ([48] : List Byte) ≠ []
      ∧ ∃ f cs, phiCHOX_run sampleLib ⟨1, []⟩ [48] 1700000000 = some f
          ∧ calls f.log = some cs
          ∧ cs.head? = some ⟨Prim.blake512, Ptr.pblank, 0, 0⟩
          ∧ f.hash.head? = some (slotOf sampleLib Prim.blake512 [])
          ∧ phiCHOX sampleLib ⟨1, []⟩ [48] 1700000000
              = pipeline sampleLib f.block.recipe [] :=
  ⟨by decide, phiCHOX_empty_input sampleLib 1 [48] 1700000000 (by decide)⟩

/-- C10: in each of the nineteen blocks, for each step `k` with
`1 <= k < N`, the k-th invocation absorbs exactly 64 bytes at `&hash[k-1]`,
which are the whole of slot k-1, and writes its digest to slot k; the
invocation 0 reads no slot at all.  The invocations are all the statements the
block executes, one read each. -/
theorem phiCHOX_step_reads_predecessor (x : Lib) (input : Range) (b : Block) (k : Nat)
    (hk : 1 ≤ k) (hkb : k < b.size) :
    ∃ f cs c0 c s, runBlock x input b = some f
      ∧ calls f.log = some cs
      ∧ cs.length = b.size
      ∧ cs.get? 0 = some c0 ∧ (∀ j, c0.src ≠ Ptr.hash j) ∧ c0.dst = 0
      ∧ cs.get? k = some c
      ∧ c.src = Ptr.hash (k - 1) ∧ c.len = 64 ∧ c.dst = k
      ∧ f.hash.get? (k - 1) = some s ∧ s.length = 64
      ∧ readMem input f.hash c.src c.len = some s
      ∧ f.hash.get? k = some (slotOf x c.prim s) := by
  obtain ⟨j, rfl⟩ : ∃ j, k = j + 1 := ⟨k - 1, by omega⟩
  have hlen := b.recipe_length
  obtain ⟨ps, hps⟩ := b.recipe_head
  have hj : j < ps.length := by
    rw [hps] at hlen; simp only [List.length_cons] at hlen; omega
  have hjp : ps.get? j = some ps[j] := by
    simp only [List.get?_eq_getElem?, List.getElem?_eq_getElem hj]
  obtain ⟨s, hs1, hs2, hs3⟩ :=
    pipelineSlots_get x (Prim.blake512 :: ps) input.bytes j ps[j] hjp
  have hc := tailCalls_getElem? ps 0 j ps[j] hjp
  rw [Nat.zero_add] at hc
  have hrun := runBlock_eq x input b
  have hcalls := calls_block input b
  have hcl := linearCalls_length input b.recipe
  rw [hps] at hrun hcalls
  rw [hlen] at hcl
  rw [hps] at hcl
  refine ⟨_, _, ⟨Prim.blake512, evalSrc input Src.blankOrBegin, evalLen input Len.rangeBytes, 0⟩,
    ⟨ps[j], Ptr.hash j, 64, j + 1⟩, s, hrun, hcalls, hcl, rfl,
    fun i => evalSrc_range_ne_hash input i, rfl, hc, rfl, rfl, rfl, hs1, hs2, ?_, hs3⟩
  exact readMem_hash_get input _ j s hs1 hs2

/-- Instance of C10: the last step of the longest block, selector `f`. -/
theorem phiCHOX_step_reads_predecessor_witness :
    1 ≤ 48 ∧ 48 < Block.sel102.size
      ∧ ∃ f cs c0 c s, runBlock sampleLib (Range.ofBytes [1]) Block.sel102 = some f
          ∧ calls f.log = some cs
          ∧ cs.length = Block.sel102.size
          ∧ cs.get? 0 = some c0 ∧ (∀ j, c0.src ≠ Ptr.hash j) ∧ c0.dst = 0
          ∧ cs.get? 48 = some c
          ∧ c.src = Ptr.hash (48 - 1) ∧ c.len = 64 ∧ c.dst = 48
          ∧ f.hash.get? (48 - 1) = some s ∧ s.length = 64
          ∧ readMem (Range.ofBytes [1]) f.hash c.src c.len = some s
          ∧ f.hash.get? 48 = some (slotOf sampleLib c.prim s) :=
  ⟨by decide, by decide,
    phiCHOX_step_reads_predecessor sampleLib (Range.ofBytes [1]) Block.sel102 48
      (by decide) (by decide)⟩

/-! ## Returned slot, input, epochs and `prev` -/

/-- C11: in each of the nineteen blocks the value returned is the first 32
bytes of the slot the last invocation wrote, and that slot is the last element
of the block's array: the array has as many elements as the recipe has steps
and the index returned from is that number minus one. -/
theorem phiCHOX_returns_last_slot (x : Lib) (input : Range) (b : Block) :
    ∃ f cs c s, runBlock x input b = some f
      ∧ calls f.log = some cs
      ∧ cs.length = b.size ∧ f.hash.length = b.size ∧ f.retIndex + 1 = b.size
      ∧ cs.getLast? = some c ∧ c.dst = f.retIndex
      ∧ f.hash.get? f.retIndex = some s ∧ f.hash.getLast? = some s
      ∧ f.ret = trim256 s ∧ trim256 s = s.take 32 := by
  obtain ⟨c, hc1, hc2⟩ := linearCalls_getLast input b
  obtain ⟨s, hs1, hs2, hs3, _, _⟩ := b.ret_slot x input.bytes
  refine ⟨_, _, c, s, runBlock_eq x input b, calls_block input b, ?_, ?_, b.ret_succ, hc1, hc2,
    hs1, hs2, ?_, rfl⟩
  · rw [linearCalls_length, b.recipe_length]
  · rw [pipelineSlots_length, b.recipe_length]
  · simp only [hs3]

/-- C12: in each of the nineteen blocks the first invocation is Blake-512 on the
whole range, `count * sizeof` bytes, into slot 0; every later invocation reads a
slot of the array, the k-th one slot k-1; so two ranges that give Blake-512 the
same slot 0 give the same array and the same value. -/
theorem phiCHOX_input_only_through_slot0 (x : Lib) (input input' : Range) (b : Block)
    (h0 : slotOf x Prim.blake512 input.bytes = slotOf x Prim.blake512 input'.bytes) :
    ∃ f f' cs c0, runBlock x input b = some f ∧ runBlock x input' b = some f'
      ∧ calls f.log = some cs ∧ cs.head? = some c0
      ∧ c0.prim = Prim.blake512
      ∧ c0.len = input.count * input.sz ∧ input.bytes.length = input.count * input.sz
      ∧ readMem input (List.replicate b.size x.uint512_init) c0.src c0.len = some input.bytes
      ∧ c0.dst = 0
      ∧ f.hash.head? = some (slotOf x Prim.blake512 input.bytes)
      ∧ cs.tail.map Call.src = (List.range (b.size - 1)).map Ptr.hash
      ∧ f.hash = f'.hash ∧ f.ret = f'.ret := by
  have hlen := b.recipe_length
  obtain ⟨ps, hps⟩ := b.recipe_head
  have hrun := runBlock_eq x input b
  have hrun' := runBlock_eq x input' b
  have hcalls := calls_block input b
  have hslots : pipelineSlots x b.recipe input.bytes = pipelineSlots x b.recipe input'.bytes := by
    rw [hps]
    simp only [pipelineSlots, h0]
  have hsz : b.size - 1 = ps.length := by
    rw [← hlen, hps]; simp
  rw [hps] at hcalls
  refine ⟨_, _, _, ⟨Prim.blake512, evalSrc input Src.blankOrBegin,
    evalLen input Len.rangeBytes, 0⟩, hrun, hrun', hcalls, rfl, rfl, rfl,
    input.bytes_length, readMem_range input _, rfl, ?_, ?_, hslots, ?_⟩
  · simp only [hps, pipelineSlots, List.head?]
  · simp only [linearCalls, List.tail_cons, tailCalls_src, hsz, List.range_eq_range']
  · simp only [hslots]

/-- Instance of C12: a range of two bytes and a range of one two-byte element
over the same memory. -/
theorem phiCHOX_input_only_through_slot0_witness :
    slotOf sampleLib Prim.blake512 (Range.ofBytes [1, 2]).bytes
        = slotOf sampleLib Prim.blake512 (⟨2, [⟨[1, 2], rfl⟩]⟩ : Range).bytes
      ∧ ∃ f f' cs c0, runBlock sampleLib (Range.ofBytes [1, 2]) Block.sel102 = some f
          ∧ runBlock sampleLib ⟨2, [⟨[1, 2], rfl⟩]⟩ Block.sel102 = some f'
          ∧ calls f.log = some cs ∧ cs.head? = some c0
          ∧ c0.prim = Prim.blake512
          ∧ c0.len = (Range.ofBytes [1, 2]).count * (Range.ofBytes [1, 2]).sz
          ∧ (Range.ofBytes [1, 2]).bytes.length
              = (Range.ofBytes [1, 2]).count * (Range.ofBytes [1, 2]).sz
          ∧ readMem (Range.ofBytes [1, 2])
              (List.replicate Block.sel102.size sampleLib.uint512_init) c0.src c0.len
              = some (Range.ofBytes [1, 2]).bytes
          ∧ c0.dst = 0
          ∧ f.hash.head? = some (slotOf sampleLib Prim.blake512 (Range.ofBytes [1, 2]).bytes)
          ∧ cs.tail.map Call.src = (List.range (Block.sel102.size - 1)).map Ptr.hash
          ∧ f.hash = f'.hash ∧ f.ret = f'.ret :=
  ⟨rfl, phiCHOX_input_only_through_slot0 sampleLib (Range.ofBytes [1, 2])
    ⟨2, [⟨[1, 2], rfl⟩]⟩ Block.sel102 rfl⟩

/-- C13: for a fixed input and a fixed non-empty `prev`, two timestamps of the
same epoch (both below 1644451200, both in [1644451200, 1646118000), or both
from 1646118000 on) give the same run and the same digest. -/
theorem phiCHOX_epoch_constant (x : Lib) (input : Range) (prev : List Byte) (t1 t2 : Nat)
    (hprev : prev ≠ [])
    (hsame : (t1 < 1644451200 ∧ t2 < 1644451200)
      ∨ (1644451200 ≤ t1 ∧ t1 < 1646118000 ∧ 1644451200 ≤ t2 ∧ t2 < 1646118000)
      ∨ (1646118000 ≤ t1 ∧ 1646118000 ≤ t2)) :
    phiCHOX_run x input prev t1 = phiCHOX_run x input prev t2
      ∧ phiCHOX x input prev t1 = phiCHOX x input prev t2
      ∧ ∃ v, phiCHOX x input prev t1 = some v := by
  have hrun : phiCHOX_run x input prev t1 = phiCHOX_run x input prev t2 := by
    rcases hsame with ⟨a, b⟩ | ⟨a, b, c, d⟩ | ⟨a, b⟩
    · rw [phiCHOX_run_legacy x input prev t1 hprev a, phiCHOX_run_legacy x input prev t2 hprev b]
    · obtain ⟨ch, hc⟩ := getLast?_of_ne_nil prev hprev
      rw [phiCHOX_run_transitional x input prev t1 ch hc a b,
        phiCHOX_run_transitional x input prev t2 ch hc c d]
    · rw [phiCHOX_run_modern x input prev t1 hprev a, phiCHOX_run_modern x input prev t2 hprev b]
  obtain ⟨b, hb⟩ := phiCHOX_run_block x input prev t1 hprev
  refine ⟨hrun, by simp only [phiCHOX, hrun], ?_⟩
  rw [phiCHOX, hb, runBlock_eq]
  exact ⟨_, rfl⟩

/-- Instance of C13: the two ends of the transitional epoch, selector `7`. -/
theorem phiCHOX_epoch_constant_witness :
    ([55] : List Byte) ≠ []
      ∧ ((1644451200 < 1644451200 ∧ 1646117999 < 1644451200)
        ∨ (1644451200 ≤ 1644451200 ∧ 1644451200 < 1646118000
            ∧ 1644451200 ≤ 1646117999 ∧ 1646117999 < 1646118000)
        ∨ (1646118000 ≤ 1644451200 ∧ 1646118000 ≤ 1646117999))
      ∧ phiCHOX sampleLib (Range.ofBytes [3]) [55] 1644451200
          = phiCHOX sampleLib (Range.ofBytes [3]) [55] 1646117999 :=
  ⟨by decide, Or.inr (Or.inl ⟨by decide, by decide, by decide, by decide⟩),
    (phiCHOX_epoch_constant sampleLib (Range.ofBytes [3]) [55] 1644451200 1646117999
      (by decide) (Or.inr (Or.inl ⟨by decide, by decide, by decide, by decide⟩))).2.1⟩

/-- C14: for `t >= 1646118000` and for `t < 1644451200` the digest is the same
for any two non-empty `prev`. -/
theorem phiCHOX_prev_independent (x : Lib) (input : Range) (prev1 prev2 : List Byte) (t : Nat)
    (h1 : prev1 ≠ []) (h2 : prev2 ≠ []) (ht : 1646118000 ≤ t ∨ t < 1644451200) :
    phiCHOX_run x input prev1 t = phiCHOX_run x input prev2 t
      ∧ phiCHOX x input prev1 t = phiCHOX x input prev2 t
      ∧ ∃ v, phiCHOX x input prev1 t = some v := by
  have hrun : phiCHOX_run x input prev1 t = phiCHOX_run x input prev2 t := by
    rcases ht with a | a
    · rw [phiCHOX_run_modern x input prev1 t h1 a, phiCHOX_run_modern x input prev2 t h2 a]
    · rw [phiCHOX_run_legacy x input prev1 t h1 a, phiCHOX_run_legacy x input prev2 t h2 a]
  obtain ⟨b, hb⟩ := phiCHOX_run_block x input prev1 t h1
  refine ⟨hrun, by simp only [phiCHOX, hrun], ?_⟩
  rw [phiCHOX, hb, runBlock_eq]
  exact ⟨_, rfl⟩

/-- Instance of C14: `prev` ending in `0` and in `f` at the scenario S1
timestamp. -/
theorem phiCHOX_prev_independent_witness :
    ([48] : List Byte) ≠ [] ∧ ([48, 102] : List Byte) ≠ []
      ∧ (1646118000 ≤ 1700000000 ∨ 1700000000 < 1644451200)
      ∧ phiCHOX sampleLib (Range.ofBytes [3]) [48] 1700000000
          = phiCHOX sampleLib (Range.ofBytes [3]) [48, 102] 1700000000 :=
  ⟨by decide, by decide, Or.inl (by decide),
    (phiCHOX_prev_independent sampleLib (Range.ofBytes [3]) [48] [48, 102] 1700000000
      (by decide) (by decide) (Or.inl (by decide))).2.1⟩

/-- C15: for every input and every `t`, two non-empty `prev` with the same last
character give the same run and the same digest. -/
theorem phiCHOX_prev_last_char (x : Lib) (input : Range) (prev1 prev2 : List Byte) (t : Nat)
    (h1 : prev1 ≠ []) (h2 : prev2 ≠ []) (hlast : prev1.getLast? = prev2.getLast?) :
    phiCHOX_run x input prev1 t = phiCHOX_run x input prev2 t
      ∧ phiCHOX x input prev1 t = phiCHOX x input prev2 t
      ∧ ∃ v, phiCHOX x input prev1 t = some v := by
  have hrun : phiCHOX_run x input prev1 t = phiCHOX_run x input prev2 t := by
    by_cases a : 1646118000 ≤ t
    · rw [phiCHOX_run_modern x input prev1 t h1 a, phiCHOX_run_modern x input prev2 t h2 a]
    · by_cases b : 1644451200 ≤ t
      · obtain ⟨c, hc⟩ := getLast?_of_ne_nil prev1 h1
        rw [phiCHOX_run_transitional x input prev1 t c hc b (by omega),
          phiCHOX_run_transitional x input prev2 t c (hlast ▸ hc) b (by omega)]
      · rw [phiCHOX_run_legacy x input prev1 t h1 (by omega),
          phiCHOX_run_legacy x input prev2 t h2 (by omega)]
  obtain ⟨b, hb⟩ := phiCHOX_run_block x input prev1 t h1
  refine ⟨hrun, by simp only [phiCHOX, hrun], ?_⟩
  rw [phiCHOX, hb, runBlock_eq]
  exact ⟨_, rfl⟩

/-- Instance of C15: two strings ending in `c` in the transitional epoch. -/
theorem phiCHOX_prev_last_char_witness :
    ([99] : List Byte) ≠ [] ∧ ([48, 102, 99] : List Byte) ≠ []
      ∧ ([99] : List Byte).getLast? = ([48, 102, 99] : List Byte).getLast?
      ∧ phiCHOX sampleLib (Range.ofBytes [3]) [99] 1645000000
          = phiCHOX sampleLib (Range.ofBytes [3]) [48, 102, 99] 1645000000 :=
  ⟨by decide, by decide, rfl,
    (phiCHOX_prev_last_char sampleLib (Range.ofBytes [3]) [99] [48, 102, 99] 1645000000
      (by decide) (by decide) rfl).2.1⟩

/-! ## Closed set of recipes, totality, bounds, determinism, digest sizes -/

/-- C16 as stated fails: at the scenario S3 timestamp no set of 19 primitive
sequences is the set of those that `phiCHOX` executes as `prev` ranges over the
non-empty strings. -/
theorem phiCHOX_transitional_recipes_not_19 :
    ¬ ∃ S : Finset (List Prim), S.card = 19
        ∧ ∀ r, r ∈ S ↔ ∃ prev f, prev ≠ []
            ∧ phiCHOX_run sampleLib (Range.ofBytes [0, 0]) prev 1645000000 = some f
            ∧ f.prims = some r := by
  rintro ⟨S, hcard, hS⟩
  have hEq : S = (transitionalBlocks.map Block.recipe).toFinset := by
    ext r
    rw [hS r, transitional_recipe_iff sampleLib (Range.ofBytes [0, 0]) 1645000000
      (by decide) (by decide) r]
  rw [hEq, transitionalRecipes_card] at hcard
  exact absurd hcard (by decide)

/-- C16 amended: for `t` in the transitional epoch the primitive sequences that
`phiCHOX` executes as `prev` ranges over the non-empty strings form a set of
exactly 17 (the sixteen selector recipes and the default one). -/
theorem phiCHOX_transitional_recipes (x : Lib) (input : Range) (t : Nat)
    (h1 : 1644451200 ≤ t) (h2 : t < 1646118000) :
    ∃ S : Finset (List Prim), S.card = 17
      ∧ ∀ r, r ∈ S ↔ ∃ prev f, prev ≠ [] ∧ phiCHOX_run x input prev t = some f
          ∧ f.prims = some r :=
  ⟨(transitionalBlocks.map Block.recipe).toFinset, transitionalRecipes_card,
    fun r => transitional_recipe_iff x input t h1 h2 r⟩

/-- Instance of the amended C16 at the scenario S3 timestamp. -/
theorem phiCHOX_transitional_recipes_witness :
    1644451200 ≤ 1645000000 ∧ 1645000000 < 1646118000
      ∧ ∃ S : Finset (List Prim), S.card = 17
          ∧ ∀ r, r ∈ S ↔ ∃ prev f, prev ≠ []
              ∧ phiCHOX_run sampleLib (Range.ofBytes [0, 0]) prev 1645000000 = some f
              ∧ f.prims = some r :=
  ⟨by decide, by decide,
    phiCHOX_transitional_recipes sampleLib (Range.ofBytes [0, 0]) 1645000000
      (by decide) (by decide)⟩

/-- C17: for a non-empty `prev` the last character exists, and for every input,
every last character and every timestamp `phiCHOX` runs exactly one block to its
`return` and yields a digest of 32 bytes; without the precondition there is no
value. -/
theorem phiCHOX_total (x : Lib) (input : Range) (prev : List Byte) (t : Nat)
    (hprev : prev ≠ []) :
    (∃ c, prev.getLast? = some c)
      ∧ (∃ f v, phiCHOX_run x input prev t = some f
          ∧ phiCHOX x input prev t = some v ∧ v = f.ret ∧ v.length = 32)
      ∧ (∃! b, (phiCHOX_run x input prev t).map Final.block = some b)
      ∧ phiCHOX x input [] t = none := by
  obtain ⟨b, hb⟩ := phiCHOX_run_block x input prev t hprev
  have hf := hb.trans (runBlock_eq x input b)
  obtain ⟨s, _, _, hs3, _, hs5⟩ := b.ret_slot x input.bytes
  refine ⟨getLast?_of_ne_nil prev hprev, ⟨_, _, hf, ?_, rfl, ?_⟩, ⟨b, ?_, ?_⟩, rfl⟩
  · rw [phiCHOX, hf]; rfl
  · simp only [hs3, hs5]
  · simp only [hf, Option.map_some']
  · intro b' hb'
    simp only [hf, Option.map_some', Option.some.injEq] at hb'
    exact hb'.symm

/-- Instance of C17: the empty input with an unrecognised, negative last
character at the largest 32-bit timestamp. -/
theorem phiCHOX_total_witness :
    ([255] : List Byte) ≠ []
      ∧ (∃ c, ([255] : List Byte).getLast? = some c)
      ∧ (∃ f v, phiCHOX_run sampleLib (Range.ofBytes []) [255] 4294967295 = some f
          ∧ phiCHOX sampleLib (Range.ofBytes []) [255] 4294967295 = some v
          ∧ v = f.ret ∧ v.length = 32)
      ∧ (∃! b, (phiCHOX_run sampleLib (Range.ofBytes []) [255] 4294967295).map Final.block
          = some b)
      ∧ phiCHOX sampleLib (Range.ofBytes []) [] 4294967295 = none :=
  ⟨by decide, phiCHOX_total sampleLib (Range.ofBytes []) [255] 4294967295 (by decide)⟩

/-- C18: every call with a non-empty `prev` performs `L` invocations on an array
of `L` slots with `11 <= L <= 49`, the array taking `L * 64 <= 3136` bytes;
`L = 11` for `t >= 1646118000` and `L = 49` for the selector `f` in the
transitional epoch. -/
theorem phiCHOX_recipe_length_bounds (x : Lib) (input : Range) (prev : List Byte) (t : Nat)
    (hprev : prev ≠ []) :
    (∃ f cs, phiCHOX_run x input prev t = some f ∧ calls f.log = some cs
        ∧ 11 ≤ cs.length ∧ cs.length ≤ 49
        ∧ f.hash.length = cs.length
        ∧ (flat f.hash).length = cs.length * 64
        ∧ (flat f.hash).length ≤ 49 * 64 ∧ 49 * 64 = 3136)
      ∧ (∃ f cs, phiCHOX_run x input prev 1646118000 = some f ∧ f.block = Block.modern
          ∧ calls f.log = some cs ∧ cs.length = 11)
      ∧ (∃ f cs, phiCHOX_run x input [102] 1644451200 = some f ∧ f.block = Block.sel102
          ∧ calls f.log = some cs ∧ cs.length = 49) := by
  have key (b : Block) : (linearCalls input b.recipe).length = b.size := by
    rw [linearCalls_length, b.recipe_length]
  refine ⟨?_, ?_, ?_⟩
  · obtain ⟨b, hb⟩ := phiCHOX_run_block x input prev t hprev
    have hf := hb.trans (runBlock_eq x input b)
    have hbd := b.size_bounds
    refine ⟨_, _, hf, calls_block input b, ?_, ?_, ?_, ?_, ?_, rfl⟩
    · rw [key]; exact hbd.1
    · rw [key]; exact hbd.2
    · rw [key, pipelineSlots_length, b.recipe_length]
    · rw [key, flat_pipelineSlots_length, b.recipe_length]
    · simp only [flat_pipelineSlots_length, b.recipe_length]
      omega
  · exact ⟨_, _, (phiCHOX_run_modern x input prev 1646118000 hprev (by decide)).trans
      (runBlock_eq x input _), rfl, calls_block input _, key _⟩
  · exact ⟨_, _, (phiCHOX_run_transitional x input [102] 1644451200 102 rfl (by decide)
      (by decide)).trans (runBlock_eq x input _), rfl, calls_block input _, key _⟩

/-- Instance of C18 at scenario S4 (selector `f`). -/
theorem phiCHOX_recipe_length_bounds_witness :
    ([48, 102] : List Byte) ≠ []
      ∧ ∃ f cs, phiCHOX_run sampleLib (Range.ofBytes [0, 0]) [48, 102] 1645000000 = some f
          ∧ calls f.log = some cs
          ∧ 11 ≤ cs.length ∧ cs.length ≤ 49
          ∧ f.hash.length = cs.length
          ∧ (flat f.hash).length = cs.length * 64
          ∧ (flat f.hash).length ≤ 49 * 64 ∧ 49 * 64 = 3136 :=
  ⟨by decide,
    (phiCHOX_recipe_length_bounds sampleLib (Range.ofBytes [0, 0]) [48, 102] 1645000000
      (by decide)).1⟩

/-- C19: the run of a call depends on nothing but `(input, prev, t)`: the block
the call takes, executed on the machine from any contents `z` of the
module-scope contexts `z_blake` ... `z_haval` and any contents of the
uninitialised local contexts, gives the same outcome and leaves `z` as it was. -/
theorem phiCHOX_deterministic (x : Lib) (input : Range) (prev : List Byte) (t : Nat)
    (z1 z2 : Globals) (ctx1 ctx2 : Prim → Option (List Byte)) (hprev : prev ≠ []) :
    ∃ f v, phiCHOX_run x input prev t = some f
      ∧ phiCHOX x input prev t = some v ∧ v.length = 32
      ∧ runBlockM x input z1 ctx1 f.block = some (f, z1)
      ∧ runBlockM x input z2 ctx2 f.block = some (f, z2) := by
  obtain ⟨b, hb⟩ := phiCHOX_run_block x input prev t hprev
  have hf := hb.trans (runBlock_eq x input b)
  obtain ⟨s, _, _, hs3, _, hs5⟩ := b.ret_slot x input.bytes
  refine ⟨_, _, hf, by rw [phiCHOX, hf]; rfl, by simp only [hs3, hs5], ?_, ?_⟩
  · rw [runBlockM_eq, runBlock_eq]; rfl
  · rw [runBlockM_eq, runBlock_eq]; rfl

/-- Instance of C19: scenario S1 entered once before `fillz()` and once after
it, with different contents in the local contexts. -/
theorem phiCHOX_deterministic_witness :
    ([48] : List Byte) ≠ []
      ∧ ∃ f v, phiCHOX_run sampleLib (Range.ofBytes [0, 0]) [48] 1700000000 = some f
          ∧ phiCHOX sampleLib (Range.ofBytes [0, 0]) [48] 1700000000 = some v ∧ v.length = 32
          ∧ runBlockM sampleLib (Range.ofBytes [0, 0]) (fun _ => none) (fun _ => none) f.block
              = some (f, fun _ => none)
          ∧ runBlockM sampleLib (Range.ofBytes [0, 0]) (fun _ => some []) (fun _ => some [7])
              f.block = some (f, fun _ => some []) :=
  ⟨by decide,
    phiCHOX_deterministic sampleLib (Range.ofBytes [0, 0]) [48] 1700000000
      (fun _ => none) (fun _ => some []) (fun _ => none) (fun _ => some [7]) (by decide)⟩

/-- C20 as stated fails: in the LEGACY call of scenario S2 step 16 is
HAVAL-256/5, whose digest has 32 bytes, and step 17 (BMW) reads the 64 bytes of
slot 16, of which the last 32 are those the declaration of the array left. -/
theorem phiCHOX_haval_digest_not_64 :
    ∃ f cs p c m s, phiCHOX_run sampleLib (Range.ofBytes [0, 0]) [48] 1500000000 = some f
      ∧ calls f.log = some cs
      ∧ cs.get? 16 = some p ∧ p.prim = Prim.haval256_5
      ∧ cs.get? 17 = some c ∧ c.prim = Prim.bmw512
      ∧ readMem (Range.ofBytes [0, 0]) f.hash c.src c.len = some s
      ∧ (sampleLib.digest Prim.haval256_5 m).length = 32
      ∧ (sampleLib.digest Prim.haval256_5 m).length ≠ 64
      ∧ s = sampleLib.digest Prim.haval256_5 m ++ sampleLib.uint512_init.drop 32
      ∧ (sampleLib.uint512_init.drop 32).length = 32 := by
  have hf := (phiCHOX_run_legacy sampleLib (Range.ofBytes [0, 0]) [48] 1500000000
    (by decide) (by decide)).trans (runBlock_eq sampleLib (Range.ofBytes [0, 0]) _)
  obtain ⟨m, hm1, _⟩ := pipelineSlots_get_msg sampleLib Block.legacy.recipe
    (Range.ofBytes [0, 0]).bytes 16 Prim.haval256_5 rfl
  have hl : (sampleLib.digest Prim.haval256_5 m).length = 32 :=
    sampleLib.digest_length Prim.haval256_5 m
  refine ⟨_, _, ⟨Prim.haval256_5, Ptr.hash 15, 64, 16⟩, ⟨Prim.bmw512, Ptr.hash 16, 64, 17⟩, m,
    slotOf sampleLib Prim.haval256_5 m, hf, calls_block _ _, rfl, rfl, rfl, rfl, ?_, hl, ?_, ?_,
    ?_⟩
  · exact readMem_hash_get _ _ 16 _ hm1 (slotOf_length _ _ _)
  · rw [hl]; decide
  · simp only [slotOf, store, hl]
  · simp [sampleLib]

/-- C20 amended: in each of the nineteen blocks step `k >= 1` reads the 64
bytes of slot `k - 1`, which are the digest step `k - 1` produced for the
message it absorbed, in full, followed by what the declaration of the array
left beyond it: nothing when step `k - 1` is not HAVAL-256/5, whose digests
have 64 bytes, and 32 bytes when it is, its digest having 32. -/
theorem phiCHOX_step_reads_digest (x : Lib) (input : Range) (b : Block) (k : Nat)
    (hk : 1 ≤ k) (hkb : k < b.size) :
    ∃ f cs p c m s, runBlock x input b = some f ∧ calls f.log = some cs
      ∧ cs.get? (k - 1) = some p ∧ cs.get? k = some c
      ∧ c.src = Ptr.hash (k - 1) ∧ c.len = 64
      ∧ f.hash.get? (k - 1) = some s
      ∧ readMem input f.hash c.src c.len = some s
      ∧ ((k = 1 ∧ m = input.bytes) ∨ (2 ≤ k ∧ f.hash.get? (k - 2) = some m))
      ∧ ((p.prim ≠ Prim.haval256_5 ∧ (x.digest p.prim m).length = 64
            ∧ s = x.digest p.prim m)
          ∨ (p.prim = Prim.haval256_5 ∧ (x.digest p.prim m).length = 32
            ∧ s = x.digest p.prim m ++ x.uint512_init.drop 32
            ∧ (x.uint512_init.drop 32).length = 32)) := by
  obtain ⟨p, c, m, s, h1, h2, h3, h4, h5, h6, h7, h8, h9⟩ :=
    block_step_bytes x input b k hk hkb
  refine ⟨_, _, p, c, m, s, runBlock_eq x input b, calls_block input b, h1, h2, h3, h4, h5, h6,
    h9, ?_⟩
  by_cases hp : p.prim = Prim.haval256_5
  · refine Or.inr ⟨hp, ?_, ?_, ?_⟩
    · rw [h8, hp]; rfl
    · rw [h7, hp]; rfl
    · rw [List.length_drop, x.uint512_init_length]
  · have ho : outLen p.prim = 64 := by
      cases hq : p.prim <;> first | rfl | exact absurd hq hp
    refine Or.inl ⟨hp, by rw [h8, ho], ?_⟩
    rw [h7, ho, List.drop_of_length_le (by rw [x.uint512_init_length]), List.append_nil]

/-- Instance of the amended C20: step 17 of the block of selector `0`, which
follows HAVAL-256/5. -/
theorem phiCHOX_step_reads_digest_witness :
    1 ≤ 17 ∧ 17 < Block.sel48.size
      ∧ ∃ f cs p c m s, runBlock sampleLib (Range.ofBytes [0, 0]) Block.sel48 = some f
          ∧ calls f.log = some cs
          ∧ cs.get? (17 - 1) = some p ∧ cs.get? 17 = some c
          ∧ c.src = Ptr.hash (17 - 1) ∧ c.len = 64
          ∧ f.hash.get? (17 - 1) = some s
          ∧ readMem (Range.ofBytes [0, 0]) f.hash c.src c.len = some s
          ∧ ((17 = 1 ∧ m = (Range.ofBytes [0, 0]).bytes)
              ∨ (2 ≤ 17 ∧ f.hash.get? (17 - 2) = some m))
          ∧ ((p.prim ≠ Prim.haval256_5 ∧ (sampleLib.digest p.prim m).length = 64
                ∧ s = sampleLib.digest p.prim m)
              ∨ (p.prim = Prim.haval256_5 ∧ (sampleLib.digest p.prim m).length = 32
                ∧ s = sampleLib.digest p.prim m ++ sampleLib.uint512_init.drop 32
                ∧ (sampleLib.uint512_init.drop 32).length = 32)) :=
  ⟨by decide, by decide,
    phiCHOX_step_reads_digest sampleLib (Range.ofBytes [0, 0]) Block.sel48 17
      (by decide) (by decide)⟩

/-! ## Contexts, slots and the shape of the recipes -/

/-- C21: in each of the nineteen blocks the statements executed are, in order,
the triples `init c; update c; close c` of the invocations, each on one local
context, and nothing else; the block holds no `fillz()` and no copy macro; the
digest step `k` writes is that of the bytes of its own update alone (the input
for step 0, slot `k - 1` otherwise), also for a primitive used earlier in the
block; and the outcome is the same whatever the local and module-scope contexts
held on entry. -/
theorem phiCHOX_context_fresh (x : Lib) (input : Range) (b : Block) (k : Nat) (p : Prim)
    (z : Globals) (ctx0 : Prim → Option (List Byte)) (hk : b.recipe.get? k = some p) :
    ∃ f cs c m, runBlock x input b = some f ∧ calls f.log = some cs
      ∧ cs.length = b.size ∧ f.log.length = 3 * cs.length
      ∧ cs.get? k = some c ∧ c.prim = p
      ∧ f.hash.get? k = some (slotOf x p m)
      ∧ ((k = 0 ∧ m = input.bytes) ∨ (1 ≤ k ∧ f.hash.get? (k - 1) = some m))
      ∧ (b.mbody.all fun s => !s.isMacro) = true
      ∧ runBlockM x input z ctx0 b = some (f, z) := by
  obtain ⟨c, hc1, hc2⟩ := linearCalls_get_prim input b.recipe k p hk
  obtain ⟨m, hm1, hm2⟩ := pipelineSlots_get_msg x b.recipe input.bytes k p hk
  have hl : (linearCalls input b.recipe).length = b.size := by
    rw [linearCalls_length, b.recipe_length]
  refine ⟨_, _, c, m, runBlock_eq x input b, calls_block input b, hl, ?_, hc1, hc2, hm1,
    hm2, b.mbody_no_macro, ?_⟩
  · simp only [List.length_map, b.body_length, hl]
  · rw [runBlockM_eq, runBlock_eq]; rfl

/-- Instance of C21: step 17 of the LEGACY block, the second use of
`ctx_bmw`. -/
theorem phiCHOX_context_fresh_witness :
    Block.legacy.recipe.get? 17 = some Prim.bmw512
      ∧ Block.legacy.recipe.get? 1 = some Prim.bmw512
      ∧ ∃ f cs c m, runBlock sampleLib (Range.ofBytes [0, 0]) Block.legacy = some f
          ∧ calls f.log = some cs
          ∧ cs.length = Block.legacy.size ∧ f.log.length = 3 * cs.length
          ∧ cs.get? 17 = some c ∧ c.prim = Prim.bmw512
          ∧ f.hash.get? 17 = some (slotOf sampleLib Prim.bmw512 m)
          ∧ ((17 = 0 ∧ m = (Range.ofBytes [0, 0]).bytes)
              ∨ (1 ≤ 17 ∧ f.hash.get? (17 - 1) = some m))
          ∧ (Block.legacy.mbody.all fun s => !s.isMacro) = true
          ∧ runBlockM sampleLib (Range.ofBytes [0, 0]) (fun _ => some [1])
              (fun _ => some [2]) Block.legacy = some (f, fun _ => some [1]) :=
  ⟨rfl, rfl,
    phiCHOX_context_fresh sampleLib (Range.ofBytes [0, 0]) Block.legacy 17 Prim.bmw512
      (fun _ => some [1]) (fun _ => some [2]) rfl⟩

/-- C22: in each of the nineteen blocks step `k` writes slot `k`, so every
slot index `j` below `L` is written exactly once and no other index is
written; step 0 reads no slot and step `k + 1` reads slot `k`, so slot `j` is
read exactly once when `j + 1 < L`, by the step after the one that wrote it, and
never otherwise. -/
theorem phiCHOX_slots_write_once (x : Lib) (input : Range) (b : Block) (j : Nat) :
    ∃ f cs c0, runBlock x input b = some f ∧ calls f.log = some cs
      ∧ cs.length = b.size
      ∧ cs.map Call.dst = List.range b.size
      ∧ (cs.map Call.dst).count j = (if j < b.size then 1 else 0)
      ∧ cs.head? = some c0 ∧ (∀ i, c0.src ≠ Ptr.hash i)
      ∧ cs.tail.map Call.src = (List.range (b.size - 1)).map Ptr.hash
      ∧ (cs.map Call.src).count (Ptr.hash j) = (if j + 1 < b.size then 1 else 0) := by
  have hlen := b.recipe_length
  obtain ⟨ps, hps⟩ := b.recipe_head
  have hsz : b.size - 1 = ps.length := by
    rw [← hlen, hps]; simp
  have hd := linearCalls_dst input b.recipe
  rw [hlen] at hd
  refine ⟨_, _, ⟨Prim.blake512, evalSrc input Src.blankOrBegin,
    evalLen input Len.rangeBytes, 0⟩, runBlock_eq x input b, calls_block input b, ?_, hd,
    linearCalls_dst_count input b j, ?_, fun i => evalSrc_range_ne_hash input i, ?_,
    linearCalls_src_count input b j⟩
  · rw [linearCalls_length, hlen]
  · rw [hps]; rfl
  · rw [hps]
    simp only [linearCalls, List.tail_cons, tailCalls_src, hsz, List.range_eq_range']

/-- C23: on the default path (LEGACY, or TRANSITIONAL with an unrecognised
selector) the invocations are Blake, BMW, Groestl, Skein, JH, Keccak, Luffa,
CubeHash, SHAvite, SIMD, ECHO, Hamsi, Fugue, Shabal, Whirlpool, SHA-512,
HAVAL-256/5 into slots 0..16, then the same list without Blake into slots
17..32; Blake occurs once, at step 0. -/
theorem phiCHOX_default_recipe_exact (x : Lib) (input : Range) (prev : List Byte) (t : Nat)
    (hprev : prev ≠ [])
    (hdef : t < 1644451200 ∨ (1644451200 ≤ t ∧ t < 1646118000
      ∧ ∃ c, prev.getLast? = some c ∧ ¬ isSelector c.val)) :
    ∃ f cs, phiCHOX_run x input prev t = some f ∧ calls f.log = some cs
      ∧ (f.block = Block.legacy ∨ f.block = Block.fallback)
      ∧ (cs.take 17).map Call.prim
          = [Prim.blake512, Prim.bmw512, Prim.groestl512, Prim.skein512, Prim.jh512,
             Prim.keccak512, Prim.luffa512, Prim.cubehash512, Prim.shavite512, Prim.simd512,
             Prim.echo512, Prim.hamsi512, Prim.fugue512, Prim.shabal512, Prim.whirlpool,
             Prim.sha512, Prim.haval256_5]
      ∧ (cs.take 17).map Call.dst = List.range 17
      ∧ (cs.drop 17).map Call.prim
          = [Prim.bmw512, Prim.groestl512, Prim.skein512, Prim.jh512,
             Prim.keccak512, Prim.luffa512, Prim.cubehash512, Prim.shavite512, Prim.simd512,
             Prim.echo512, Prim.hamsi512, Prim.fugue512, Prim.shabal512, Prim.whirlpool,
             Prim.sha512, Prim.haval256_5]
      ∧ (cs.drop 17).map Call.dst = List.range' 17 16
      ∧ cs.map Call.prim = spec_S17 ++ spec_S17.tail
      ∧ (cs.map Call.prim).count Prim.blake512 = 1
      ∧ cs.head?.map Call.prim = some Prim.blake512 := by
  have key (b : Block) (hb : b = Block.legacy ∨ b = Block.fallback)
      (hrun : phiCHOX_run x input prev t = runBlock x input b) :
      ∃ f cs, phiCHOX_run x input prev t = some f ∧ calls f.log = some cs
        ∧ (f.block = Block.legacy ∨ f.block = Block.fallback)
        ∧ (cs.take 17).map Call.prim
            = [Prim.blake512, Prim.bmw512, Prim.groestl512, Prim.skein512, Prim.jh512,
               Prim.keccak512, Prim.luffa512, Prim.cubehash512, Prim.shavite512, Prim.simd512,
               Prim.echo512, Prim.hamsi512, Prim.fugue512, Prim.shabal512, Prim.whirlpool,
               Prim.sha512, Prim.haval256_5]
        ∧ (cs.take 17).map Call.dst = List.range 17
        ∧ (cs.drop 17).map Call.prim
            = [Prim.bmw512, Prim.groestl512, Prim.skein512, Prim.jh512,
               Prim.keccak512, Prim.luffa512, Prim.cubehash512, Prim.shavite512, Prim.simd512,
               Prim.echo512, Prim.hamsi512, Prim.fugue512, Prim.shabal512, Prim.whirlpool,
               Prim.sha512, Prim.haval256_5]
        ∧ (cs.drop 17).map Call.dst = List.range' 17 16
        ∧ cs.map Call.prim = spec_S17 ++ spec_S17.tail
        ∧ (cs.map Call.prim).count Prim.blake512 = 1
        ∧ cs.head?.map Call.prim = some Prim.blake512 := by
    have hf := hrun.trans (runBlock_eq x input b)
    have hp := linearCalls_prims input b.recipe
    have hd := linearCalls_dst input b.recipe
    have hr : b.recipe = spec_S17 ++ spec_S17.tail := by
      rcases hb with rfl | rfl <;> rfl
    rw [hr] at hp hd
    refine ⟨_, _, hf, calls_block input b, hb, ?_, ?_, ?_, ?_, ?_, ?_, ?_⟩
    · rw [hr, List.map_take, hp]; rfl
    · rw [hr, List.map_take, hd]; rfl
    · rw [hr, List.map_drop, hp]; rfl
    · rw [hr, List.map_drop, hd]; rfl
    · rw [hr, hp]
    · rw [hr, hp]; rfl
    · rw [hr]; rfl
  rcases hdef with ht | ⟨h1, h2, c, hc, hns⟩
  · exact key Block.legacy (Or.inl rfl) (phiCHOX_run_legacy x input prev t hprev ht)
  · exact key Block.fallback (Or.inr rfl) (phiCHOX_run_fallback x input prev t c hc hns h1 h2)

/-- Instance of C23 at scenario S5 (`prev` ending in `z`). -/
theorem phiCHOX_default_recipe_exact_witness :
    ([48, 122] : List Byte) ≠ []
      ∧ (1645000000 < 1644451200 ∨ (1644451200 ≤ 1645000000 ∧ 1645000000 < 1646118000
          ∧ ∃ c, ([48, 122] : List Byte).getLast? = some c ∧ ¬ isSelector c.val))
      ∧ ∃ f cs, phiCHOX_run sampleLib (Range.ofBytes [0, 0]) [48, 122] 1645000000 = some f
          ∧ calls f.log = some cs
          ∧ cs.map Call.prim = spec_S17 ++ spec_S17.tail
          ∧ (cs.map Call.prim).count Prim.blake512 = 1 := by
  refine ⟨by decide, Or.inr ⟨by decide, by decide, 122, rfl, by decide⟩, ?_⟩
  obtain ⟨f, cs, h1, h2, _, _, _, _, _, h8, h9, _⟩ :=
    phiCHOX_default_recipe_exact sampleLib (Range.ofBytes [0, 0]) [48, 122] 1645000000
      (by decide) (Or.inr ⟨by decide, by decide, 122, rfl, by decide⟩)
  exact ⟨f, cs, h1, h2, h8, h9⟩

/-- C24: over all timestamps and all non-empty `prev` the primitive sequences
`phiCHOX` executes form a set of exactly 18; their lengths are 11 and 33..49,
eighteen different numbers, so no two of them have the same length; and for a
timestamp of the transitional epoch exactly 17 of them are executed. -/
theorem phiCHOX_eighteen_recipes (x : Lib) (input : Range) (t : Nat)
    (h1 : 1644451200 ≤ t) (h2 : t < 1646118000) :
    ∃ S T : Finset (List Prim), S.card = 18
      ∧ (∀ r, r ∈ S ↔ ∃ prev t' f, prev ≠ [] ∧ phiCHOX_run x input prev t' = some f
          ∧ f.prims = some r)
      ∧ S.image List.length = insert 11 (Finset.Icc 33 49)
      ∧ (S.image List.length).card = S.card
      ∧ T ⊆ S ∧ T.card = 17
      ∧ (∀ r, r ∈ T ↔ ∃ prev f, prev ≠ [] ∧ phiCHOX_run x input prev t = some f
          ∧ f.prims = some r) := by
  refine ⟨(allBlocks.map Block.recipe).toFinset, (transitionalBlocks.map Block.recipe).toFinset,
    allRecipes_card, fun r => all_recipe_iff x input r, allRecipes_lengths, ?_,
    transitionalRecipes_subset, transitionalRecipes_card,
    fun r => transitional_recipe_iff x input t h1 h2 r⟩
  rw [allRecipes_lengths, allRecipes_card]
  decide

/-- Instance of C24 at the scenario S3 timestamp. -/
theorem phiCHOX_eighteen_recipes_witness :
    1644451200 ≤ 1645000000 ∧ 1645000000 < 1646118000
      ∧ ∃ S T : Finset (List Prim), S.card = 18
          ∧ (∀ r, r ∈ S ↔ ∃ prev t' f, prev ≠ []
              ∧ phiCHOX_run sampleLib (Range.ofBytes [0, 0]) prev t' = some f
              ∧ f.prims = some r)
          ∧ S.image List.length = insert 11 (Finset.Icc 33 49)
          ∧ (S.image List.length).card = S.card
          ∧ T ⊆ S ∧ T.card = 17
          ∧ (∀ r, r ∈ T ↔ ∃ prev f, prev ≠ []
              ∧ phiCHOX_run sampleLib (Range.ofBytes [0, 0]) prev 1645000000 = some f
              ∧ f.prims = some r) :=
  ⟨by decide, by decide,
    phiCHOX_eighteen_recipes sampleLib (Range.ofBytes [0, 0]) 1645000000 (by decide)
      (by decide)⟩

/-- C25: on an empty range, in each of the nineteen blocks, the first
invocation is Blake-512 with the address of `pblank` and byte count 0, which
reads no byte; every other invocation reads a slot of the array; and slot 0 is
the Blake-512 digest of the zero-length message. -/
theorem phiCHOX_empty_input_reads_nothing (x : Lib) (sz : Nat) (b : Block) :
    ∃ f cs, runBlock x ⟨sz, []⟩ b = some f ∧ calls f.log = some cs
      ∧ cs.head? = some ⟨Prim.blake512, Ptr.pblank, 0, 0⟩
      ∧ readMem ⟨sz, []⟩ (List.replicate b.size x.uint512_init) Ptr.pblank 0 = some []
      ∧ cs.tail.map Call.src = (List.range (b.size - 1)).map Ptr.hash
      ∧ f.hash.head? = some (x.digest Prim.blake512 [])
      ∧ (x.digest Prim.blake512 []).length = 64 := by
  have hlen := b.recipe_length
  obtain ⟨ps, hps⟩ := b.recipe_head
  have hsz : b.size - 1 = ps.length := by
    rw [← hlen, hps]; simp
  have hbytes : (⟨sz, []⟩ : Range).bytes = [] := rfl
  have hd : (x.digest Prim.blake512 []).length = 64 := x.digest_length _ _
  have hslot : slotOf x Prim.blake512 [] = x.digest Prim.blake512 [] := by
    simp only [slotOf, store, hd]
    rw [List.drop_of_length_le (by rw [x.uint512_init_length]), List.append_nil]
  refine ⟨_, _, runBlock_eq x ⟨sz, []⟩ b, calls_block _ b, ?_, rfl, ?_, ?_, hd⟩
  · rw [hps]
    simp [linearCalls, evalSrc, evalLen, Range.count]
  · rw [hps]
    simp only [linearCalls, List.tail_cons, tailCalls_src, hsz, List.range_eq_range']
  · simp only [hps, hbytes, pipelineSlots, List.head?, hslot]

/-- C26: on the default path (LEGACY, or TRANSITIONAL with an unrecognised
selector) the last invocation is HAVAL-256/5 on the 64 bytes of slot 31, its
32-byte digest is the first half of slot 32, and the value returned is that
digest, whole. -/
theorem phiCHOX_default_returns_haval (x : Lib) (input : Range) (prev : List Byte) (t : Nat)
    (hprev : prev ≠ [])
    (hdef : t < 1644451200 ∨ (1644451200 ≤ t ∧ t < 1646118000
      ∧ ∃ c, prev.getLast? = some c ∧ ¬ isSelector c.val)) :
    ∃ f cs s31, phiCHOX_run x input prev t = some f ∧ calls f.log = some cs
      ∧ cs.getLast? = some ⟨Prim.haval256_5, Ptr.hash 31, 64, 32⟩
      ∧ f.hash.get? 31 = some s31 ∧ s31.length = 64
      ∧ readMem input f.hash (Ptr.hash 31) 64 = some s31
      ∧ f.hash.get? 32 = some (x.digest Prim.haval256_5 s31 ++ x.uint512_init.drop 32)
      ∧ (x.digest Prim.haval256_5 s31).length = 32
      ∧ f.retIndex = 32
      ∧ phiCHOX x input prev t = some (x.digest Prim.haval256_5 s31) := by
  have key (b : Block) (hr : b.recipe = Block.legacy.recipe) (hret : b.ret = 32)
      (hrun : phiCHOX_run x input prev t = runBlock x input b) :
      ∃ f cs s31, phiCHOX_run x input prev t = some f ∧ calls f.log = some cs
        ∧ cs.getLast? = some ⟨Prim.haval256_5, Ptr.hash 31, 64, 32⟩
        ∧ f.hash.get? 31 = some s31 ∧ s31.length = 64
        ∧ readMem input f.hash (Ptr.hash 31) 64 = some s31
        ∧ f.hash.get? 32 = some (x.digest Prim.haval256_5 s31 ++ x.uint512_init.drop 32)
        ∧ (x.digest Prim.haval256_5 s31).length = 32
        ∧ f.retIndex = 32
        ∧ phiCHOX x input prev t = some (x.digest Prim.haval256_5 s31) := by
    have hf := hrun.trans (runBlock_eq x input b)
    obtain ⟨s31, hs1, hs2, hs3⟩ :=
      pipelineSlots_get x Block.legacy.recipe input.bytes 31 Prim.haval256_5 rfl
    have hd : (x.digest Prim.haval256_5 s31).length = 32 := x.digest_length _ _
    have hslot : slotOf x Prim.haval256_5 s31
        = x.digest Prim.haval256_5 s31 ++ x.uint512_init.drop 32 := by
      simp only [slotOf, store, hd]
    rw [hslot] at hs3
    rw [List.get?_eq_getElem?] at hs3
    refine ⟨_, _, s31, hf, calls_block input b, ?_, ?_, hs2, ?_, ?_, hd, hret, ?_⟩
    · rw [hr]; rfl
    · rw [hr]; exact hs1
    · rw [hr]; exact readMem_hash_get input _ 31 s31 hs1 hs2
    · rw [hr, List.get?_eq_getElem?]; exact hs3
    · simp only [phiCHOX, hf, Option.map_some', hr, hret, List.getD, List.get?_eq_getElem?,
        hs3, Option.getD_some, trim256]
      rw [List.take_left' hd]
  rcases hdef with ht | ⟨h1, h2, c, hc, hns⟩
  · exact key Block.legacy rfl rfl (phiCHOX_run_legacy x input prev t hprev ht)
  · exact key Block.fallback rfl rfl (phiCHOX_run_fallback x input prev t c hc hns h1 h2)

/-- Instance of C26 at scenario S2. -/
theorem phiCHOX_default_returns_haval_witness :
    ([48] : List Byte) ≠ []
      ∧ (1500000000 < 1644451200 ∨ (1644451200 ≤ 1500000000 ∧ 1500000000 < 1646118000
          ∧ ∃ c, ([48] : List Byte).getLast? = some c ∧ ¬ isSelector c.val))
      ∧ ∃ f cs s31, phiCHOX_run sampleLib (Range.ofBytes [0, 0]) [48] 1500000000 = some f
          ∧ calls f.log = some cs
          ∧ cs.getLast? = some ⟨Prim.haval256_5, Ptr.hash 31, 64, 32⟩
          ∧ f.hash.get? 31 = some s31 ∧ s31.length = 64
          ∧ readMem (Range.ofBytes [0, 0]) f.hash (Ptr.hash 31) 64 = some s31
          ∧ f.hash.get? 32
              = some (sampleLib.digest Prim.haval256_5 s31 ++ sampleLib.uint512_init.drop 32)
          ∧ (sampleLib.digest Prim.haval256_5 s31).length = 32
          ∧ f.retIndex = 32
          ∧ phiCHOX sampleLib (Range.ofBytes [0, 0]) [48] 1500000000
              = some (sampleLib.digest Prim.haval256_5 s31) :=
  ⟨by decide, Or.inl (by decide),
    phiCHOX_default_returns_haval sampleLib (Range.ofBytes [0, 0]) [48] 1500000000
      (by decide) (Or.inl (by decide))⟩

/-- C27: in each of the nineteen blocks every statement keeps to the declared
array: an update reads its 64 bytes at `&hash[k]` with `k < N`, ending inside
the array, a close writes `hash[k]` with `k < N`, and the `return` reads
`hash[N-1]`; the run meets no access outside the array; `N` is 11 for MODERN,
33 for LEGACY and the default, 34..49 for the selectors `0`..`f`. -/
theorem phiCHOX_slot_indices_in_bounds (x : Lib) (input : Range) (b : Block) :
    b.body.all (Stmt.inBounds b.size) = true
      ∧ b.ret < b.size
      ∧ (∃ f cs, runBlock x input b = some f ∧ calls f.log = some cs
          ∧ f.hash.length = b.size
          ∧ cs.map Call.dst = List.range b.size
          ∧ cs.tail.map Call.src = (List.range (b.size - 1)).map Ptr.hash
          ∧ f.retIndex < f.hash.length)
      ∧ Block.modern.size = 11 ∧ Block.legacy.size = 33 ∧ Block.fallback.size = 33
      ∧ transitionalBlocks.map Block.size
          = [34, 35, 36, 37, 38, 39, 40, 41, 42, 43, 44, 45, 46, 47, 48, 49, 33] := by
  have hlen := b.recipe_length
  have hret := b.ret_succ
  obtain ⟨ps, hps⟩ := b.recipe_head
  have hsz : b.size - 1 = ps.length := by
    rw [← hlen, hps]; simp
  have hd := linearCalls_dst input b.recipe
  rw [hlen] at hd
  refine ⟨b.body_inBounds, by omega, ⟨_, _, runBlock_eq x input b, calls_block input b, ?_, hd,
    ?_, ?_⟩, rfl, rfl, rfl, rfl⟩
  · rw [pipelineSlots_length, hlen]
  · rw [hps]
    simp only [linearCalls, List.tail_cons, tailCalls_src, hsz, List.range_eq_range']
  · simp only [pipelineSlots_length, hlen]; omega

/-- C28: for a pair of selectors of `nestedPairs` (`1 6`, `6 c`, `c d`, `d e`,
`e f`, `4 9`, `9 a`, `3 7`, `8 b`) in the transitional epoch, the primitives
executed for the first are the beginning of those executed for the second, and
the array of the second begins with the array of the first: the final slot of
the first, which its digest is trimmed from, is the slot of that index of the
second.  For `e` and `f`: slot 47 of `f` is the final slot of `e` and the digest
of `f` is the first 32 bytes of Skein of it. -/
theorem phiCHOX_nested_recipes (x : Lib) (input : Range) (t : Nat) (c1 c2 : Byte)
    (h1 : 1644451200 ≤ t) (h2 : t < 1646118000) (hp : (c1, c2) ∈ nestedPairs) :
    (∃ f1 f2 r1 r2 s, phiCHOX_run x input [c1] t = some f1
        ∧ phiCHOX_run x input [c2] t = some f2
        ∧ f1.prims = some r1 ∧ f2.prims = some r2
        ∧ r1 <+: r2 ∧ r1.length < r2.length
        ∧ f2.hash.take r1.length = f1.hash
        ∧ f1.hash.getLast? = some s
        ∧ f2.hash.get? f1.retIndex = some s
        ∧ phiCHOX x input [c1] t = some (trim256 s))
      ∧ (∃ fe ff s47, phiCHOX_run x input [101] t = some fe
          ∧ phiCHOX_run x input [102] t = some ff
          ∧ fe.hash.getLast? = some s47
          ∧ ff.hash.get? 47 = some s47
          ∧ phiCHOX x input [102] t = some (trim256 (slotOf x Prim.skein512 s47))) := by
  have hp' (b : Block) : (calls (b.body.map (eventOf input))).map (fun cs => cs.map Call.prim)
      = some b.recipe := by
    rw [calls_block, Option.map_some', linearCalls_prims]
  constructor
  · obtain ⟨ext, hne, hext⟩ := nestedPairs_recipe c1 c2 hp
    have hf1 := (phiCHOX_run_transitional x input [c1] t c1 rfl h1 h2).trans
      (runBlock_eq x input _)
    have hf2 := (phiCHOX_run_transitional x input [c2] t c2 rfl h1 h2).trans
      (runBlock_eq x input _)
    obtain ⟨s, hs1, hs2, hs3, _, _⟩ := (selBlock c1.val).ret_slot x input.bytes
    have htake := pipelineSlots_take x (selBlock c1.val).recipe ext input.bytes
    have hlt : (selBlock c1.val).ret < (selBlock c1.val).recipe.length := by
      have := (selBlock c1.val).ret_succ
      have := (selBlock c1.val).recipe_length
      omega
    refine ⟨_, _, _, _, s, hf1, hf2, hp' _, hp' _, ?_, ?_, ?_, hs2, ?_, ?_⟩
    · exact ⟨ext, hext.symm⟩
    · rw [hext, List.length_append]
      have : 0 < ext.length := List.length_pos.mpr hne
      omega
    · simp only [hext]; exact htake
    · simp only [hext]
      rw [List.get?_eq_getElem?, ← List.getElem?_take_of_lt hlt, htake,
        ← List.get?_eq_getElem?]
      exact hs1
    · simp only [phiCHOX, hf1, Option.map_some', hs3]
  · have hfe := (phiCHOX_run_transitional x input [101] t 101 rfl h1 h2).trans
      (runBlock_eq x input _)
    have hff := (phiCHOX_run_transitional x input [102] t 102 rfl h1 h2).trans
      (runBlock_eq x input _)
    have hrec : (selBlock (102 : Byte).val).recipe
        = (selBlock (101 : Byte).val).recipe ++ [Prim.skein512] := rfl
    obtain ⟨s47, hs1, hs2⟩ := pipelineSlots_concat x (selBlock (101 : Byte).val).recipe
      Prim.skein512 input.bytes (by decide)
    have hl : (pipelineSlots x (selBlock (101 : Byte).val).recipe input.bytes).length = 48 := by
      rw [pipelineSlots_length]; rfl
    have h47 : (pipelineSlots x (selBlock (101 : Byte).val).recipe input.bytes).get? 47
        = some s47 := by
      rw [List.getLast?_eq_getElem?, hl] at hs1
      rw [List.get?_eq_getElem?]; exact hs1
    refine ⟨_, _, s47, hfe, hff, hs1, ?_, ?_⟩
    · simp only [hrec, hs2]
      rw [List.get?_eq_getElem?, List.getElem?_append_left (by rw [hl]; decide),
        ← List.get?_eq_getElem?]
      exact h47
    · have hret : (selBlock (102 : Byte).val).ret = 48 := rfl
      simp only [phiCHOX, hff, Option.map_some', hrec, hs2, hret, List.getD,
        List.get?_eq_getElem?]
      rw [List.getElem?_append_right (by rw [hl]), hl]
      rfl

/-- Instance of C28 for the pair `6`, `c`. -/
theorem phiCHOX_nested_recipes_witness :
    1644451200 ≤ 1645000000 ∧ 1645000000 < 1646118000
      ∧ ((54, 99) : Byte × Byte) ∈ nestedPairs
      ∧ ∃ f1 f2 r1 r2 s, phiCHOX_run sampleLib (Range.ofBytes [0, 0]) [54] 1645000000 = some f1
          ∧ phiCHOX_run sampleLib (Range.ofBytes [0, 0]) [99] 1645000000 = some f2
          ∧ f1.prims = some r1 ∧ f2.prims = some r2
          ∧ r1 <+: r2 ∧ r1.length < r2.length
          ∧ f2.hash.take r1.length = f1.hash
          ∧ f1.hash.getLast? = some s
          ∧ f2.hash.get? f1.retIndex = some s
          ∧ phiCHOX sampleLib (Range.ofBytes [0, 0]) [54] 1645000000 = some (trim256 s) :=
  ⟨by decide, by decide, by decide,
    (phiCHOX_nested_recipes sampleLib (Range.ofBytes [0, 0]) 1645000000 54 99
      (by decide) (by decide) (by decide)).1⟩

/-! ## The Bitcoin hashers -/

/-- C29: after any sequence of `Write` calls on a `CHash256` that was just
constructed, or just `Reset` whatever it did before, `Finalize` writes
SHA-256(SHA-256(m)), `m` being the bytes written, concatenated in call order;
the inner digest is passed on whole. -/
theorem CHash256_double_sha256 (S : Hasher) (h0 : CHash256 S) (ws : List (List Byte)) :
    ((ws.foldl CHash256.Write (CHash256.new S)).Finalize).1 = S.hash (S.hash (flat ws))
      ∧ ((ws.foldl CHash256.Write h0.Reset).Finalize).1 = S.hash (S.hash (flat ws))
      ∧ (S.hash (flat ws)).take S.outputSize = S.hash (flat ws)
      ∧ (S.hash (S.hash (flat ws))).length = S.outputSize := by
  refine ⟨?_, ?_, S.take_finalize _, S.finalize_length _⟩
  · rw [CHash256_Finalize_fst, CHash256_foldl_Write]
    rfl
  · rw [CHash256_Finalize_fst, CHash256_foldl_Write]
    simp only [CHash256.Reset, S.reset_eq]
    rfl

/-- C30: after any sequence of `Write` calls on a `CHash160` that was just
constructed, or just `Reset`, `Finalize` writes RIPEMD-160(SHA-256(m)), `m`
being the bytes written, concatenated in call order; `Hash160` of a range is
RIPEMD-160(SHA-256) of its bytes, and `Hash160` of a vector or prevector is
`Hash160` of its range `begin()`, `end()`. -/
theorem CHash160_ripemd160_sha256 (S R : Hasher) (h0 : CHash160 S) (ws : List (List Byte))
    (input : Range) (vch : List Byte) :
    ((ws.foldl CHash160.Write (CHash160.new S)).Finalize R).1 = R.hash (S.hash (flat ws))
      ∧ ((ws.foldl CHash160.Write h0.Reset).Finalize R).1 = R.hash (S.hash (flat ws))
      ∧ (R.hash (S.hash (flat ws))).length = R.outputSize
      ∧ Hash160 S R input = R.hash (S.hash input.bytes)
      ∧ Hash160_vector S R vch = Hash160 S R (Range.ofBytes vch)
      ∧ Hash160_prevector S R vch = Hash160 S R (Range.ofBytes vch)
      ∧ Hash160_vector S R vch = R.hash (S.hash vch) := by
  have hrange (i : Range) : Hash160 S R i = R.hash (S.hash i.bytes) := by
    rw [Hash160, CHash160_Finalize_fst, rangeArg_eq]
    rfl
  refine ⟨?_, ?_, R.finalize_length _, hrange input, rfl, rfl, ?_⟩
  · rw [CHash160_Finalize_fst, CHash160_foldl_Write]
    rfl
  · rw [CHash160_Finalize_fst, CHash160_foldl_Write]
    simp only [CHash160.Reset, S.reset_eq]
    rfl
  · rw [Hash160_vector, hrange, Range.ofBytes_bytes]

/-! ## The `Hash` overloads and `CHashVerifier::ignore` -/

/-- C31: `Hash` of one range is SHA-256(SHA-256) of the bytes of the range;
`Hash` of two or of three ranges is `Hash` of the one range of their bytes
concatenated; an empty range is written with length 0 and adds no byte. -/
theorem Hash_concatenation (S : Hasher) (a b c : Range) (sz : Nat) :
    Hash S a = S.hash (S.hash a.bytes)
      ∧ Hash_2 S a b = Hash S (Range.ofBytes (a.bytes ++ b.bytes))
      ∧ Hash_3 S a b c = Hash S (Range.ofBytes (a.bytes ++ b.bytes ++ c.bytes))
      ∧ rangeArg ⟨sz, []⟩ = []
      ∧ Hash S ⟨sz, []⟩ = S.hash (S.hash [])
      ∧ Hash_2 S a ⟨sz, []⟩ = Hash S a
      ∧ Hash_2 S ⟨sz, []⟩ b = Hash S b
      ∧ Hash_3 S a ⟨sz, []⟩ c = Hash_2 S a c := by
  have he : (⟨sz, []⟩ : Range).bytes = [] := rfl
  refine ⟨Hash_eq S a, ?_, ?_, ?_, ?_, ?_, ?_, ?_⟩
  · rw [Hash_2_eq, Hash_eq, Range.ofBytes_bytes]
  · rw [Hash_3_eq, Hash_eq, Range.ofBytes_bytes]
  · rw [rangeArg_eq, he]
  · rw [Hash_eq, he]
  · rw [Hash_2_eq, Hash_eq, he, List.append_nil]
  · rw [Hash_2_eq, Hash_eq, he, List.nil_append]
  · rw [Hash_3_eq, Hash_2_eq, he, List.append_nil]

/-- C32: for every `nSize`, `ignore(nSize)` leaves its loop after at most
`ceil(nSize / 1024) + 1` evaluations of the condition, by the exit or by the
exception of a `read`.  Its reads have the sizes `chunkSizes nSize`: at most
1024 each, exactly 1024 for all but the last, `nSize` in all.  When the stream
delivers `nSize` bytes the hasher is given exactly those bytes, in order, and
the object is left as one `read` of `nSize` bytes leaves it; when it does not,
the exception is passed on. -/
theorem CHashVerifier_ignore_chunks (S : Hasher) (Src : Source) (v : CHashVerifier S Src)
    (data0 : List Byte) (nSize fuel : Nat) (hfuel : (nSize + 1023) / 1024 < fuel) :
    (∃ out, v.ignore fuel data0 nSize = some out)
      ∧ (∀ k ∈ chunkSizes nSize, k ≤ 1024)
      ∧ (∀ k ∈ (chunkSizes nSize).dropLast, k = 1024)
      ∧ (chunkSizes nSize).sum = nSize
      ∧ (Src.read v.source nSize = none → v.ignore fuel data0 nSize = some none)
      ∧ (∀ d pos, Src.read v.source nSize = some (d, pos) →
          ∃ r buf, v.ignore fuel data0 nSize = some (some r)
            ∧ flat r.chunks = d
            ∧ r.chunks.map List.length = chunkSizes nSize
            ∧ r.obj.source = pos
            ∧ r.obj.writer.ctx.sha = S.write v.writer.ctx.sha d
            ∧ v.read (List.replicate nSize 0) nSize = some (buf, r.obj)
            ∧ r.obj.writer.GetHash = S.hash (S.finalize (S.write v.writer.ctx.sha d))) := by
  have hok : ∀ d pos, Src.read v.source nSize = some (d, pos) →
      ∃ r buf, v.ignore fuel data0 nSize = some (some r)
        ∧ flat r.chunks = d
        ∧ r.chunks.map List.length = chunkSizes nSize
        ∧ r.obj.source = pos
        ∧ r.obj.writer.ctx.sha = S.write v.writer.ctx.sha d
        ∧ v.read (List.replicate nSize 0) nSize = some (buf, r.obj)
        ∧ r.obj.writer.GetHash = S.hash (S.finalize (S.write v.writer.ctx.sha d)) := by
    intro d pos hread
    obtain ⟨data', cs, hloop, hflat, hlen⟩ :=
      ignoreLoop_ok S Src fuel v data0 nSize [] d pos hfuel hread
    have hl := Src.read_length _ _ _ _ hread
    refine ⟨_, store (List.replicate nSize 0) d, hloop, ?_, ?_, rfl, rfl, ?_, ?_⟩
    · simp only [List.nil_append, hflat]
    · simp only [List.nil_append, hlen]
    · simp only [CHashVerifier.read, hread, CHashWriter.write, CHash256.Write,
        store_take _ d nSize hl]
    · simp only [CHashWriter.GetHash, CHash256_Finalize_fst]
  refine ⟨?_, chunkSizes_le nSize, chunkSizes_dropLast nSize, chunkSizes_sum nSize,
    fun h => ignoreLoop_throws S Src fuel v data0 nSize [] hfuel h, hok⟩
  cases hread : Src.read v.source nSize with
  | none => exact ⟨_, ignoreLoop_throws S Src fuel v data0 nSize [] hfuel hread⟩
  | some r =>
    obtain ⟨d, pos⟩ := r
    obtain ⟨r, _, hr, _⟩ := hok d pos hread
    exact ⟨_, hr⟩

/-- Instance of C32: `ignore(2500)` on a stream of 3000 bytes, with the four
evaluations of the condition it takes: reads of 1024, 1024 and 452 bytes. -/
theorem CHashVerifier_ignore_chunks_witness :
    (2500 + 1023) / 1024 < 4
      ∧ chunkSizes 2500 = [1024, 1024, 452]
      ∧ sampleSource.read (List.replicate 3000 7) 2500
          = some ((List.replicate 3000 7).take 2500, (List.replicate 3000 7).drop 2500)
      ∧ ∃ r, CHashVerifier.ignore 4
            (⟨⟨CHash256.new (sampleHasher 32), 0, 0⟩, List.replicate 3000 7⟩ :
              CHashVerifier (sampleHasher 32) sampleSource)
            (List.replicate 1024 0) 2500 = some (some r)
          ∧ flat r.chunks = (List.replicate 3000 7).take 2500
          ∧ r.chunks.map List.length = chunkSizes 2500
          ∧ r.obj.source = (List.replicate 3000 7).drop 2500 := by
  have hread : sampleSource.read (List.replicate 3000 7) 2500
      = some ((List.replicate 3000 7).take 2500, (List.replicate 3000 7).drop 2500) :=
    sampleSource_read _ _ (by rw [List.length_replicate]; decide)
  refine ⟨by decide, by decide, hread, ?_⟩
  obtain ⟨r, _, h1, h2, h3, h4, _⟩ :=
    (CHashVerifier_ignore_chunks (sampleHasher 32) sampleSource
      ⟨⟨CHash256.new (sampleHasher 32), 0, 0⟩, List.replicate 3000 7⟩
      (List.replicate 1024 0) 2500 4 (by decide)).2.2.2.2.2 _ _ hread
  exact ⟨r, h1, h2, h3, h4⟩

end Chainox
